import Mathlib

/-! sonic-sairedis: the remote interface (lib/RedisRemoteSaiInterface.cpp) and
the facade in front of it (lib/Sai.cpp).

A shallow embedding of `RedisRemoteSaiInterface`: every member function is a
state transformer over the members of the class, and every call it makes on a
collaborator (communication channel, virtual object id manager, ASIC database)
is appended to a call log kept next to the members.  What a collaborator
answers is not decided by this class, so the answers are read from an
environment `Env`, as a function of the calls made so far.

The facade `Sai` is embedded the same way over its own members: the context
map, and a log of the calls it makes on contexts.  What the metadata layer of
a context answers is read from an environment `FacadeEnv`.

Calls on the recorder (`m_recorder->record...`) and on the logger only write
to files; they are left out of the state, and so is the api mutex.
-/

namespace sairedis

/-! ## SAI types and constants -/

/-- The type sai_status_t is a signed 32 bit integer. -/
abbrev sai_status_t := Int

/-- The type sai_object_id_t is an unsigned 64 bit integer. -/
abbrev sai_object_id_t := Nat

/-- The type sai_object_type_t (an enum, passed around as an integer). -/
abbrev sai_object_type_t := Nat

/-- The type sai_attr_id_t is an unsigned 32 bit integer. -/
abbrev sai_attr_id_t := Nat

/-- Status codes of saistatus.h, where SAI_STATUS_CODE(x) is -(x). -/
def SAI_STATUS_SUCCESS : sai_status_t := 0
/-- Status code 0x1 of saistatus.h. -/
def SAI_STATUS_FAILURE : sai_status_t := -1
/-- Status code 0x2 of saistatus.h. -/
def SAI_STATUS_NOT_SUPPORTED : sai_status_t := -2
/-- Status code 0x4 of saistatus.h. -/
def SAI_STATUS_INSUFFICIENT_RESOURCES : sai_status_t := -4
/-- Status code 0x5 of saistatus.h. -/
def SAI_STATUS_INVALID_PARAMETER : sai_status_t := -5
/-- Status code 0x7 of saistatus.h. -/
def SAI_STATUS_ITEM_NOT_FOUND : sai_status_t := -7
/-- Status code 0x8 of saistatus.h. -/
def SAI_STATUS_BUFFER_OVERFLOW : sai_status_t := -8

/-- The null handle of saitypes.h. -/
def SAI_NULL_OBJECT_ID : sai_object_id_t := 0

/-- The switch object type of saitypes.h. -/
def SAI_OBJECT_TYPE_SWITCH : sai_object_type_t := 33

/-- Start of the custom range of switch attribute ids (saiswitch.h). -/
def SAI_SWITCH_ATTR_CUSTOM_RANGE_START : sai_attr_id_t := 0x10000000

/-- The enumerators of sai_redis_switch_attr_t that these sources name: the
case labels of `switch (attr->id)` in setRedisExtensionAttribute, in the order
of the source, and SAI_REDIS_SWITCH_ATTR_CONTEXT, which has no case there. The
enum itself is declared in sairedis.h. -/
inductive sai_redis_switch_attr_t
  | PERFORM_LOG_ROTATE
  | RECORD
  | NOTIFY_SYNCD
  | USE_TEMP_VIEW
  | RECORD_STATS
  | SYNC_OPERATION_RESPONSE_TIMEOUT
  | SYNC_MODE
  | REDIS_COMMUNICATION_MODE
  | USE_PIPELINE
  | FLUSH
  | RECORDING_OUTPUT_DIR
  | RECORDING_FILENAME
  | FLEX_COUNTER_GROUP
  | FLEX_COUNTER
  | CONTEXT
  deriving DecidableEq, Repr

/-- The enum sai_redis_communication_mode_t of sairedis.h. -/
inductive sai_redis_communication_mode_t
  | REDIS_ASYNC
  | REDIS_SYNC
  | ZMQ_SYNC
  deriving DecidableEq, Repr

/-- The enum sai_redis_notify_syncd_t of sairedis.h. -/
inductive sai_redis_notify_syncd_t
  | INIT_VIEW
  | APPLY_VIEW
  | INSPECT_ASIC
  | INVOKE_DUMP
  deriving DecidableEq, Repr

/-- The command kinds of sairediscommon.h (REDIS_ASIC_STATE_COMMAND_* and
REDIS_FLEX_COUNTER_COMMAND_*), string macros that differ pairwise. -/
inductive Command
  | CREATE
  | REMOVE
  | SET
  | GET
  | GETRESPONSE
  | NOTIFY
  | BULK_CREATE
  | BULK_REMOVE
  | BULK_SET
  | BULK_GET
  | FLEX_SET_GROUP
  | FLEX_DEL_GROUP
  | FLEX_START_POLL
  | FLEX_STOP_POLL
  | GET_STATS
  | ATTR_CAPABILITY_QUERY
  | ATTR_CAPABILITY_RESPONSE
  | ATTR_ENUM_VALUES_CAPABILITY_QUERY
  | ATTR_ENUM_VALUES_CAPABILITY_RESPONSE
  | STATS_CAPABILITY_QUERY
  | STATS_CAPABILITY_RESPONSE
  deriving DecidableEq, Repr

/-- The enum sai_common_api_t, as far as it is passed to the wait functions. -/
inductive sai_common_api_t
  | CREATE
  | REMOVE
  | SET
  | GET
  | BULK_CREATE
  | BULK_REMOVE
  | BULK_SET
  | BULK_GET
  deriving DecidableEq, Repr

/-- A field/value pair, swss::FieldValueTuple. -/
abbrev FieldValueTuple := String × String

/-- The list sai_s8_list_t: a count and a pointer to a byte buffer. -/
structure sai_s8_list_t where
  count : Nat
  list : Option (List Char)
  deriving DecidableEq, Repr

/-- The struct sai_redis_flex_counter_group_parameter_t of sairedis.h. -/
structure sai_redis_flex_counter_group_parameter_t where
  counter_group_name : sai_s8_list_t
  poll_interval : sai_s8_list_t
  operation : sai_s8_list_t
  stats_mode : sai_s8_list_t
  plugin_name : sai_s8_list_t
  plugins : sai_s8_list_t
  bulk_chunk_size : sai_s8_list_t
  bulk_chunk_size_per_prefix : sai_s8_list_t
  deriving DecidableEq, Repr

/-- The struct sai_redis_flex_counter_parameter_t of sairedis.h. -/
structure sai_redis_flex_counter_parameter_t where
  counter_key : sai_s8_list_t
  counter_ids : sai_s8_list_t
  counter_field_name : sai_s8_list_t
  stats_mode : sai_s8_list_t
  deriving DecidableEq, Repr

/-- The union sai_attribute_value_t, as the members these sources read:
booldata, s32, u64, ptr under the two casts applied to it, and u32 (read by
the facade only). -/
structure sai_attribute_value_t where
  booldata : Bool
  s32 : Int
  u64 : Nat
  ptr_flex_counter_group : Option sai_redis_flex_counter_group_parameter_t
  ptr_flex_counter : Option sai_redis_flex_counter_parameter_t
  u32 : Nat := 0
  deriving DecidableEq, Repr

/-- The struct sai_attribute_t. -/
structure sai_attribute_t where
  id : sai_attr_id_t
  value : sai_attribute_value_t
  deriving DecidableEq, Repr

/-- The type sai_stat_id_t is an unsigned 32 bit integer. -/
abbrev sai_stat_id_t := Nat

/-- The struct sai_attr_capability_t. -/
structure sai_attr_capability_t where
  create_implemented : Bool
  set_implemented : Bool
  get_implemented : Bool
  deriving DecidableEq, Repr

/-- The list sai_s32_list_t: a count and a pointer to a buffer of integers. -/
structure sai_s32_list_t where
  count : Nat
  list : Option (List Int)
  deriving DecidableEq, Repr

/-- The struct sai_stat_capability_t. -/
structure sai_stat_capability_t where
  stat_enum : Nat
  stat_modes : Nat
  deriving DecidableEq, Repr

/-- The list sai_stat_capability_list_t: a count and a pointer to a buffer. -/
structure sai_stat_capability_list_t where
  count : Nat
  list : Option (List sai_stat_capability_t)
  deriving DecidableEq, Repr

/-! ## Collaborators -/

/-- The two channel classes this class constructs. -/
inductive ChannelKind
  | RedisChannel
  | ZeroMQChannel
  deriving DecidableEq, Repr

/-- Modelled from the spec: the communication channel (class Channel and its
subclasses are not part of these sources), as the spec's boundary describes
it: a transport with a buffering flag set by setBuffered and a response
timeout set by setResponseTimeout. -/
structure Channel where
  kind : ChannelKind
  buffered : Bool
  responseTimeout : Nat
  deriving DecidableEq, Repr

/-- Modelled from the spec: a switch entry (class Switch is not part of these
sources): its handle and the notification pointers, which are determined by
the attribute lists handed to the constructor and to updateNotifications,
kept here in the order they arrived. -/
structure Switch where
  m_switchId : sai_object_id_t
  m_notificationSources : List (List sai_attribute_t)
  deriving DecidableEq, Repr

/-- Modelled from the spec: the switch registry (class SwitchContainer is not
part of these sources), a map from switch handle to switch entry. -/
abbrev SwitchContainer := List Switch

/-- Modelled from the spec: lookup in the switch registry. -/
def SwitchContainer.getSwitch (c : SwitchContainer) (switchId : sai_object_id_t) :
    Option Switch :=
  c.find? (fun sw => sw.m_switchId == switchId)

/-- Modelled from the spec: membership in the switch registry. -/
def SwitchContainer.contains (c : SwitchContainer) (switchId : sai_object_id_t) : Bool :=
  (SwitchContainer.getSwitch c switchId).isSome

/-- Modelled from the spec: attach a switch entry under its handle. -/
def SwitchContainer.insert (c : SwitchContainer) (sw : Switch) : SwitchContainer :=
  c.filter (fun x => x.m_switchId != sw.m_switchId) ++ [sw]

/-- Modelled from the spec: detach the switch entry of a handle. -/
def SwitchContainer.removeSwitch (c : SwitchContainer) (switchId : sai_object_id_t) :
    SwitchContainer :=
  c.filter (fun x => x.m_switchId != switchId)

/-- Modelled from the spec: replace the entry of a handle (the effect of
calling updateNotifications on the shared switch object). -/
def SwitchContainer.update (c : SwitchContainer) (sw : Switch) : SwitchContainer :=
  c.map (fun x => if x.m_switchId == sw.m_switchId then sw else x)

/-- Modelled from the spec: Switch::updateNotifications(count, list). -/
def Switch.updateNotifications (sw : Switch) (attrs : List sai_attribute_t) : Switch :=
  { sw with m_notificationSources := sw.m_notificationSources ++ [attrs] }

/-- Modelled from the spec: the constructor Switch(id, count, list), which
stores the handle and reads the notification pointers of the list. -/
def Switch.new (switchId : sai_object_id_t) (attrs : List sai_attribute_t) : Switch :=
  Switch.updateNotifications { m_switchId := switchId, m_notificationSources := [] } attrs

/-- One call made on a collaborator. -/
inductive Call
  | channel_set (key : String) (values : List FieldValueTuple) (command : Command)
  | channel_del (key : String) (command : Command)
  | channel_wait (command : Command)
  | channel_flush
  | channel_setBuffered (buffered : Bool)
  | channel_setResponseTimeout (ms : Nat)
  | allocateNewObjectId (objectType : sai_object_type_t) (switchId : sai_object_id_t)
  | allocateNewSwitchObjectId (hwinfo : String)
  | releaseObjectId (objectId : sai_object_id_t)
  | newVirtualObjectIdManager
  | table_dump
  | meta_init_db
  deriving DecidableEq, Repr

/-- The response tuple swss::KeyOpFieldsValuesTuple filled in by wait. -/
structure KeyOpFieldsValuesTuple where
  key : String
  op : String
  fieldsValues : List FieldValueTuple
  deriving DecidableEq, Repr

/-- What is declared outside these sources and what the collaborators answer.
The decoders give the enumerator an integer stands for (none when it is no
enumerator of the enum); the answers of the channel, of the object id manager
and of the ASIC database may depend on every call made before. -/
structure Env where
  /-- The enumerator of sai_redis_switch_attr_t with this value. -/
  redis_switch_attr : sai_attr_id_t → Option sai_redis_switch_attr_t
  /-- The enumerator of sai_redis_communication_mode_t with this value. -/
  communication_mode : Int → Option sai_redis_communication_mode_t
  /-- The enumerator of sai_redis_notify_syncd_t with this value. -/
  notify_syncd : Int → Option sai_redis_notify_syncd_t
  /-- The attribute id SAI_SWITCH_ATTR_INIT_SWITCH of saiswitch.h. -/
  SAI_SWITCH_ATTR_INIT_SWITCH : sai_attr_id_t
  /-- The function sai_serialize_object_type. -/
  sai_serialize_object_type : sai_object_type_t → String
  /-- The function sai_serialize_object_id. -/
  sai_serialize_object_id : sai_object_id_t → String
  /-- The function sai_serialize(sai_redis_notify_syncd_t). -/
  sai_serialize_notify_syncd : sai_redis_notify_syncd_t → String
  /-- The function SaiAttributeList::serialize_attr_list(type, count, list, false). -/
  serialize_attr_list : sai_object_type_t → List sai_attribute_t → List FieldValueTuple
  /-- The function Globals::joinFieldValues. -/
  joinFieldValues : List FieldValueTuple → String
  /-- The function Globals::getHardwareInfo. -/
  getHardwareInfo : List sai_attribute_t → String
  /-- The function sai_deserialize_status; none when it throws. -/
  sai_deserialize_status : String → Option sai_status_t
  /-- The field name macros POLL_INTERVAL_FIELD, BULK_CHUNK_SIZE_FIELD,
  BULK_CHUNK_SIZE_PER_PREFIX_FIELD, STATS_MODE_FIELD, FLEX_COUNTER_STATUS_FIELD. -/
  POLL_INTERVAL_FIELD : String
  BULK_CHUNK_SIZE_FIELD : String
  BULK_CHUNK_SIZE_PER_PREFIX_FIELD : String
  STATS_MODE_FIELD : String
  FLEX_COUNTER_STATUS_FIELD : String
  /-- The status and response tuple that Channel::wait gives back. -/
  wait : List Call → Command → sai_status_t × KeyOpFieldsValuesTuple
  /-- The handle VirtualObjectIdManager::allocateNewObjectId gives back. -/
  allocateNewObjectId : List Call → sai_object_type_t → sai_object_id_t → sai_object_id_t
  /-- The handle VirtualObjectIdManager::allocateNewSwitchObjectId gives back. -/
  allocateNewSwitchObjectId : List Call → String → sai_object_id_t
  /-- The switch handles that own a key of the ASIC state table when it is dumped. -/
  tableDumpSwitches : List Call → List sai_object_id_t
  /-- Whether a fresh channel of the given class starts buffered. -/
  channelStartsBuffered : ChannelKind → Bool
  /-- The response timeout a fresh channel of the given class starts with. -/
  channelStartTimeout : ChannelKind → Nat
  /-- The function Utils::clearOidValues, as the attribute list it leaves. -/
  clearOidValues : sai_object_type_t → List sai_attribute_t → List sai_attribute_t
  /-- The constructor SaiAttributeList(type, values, countOnly), as the list
  get_attr_list() gives; none when it throws. -/
  SaiAttributeList : sai_object_type_t → List FieldValueTuple → Bool →
    Option (List sai_attribute_t)
  /-- The function transfer_attributes(type, count, src, dst, countOnly), as the
  destination list it leaves; none when it throws. -/
  transfer_attributes : sai_object_type_t → List sai_attribute_t → List sai_attribute_t →
    Bool → Option (List sai_attribute_t)
  /-- The name sai_metadata_get_enum_value_name gives to a counter id in the
  stats enum of an object type; none for NULL. -/
  stats_enum_value_name : sai_object_type_t → sai_stat_id_t → Option String
  /-- The member attridname of sai_metadata_get_attr_metadata(type, id); none
  when the metadata pointer is NULL. -/
  attridname : sai_object_type_t → sai_attr_id_t → Option String
  /-- The function sai_deserialize_stats_capability_list, as the list it
  leaves; none when it throws. -/
  sai_deserialize_stats_capability_list : sai_stat_capability_list_t → String → String →
    Option sai_stat_capability_list_t

/-! ## The class and its state -/

/-- The members of RedisRemoteSaiInterface that the embedded functions read or
write (m_zmqEnable is m_contextConfig->m_zmqEnable; m_meta tells whether the
weak pointer m_meta still has an object; m_tableDump keeps the keys of the
map), followed by the log of calls made on the collaborators. -/
structure RedisRemoteSaiInterface where
  m_initialized : Bool
  m_meta : Bool
  m_zmqEnable : Bool
  m_syncMode : Bool
  m_useTempView : Bool
  m_asicInitViewMode : Bool
  m_redisCommunicationMode : Option sai_redis_communication_mode_t
  m_responseTimeoutMs : Nat
  m_communicationChannel : Option Channel
  m_switchContainer : SwitchContainer
  m_tableDump : List sai_object_id_t
  calls : List Call

/-- How a member function can end without returning: a thrown exception
(SWSS_LOG_THROW, or one of the C++ library), the dereference of a null
pointer, or a write past the end of a caller's buffer. -/
inductive Fault
  | exception (msg : String)
  | nullPointer
  | outOfBounds
  deriving DecidableEq, Repr

/-- The outcome of a member function: a returned value or a fault, each with
the state of the object at that point. -/
inductive Outcome (α : Type)
  | ok (value : α) (self : RedisRemoteSaiInterface)
  | fault (f : Fault) (self : RedisRemoteSaiInterface)

/-- A member function body: from the state of the object to an outcome. -/
def Op (α : Type) : Type := RedisRemoteSaiInterface → Outcome α

/-- Return a value, state unchanged. -/
def Op.pure {α : Type} (a : α) : Op α := fun s => Outcome.ok a s

/-- Sequencing: run the first body, and the rest on its state unless it faulted. -/
def Op.bind {α β : Type} (x : Op α) (f : α → Op β) : Op β := fun s =>
  match x s with
  | Outcome.ok a s1 => f a s1
  | Outcome.fault e s1 => Outcome.fault e s1

instance : Monad Op where
  pure := Op.pure
  bind := Op.bind

/-- Read the state of the object. -/
def Op.get : Op RedisRemoteSaiInterface := fun s => Outcome.ok s s

/-- Change the state of the object. -/
def Op.modify (f : RedisRemoteSaiInterface → RedisRemoteSaiInterface) : Op Unit :=
  fun s => Outcome.ok () (f s)

/-- End with a fault. -/
def Op.fail {α : Type} (e : Fault) : Op α := fun s => Outcome.fault e s

/-- Append a call to the log. -/
def Op.log (c : Call) : Op Unit :=
  Op.modify (fun s => { s with calls := s.calls ++ [c] })

/-- The value returned, if the function returned. -/
def Outcome.value? {α : Type} : Outcome α → Option α
  | Outcome.ok a _ => some a
  | Outcome.fault _ _ => none

/-- The state the object is left in. -/
def Outcome.self {α : Type} : Outcome α → RedisRemoteSaiInterface
  | Outcome.ok _ s => s
  | Outcome.fault _ s => s

/-- Whether the function ended with a fault. -/
def Outcome.isFault {α : Type} : Outcome α → Bool
  | Outcome.ok _ _ => false
  | Outcome.fault _ _ => true

/-! ### Calls through m_communicationChannel and m_virtualObjectIdManager -/

/-- The call m_communicationChannel->set(key, values, command). -/
def channel_set (key : String) (values : List FieldValueTuple) (command : Command) :
    Op Unit := do
  let s ← Op.get
  match s.m_communicationChannel with
  | none => Op.fail Fault.nullPointer
  | some _ => Op.log (Call.channel_set key values command)

/-- The call m_communicationChannel->del(key, command). -/
def channel_del (key : String) (command : Command) : Op Unit := do
  let s ← Op.get
  match s.m_communicationChannel with
  | none => Op.fail Fault.nullPointer
  | some _ => Op.log (Call.channel_del key command)

/-- The call m_communicationChannel->wait(command, kco). -/
def channel_wait (env : Env) (command : Command) :
    Op (sai_status_t × KeyOpFieldsValuesTuple) := do
  let s ← Op.get
  match s.m_communicationChannel with
  | none => Op.fail Fault.nullPointer
  | some _ =>
    Op.log (Call.channel_wait command)
    pure (env.wait s.calls command)

/-- The call m_communicationChannel->flush(). -/
def channel_flush : Op Unit := do
  let s ← Op.get
  match s.m_communicationChannel with
  | none => Op.fail Fault.nullPointer
  | some _ => Op.log Call.channel_flush

/-- The call m_communicationChannel->setBuffered(buffered). -/
def channel_setBuffered (buffered : Bool) : Op Unit := do
  let s ← Op.get
  match s.m_communicationChannel with
  | none => Op.fail Fault.nullPointer
  | some ch =>
    Op.modify (fun s => { s with m_communicationChannel := some { ch with buffered := buffered } })
    Op.log (Call.channel_setBuffered buffered)

/-- The call m_communicationChannel->setResponseTimeout(ms). -/
def channel_setResponseTimeout (ms : Nat) : Op Unit := do
  let s ← Op.get
  match s.m_communicationChannel with
  | none => Op.fail Fault.nullPointer
  | some ch =>
    Op.modify (fun s => { s with m_communicationChannel := some { ch with responseTimeout := ms } })
    Op.log (Call.channel_setResponseTimeout ms)

/-- The assignment m_communicationChannel = std::make_shared of a channel class. -/
def channel_new (env : Env) (kind : ChannelKind) : Op Unit :=
  let ch : Channel :=
    { kind := kind
      buffered := env.channelStartsBuffered kind
      responseTimeout := env.channelStartTimeout kind }
  Op.modify (fun s => { s with m_communicationChannel := some ch })

/-- The call m_virtualObjectIdManager->allocateNewObjectId(objectType, switchId). -/
def vid_allocateNewObjectId (env : Env) (objectType : sai_object_type_t)
    (switchId : sai_object_id_t) : Op sai_object_id_t := do
  let s ← Op.get
  Op.log (Call.allocateNewObjectId objectType switchId)
  pure (env.allocateNewObjectId s.calls objectType switchId)

/-- The call m_virtualObjectIdManager->allocateNewSwitchObjectId(hwinfo). -/
def vid_allocateNewSwitchObjectId (env : Env) (hwinfo : String) : Op sai_object_id_t := do
  let s ← Op.get
  Op.log (Call.allocateNewSwitchObjectId hwinfo)
  pure (env.allocateNewSwitchObjectId s.calls hwinfo)

/-- The call m_virtualObjectIdManager->releaseObjectId(objectId). -/
def vid_releaseObjectId (objectId : sai_object_id_t) : Op Unit :=
  Op.log (Call.releaseObjectId objectId)

/-! ### Member functions -/

/-- RedisRemoteSaiInterface::waitForResponse. -/
def waitForResponse (env : Env) (_api : sai_common_api_t) : Op sai_status_t := do
  let s ← Op.get
  if s.m_syncMode then
    let (status, _kco) ← channel_wait env Command.GETRESPONSE
    pure status
  else
    pure SAI_STATUS_SUCCESS

/-- The field/value list of a create request: the placeholder pair is added
when serialization gave no pair (create and bulkCreate, `if (entry.empty())`). -/
def create_entry (env : Env) (object_type : sai_object_type_t)
    (attr_list : List sai_attribute_t) : List FieldValueTuple :=
  let entry := env.serialize_attr_list object_type attr_list
  if entry.isEmpty then entry ++ [("NULL", "NULL")] else entry

/-- RedisRemoteSaiInterface::create(object_type, serializedObjectId, attr_count, attr_list). -/
def create_serialized (env : Env) (object_type : sai_object_type_t)
    (serializedObjectId : String) (attr_list : List sai_attribute_t) : Op sai_status_t := do
  let entry := create_entry env object_type attr_list
  let serializedObjectType := env.sai_serialize_object_type object_type
  let key := serializedObjectType ++ ":" ++ serializedObjectId
  channel_set key entry Command.CREATE
  let status ← waitForResponse env sai_common_api_t.CREATE
  pure status

/-- RedisRemoteSaiInterface::remove(objectType, serializedObjectId). -/
def remove_serialized (env : Env) (objectType : sai_object_type_t)
    (serializedObjectId : String) : Op sai_status_t := do
  let serializedObjectType := env.sai_serialize_object_type objectType
  let key := serializedObjectType ++ ":" ++ serializedObjectId
  channel_del key Command.REMOVE
  let status ← waitForResponse env sai_common_api_t.REMOVE
  pure status

/-- RedisRemoteSaiInterface::set(objectType, serializedObjectId, attr); the
attribute pointer is read by serialize_attr_list (count 1). -/
def set_serialized (env : Env) (objectType : sai_object_type_t)
    (serializedObjectId : String) (attr : Option sai_attribute_t) : Op sai_status_t := do
  match attr with
  | none => Op.fail Fault.nullPointer
  | some a =>
    let entry := env.serialize_attr_list objectType [a]
    let serializedObjectType := env.sai_serialize_object_type objectType
    let key := serializedObjectType ++ ":" ++ serializedObjectId
    channel_set key entry Command.SET
    let status ← waitForResponse env sai_common_api_t.SET
    pure status

/-- The function sai_metadata_get_attr_by_id of the SAI metadata utilities:
the first attribute of the list that has the given id, or null. -/
def sai_metadata_get_attr_by_id (id : sai_attr_id_t) (attr_list : List sai_attribute_t) :
    Option sai_attribute_t :=
  attr_list.find? (fun a => a.id == id)

/-- RedisRemoteSaiInterface::refreshTableDump: m_tableDump is cleared and
filled from a dump of the ASIC state table, keyed by switch handle. -/
def refreshTableDump (env : Env) : Op Unit := do
  let s ← Op.get
  Op.log Call.table_dump
  Op.modify (fun s1 => { s1 with m_tableDump := env.tableDumpSwitches s.calls })

/-- RedisRemoteSaiInterface::clear_local_state. -/
def clear_local_state : Op Unit := do
  Op.modify (fun s => { s with m_switchContainer := [] })
  Op.log Call.newVirtualObjectIdManager
  let s ← Op.get
  if s.m_meta then
    Op.log Call.meta_init_db
  else
    pure ()

/-- RedisRemoteSaiInterface::create(objectType, objectId, switchId, ...),
lines 216 to 253: the part after the handle has been obtained, reached by the
switch branch and by the branch of the other object types. The result is the
status with the value left in *objectId. -/
def create_allocated (env : Env) (objectType : sai_object_type_t)
    (objectId : sai_object_id_t) (attr_list : List sai_attribute_t) :
    Op (sai_status_t × sai_object_id_t) := do
  if objectId = SAI_NULL_OBJECT_ID then
    pure (SAI_STATUS_INSUFFICIENT_RESOURCES, objectId)
  else
    let status ← create_serialized env objectType (env.sai_serialize_object_id objectId) attr_list
    if objectType = SAI_OBJECT_TYPE_SWITCH ∧ status = SAI_STATUS_SUCCESS then
      let sw := Switch.new objectId attr_list
      Op.modify (fun s => { s with m_switchContainer := SwitchContainer.insert s.m_switchContainer sw })
      pure (status, objectId)
    else if status ≠ SAI_STATUS_SUCCESS then
      vid_releaseObjectId objectId
      pure (status, objectId)
    else
      pure (status, objectId)

/-- RedisRemoteSaiInterface::create(objectType, objectId, switchId, attr_count,
attr_list). The result is the status with the value left in *objectId. -/
def create (env : Env) (objectType : sai_object_type_t) (switchId : sai_object_id_t)
    (attr_list : List sai_attribute_t) : Op (sai_status_t × sai_object_id_t) := do
  if objectType = SAI_OBJECT_TYPE_SWITCH then
    let hwinfo := env.getHardwareInfo attr_list
    let switchId ← vid_allocateNewSwitchObjectId env hwinfo
    if switchId = SAI_NULL_OBJECT_ID then
      pure (SAI_STATUS_FAILURE, switchId)
    else
      let attr := sai_metadata_get_attr_by_id env.SAI_SWITCH_ATTR_INIT_SWITCH attr_list
      if attr.isSome ∧ (attr.map (fun a => a.value.booldata)) = some false then
        let s ← Op.get
        if SwitchContainer.contains s.m_switchContainer switchId then
          pure (SAI_STATUS_SUCCESS, switchId)
        else
          refreshTableDump env
          let s1 ← Op.get
          if switchId ∉ s1.m_tableDump then
            vid_releaseObjectId switchId
            pure (SAI_STATUS_FAILURE, switchId)
          else
            let sw := Switch.new switchId attr_list
            Op.modify (fun s2 =>
              { s2 with m_switchContainer := SwitchContainer.insert s2.m_switchContainer sw })
            pure (SAI_STATUS_SUCCESS, switchId)
      else
        create_allocated env objectType switchId attr_list
  else
    let objectId ← vid_allocateNewObjectId env objectType switchId
    create_allocated env objectType objectId attr_list

/-- RedisRemoteSaiInterface::remove(objectType, objectId). -/
def remove (env : Env) (objectType : sai_object_type_t) (objectId : sai_object_id_t) :
    Op sai_status_t := do
  let status ← remove_serialized env objectType (env.sai_serialize_object_id objectId)
  if objectType = SAI_OBJECT_TYPE_SWITCH ∧ status = SAI_STATUS_SUCCESS then
    vid_releaseObjectId objectId
    Op.modify (fun s =>
      { s with m_switchContainer := SwitchContainer.removeSwitch s.m_switchContainer objectId })
    pure status
  else
    pure status

/-- RedisRemoteSaiInterface::isRedisAttribute. -/
def isRedisAttribute (objectType : sai_object_type_t) (attr : Option sai_attribute_t) : Bool :=
  if objectType ≠ SAI_OBJECT_TYPE_SWITCH then false
  else
    match attr with
    | none => false
    | some a => if a.id < SAI_SWITCH_ATTR_CUSTOM_RANGE_START then false else true

/-- The function strnlen of the C library on a buffer: the number of bytes
before the first NUL among the first maxlen bytes. -/
def strnlen (bytes : List Char) (maxlen : Nat) : Nat :=
  ((bytes.take maxlen).takeWhile (fun c => c != Char.ofNat 0)).length

/-- RedisRemoteSaiInterface::isSaiS8ListValidString. -/
def isSaiS8ListValidString (s8list : sai_s8_list_t) : Bool :=
  match s8list.list with
  | none => false
  | some bytes =>
    if s8list.count > 0 then
      let len := strnlen bytes s8list.count
      if len = s8list.count then true else false
    else
      false

/-- The constructor std::string(pointer, count) on a string list. -/
def s8_string (s8list : sai_s8_list_t) : String :=
  String.mk ((s8list.list.getD []).take s8list.count)

/-- RedisRemoteSaiInterface::emplaceStrings(const sai_s8_list_t &field, value,
entries): the result and the entries afterwards. -/
def emplaceStrings_s8 (field value : sai_s8_list_t) (entries : List FieldValueTuple) :
    Bool × List FieldValueTuple :=
  if isSaiS8ListValidString field ∧ isSaiS8ListValidString value then
    (true, entries ++ [(s8_string field, s8_string value)])
  else
    (false, entries)

/-- RedisRemoteSaiInterface::emplaceStrings(const char *field, value, entries):
the result and the entries afterwards. -/
def emplaceStrings (field : String) (value : sai_s8_list_t) (entries : List FieldValueTuple) :
    Bool × List FieldValueTuple :=
  if isSaiS8ListValidString value then
    (true, entries ++ [(field, s8_string value)])
  else
    (false, entries)

/-- RedisRemoteSaiInterface::notifyCounterGroupOperations. -/
def notifyCounterGroupOperations (env : Env) (_objectId : sai_object_id_t)
    (flexCounterGroupParam : Option sai_redis_flex_counter_group_parameter_t) :
    Op sai_status_t := do
  match flexCounterGroupParam with
  | none => pure SAI_STATUS_FAILURE
  | some p =>
    if ¬ isSaiS8ListValidString p.counter_group_name then
      pure SAI_STATUS_FAILURE
    else
      let key := s8_string p.counter_group_name
      let entries : List FieldValueTuple := []
      let entries := (emplaceStrings env.POLL_INTERVAL_FIELD p.poll_interval entries).2
      let entries := (emplaceStrings env.BULK_CHUNK_SIZE_FIELD p.bulk_chunk_size entries).2
      let entries :=
        (emplaceStrings env.BULK_CHUNK_SIZE_PER_PREFIX_FIELD p.bulk_chunk_size_per_prefix entries).2
      let entries := (emplaceStrings env.STATS_MODE_FIELD p.stats_mode entries).2
      let entries := (emplaceStrings_s8 p.plugin_name p.plugins entries).2
      let entries := (emplaceStrings env.FLEX_COUNTER_STATUS_FIELD p.operation entries).2
      channel_set key entries
        (if entries.length ≠ 0 then Command.FLEX_SET_GROUP else Command.FLEX_DEL_GROUP)
      waitForResponse env sai_common_api_t.SET

/-- RedisRemoteSaiInterface::notifyCounterOperations. -/
def notifyCounterOperations (env : Env) (_objectId : sai_object_id_t)
    (flexCounterParam : Option sai_redis_flex_counter_parameter_t) : Op sai_status_t := do
  match flexCounterParam with
  | none => pure SAI_STATUS_FAILURE
  | some p =>
    if ¬ isSaiS8ListValidString p.counter_key then
      pure SAI_STATUS_FAILURE
    else
      let entries : List FieldValueTuple := []
      let key := s8_string p.counter_key
      let r := emplaceStrings_s8 p.counter_field_name p.counter_ids entries
      if r.1 then
        let entries := (emplaceStrings env.STATS_MODE_FIELD p.stats_mode r.2).2
        channel_set key entries Command.FLEX_START_POLL
        waitForResponse env sai_common_api_t.SET
      else
        channel_set key r.2 Command.FLEX_STOP_POLL
        waitForResponse env sai_common_api_t.SET

/-- RedisRemoteSaiInterface::waitForNotifySyncdResponse. -/
def waitForNotifySyncdResponse (env : Env) : Op sai_status_t := do
  let (status, _kco) ← channel_wait env Command.NOTIFY
  pure status

/-- RedisRemoteSaiInterface::notifySyncd. -/
def notifySyncd (env : Env) (_switchId : sai_object_id_t)
    (redisNotifySyncd : sai_redis_notify_syncd_t) : Op sai_status_t := do
  let entry : List FieldValueTuple := []
  let key := env.sai_serialize_notify_syncd redisNotifySyncd
  channel_set key entry Command.NOTIFY
  let status ← waitForNotifySyncdResponse env
  pure status

/-- RedisRemoteSaiInterface::sai_redis_notify_syncd. -/
def sai_redis_notify_syncd (env : Env) (switchId : sai_object_id_t) (attr : sai_attribute_t) :
    Op sai_status_t := do
  match env.notify_syncd attr.value.s32 with
  | none => pure SAI_STATUS_FAILURE
  | some redisNotifySyncd =>
    let status ← notifySyncd env switchId redisNotifySyncd
    if status = SAI_STATUS_SUCCESS then
      match redisNotifySyncd with
      | sai_redis_notify_syncd_t.INIT_VIEW =>
        Op.modify (fun s => { s with m_asicInitViewMode := true })
        clear_local_state
        pure status
      | sai_redis_notify_syncd_t.APPLY_VIEW =>
        Op.modify (fun s => { s with m_asicInitViewMode := false })
        pure status
      | sai_redis_notify_syncd_t.INSPECT_ASIC => pure status
      | sai_redis_notify_syncd_t.INVOKE_DUMP => pure status
    else
      pure status

/-- RedisRemoteSaiInterface::setRedisExtensionAttribute, case
SAI_REDIS_SWITCH_ATTR_REDIS_COMMUNICATION_MODE. -/
def setRedisCommunicationMode (env : Env) (attr : sai_attribute_t) : Op sai_status_t := do
  Op.modify (fun s =>
    { s with m_redisCommunicationMode := env.communication_mode attr.value.s32 })
  Op.modify (fun s =>
    if s.m_zmqEnable then
      { s with m_redisCommunicationMode := some sai_redis_communication_mode_t.ZMQ_SYNC }
    else s)
  Op.modify (fun s => { s with m_communicationChannel := none })
  let s ← Op.get
  match s.m_redisCommunicationMode with
  | some sai_redis_communication_mode_t.REDIS_ASYNC =>
    Op.modify (fun s1 => { s1 with m_syncMode := false })
    channel_new env ChannelKind.RedisChannel
    channel_setResponseTimeout s.m_responseTimeoutMs
    channel_setBuffered true
    pure SAI_STATUS_SUCCESS
  | some sai_redis_communication_mode_t.REDIS_SYNC =>
    Op.modify (fun s1 => { s1 with m_syncMode := true })
    channel_new env ChannelKind.RedisChannel
    channel_setResponseTimeout s.m_responseTimeoutMs
    channel_setBuffered false
    pure SAI_STATUS_SUCCESS
  | some sai_redis_communication_mode_t.ZMQ_SYNC =>
    Op.modify (fun s1 => { s1 with m_zmqEnable := true })
    channel_new env ChannelKind.ZeroMQChannel
    channel_setResponseTimeout s.m_responseTimeoutMs
    Op.modify (fun s1 => { s1 with m_syncMode := true })
    channel_setBuffered false
    pure SAI_STATUS_SUCCESS
  | none =>
    pure SAI_STATUS_NOT_SUPPORTED

/-- RedisRemoteSaiInterface::setRedisExtensionAttribute. -/
def setRedisExtensionAttribute (env : Env) (_objectType : sai_object_type_t)
    (objectId : sai_object_id_t) (attr : Option sai_attribute_t) : Op sai_status_t := do
  match attr with
  | none => pure SAI_STATUS_FAILURE
  | some a =>
    match env.redis_switch_attr a.id with
    | some sai_redis_switch_attr_t.PERFORM_LOG_ROTATE => pure SAI_STATUS_SUCCESS
    | some sai_redis_switch_attr_t.RECORD => pure SAI_STATUS_SUCCESS
    | some sai_redis_switch_attr_t.NOTIFY_SYNCD => sai_redis_notify_syncd env objectId a
    | some sai_redis_switch_attr_t.USE_TEMP_VIEW =>
      Op.modify (fun s => { s with m_useTempView := a.value.booldata })
      pure SAI_STATUS_SUCCESS
    | some sai_redis_switch_attr_t.RECORD_STATS => pure SAI_STATUS_SUCCESS
    | some sai_redis_switch_attr_t.SYNC_OPERATION_RESPONSE_TIMEOUT =>
      Op.modify (fun s => { s with m_responseTimeoutMs := a.value.u64 })
      channel_setResponseTimeout a.value.u64
      pure SAI_STATUS_SUCCESS
    | some sai_redis_switch_attr_t.SYNC_MODE =>
      Op.modify (fun s => { s with m_syncMode := a.value.booldata })
      Op.modify (fun s => if s.m_zmqEnable then { s with m_syncMode := true } else s)
      let s ← Op.get
      if s.m_syncMode then
        channel_setBuffered false
        pure SAI_STATUS_SUCCESS
      else
        pure SAI_STATUS_SUCCESS
    | some sai_redis_switch_attr_t.REDIS_COMMUNICATION_MODE =>
      setRedisCommunicationMode env a
    | some sai_redis_switch_attr_t.USE_PIPELINE =>
      let s ← Op.get
      if s.m_syncMode then
        pure SAI_STATUS_NOT_SUPPORTED
      else
        channel_setBuffered a.value.booldata
        pure SAI_STATUS_SUCCESS
    | some sai_redis_switch_attr_t.FLUSH =>
      channel_flush
      pure SAI_STATUS_SUCCESS
    | some sai_redis_switch_attr_t.RECORDING_OUTPUT_DIR => pure SAI_STATUS_SUCCESS
    | some sai_redis_switch_attr_t.RECORDING_FILENAME => pure SAI_STATUS_SUCCESS
    | some sai_redis_switch_attr_t.FLEX_COUNTER_GROUP =>
      notifyCounterGroupOperations env objectId a.value.ptr_flex_counter_group
    | some sai_redis_switch_attr_t.FLEX_COUNTER =>
      notifyCounterOperations env objectId a.value.ptr_flex_counter
    | some sai_redis_switch_attr_t.CONTEXT => pure SAI_STATUS_FAILURE
    | none => pure SAI_STATUS_FAILURE

/-- RedisRemoteSaiInterface::set(objectType, objectId, attr). -/
def set (env : Env) (objectType : sai_object_type_t) (objectId : sai_object_id_t)
    (attr : Option sai_attribute_t) : Op sai_status_t := do
  if isRedisAttribute objectType attr then
    setRedisExtensionAttribute env objectType objectId attr
  else
    let status ← set_serialized env objectType (env.sai_serialize_object_id objectId) attr
    if objectType = SAI_OBJECT_TYPE_SWITCH ∧ status = SAI_STATUS_SUCCESS then
      let s ← Op.get
      match SwitchContainer.getSwitch s.m_switchContainer objectId with
      | none => Op.fail (Fault.exception "failed to find switch in container")
      | some sw =>
        let sw1 := Switch.updateNotifications sw attr.toList
        Op.modify (fun s1 =>
          { s1 with m_switchContainer := SwitchContainer.update s1.m_switchContainer sw1 })
        pure status
    else
      pure status

/-- The loop of waitForBulkResponse that fills object_statuses: for every
idx below object_count, sai_deserialize_status(fvField(values[idx]),
object_statuses[idx]); none when a call throws. -/
def deserialize_statuses (env : Env) (values : List FieldValueTuple) (object_count : Nat) :
    Option (List sai_status_t) :=
  (values.take object_count).mapM (fun fv => env.sai_deserialize_status fv.1)

/-- RedisRemoteSaiInterface::waitForBulkResponse: the status with the entries
written to object_statuses. -/
def waitForBulkResponse (env : Env) (_api : sai_common_api_t) (object_count : Nat) :
    Op (sai_status_t × List sai_status_t) := do
  let s ← Op.get
  if s.m_syncMode then
    let (status, kco) ← channel_wait env Command.GETRESPONSE
    let values := kco.fieldsValues
    if values.length ≠ object_count then
      Op.fail (Fault.exception "wrong number of statuses")
    else
      match deserialize_statuses env values object_count with
      | none => Op.fail (Fault.exception "sai_deserialize_status")
      | some object_statuses => pure (status, object_statuses)
  else
    pure (SAI_STATUS_SUCCESS, List.replicate object_count SAI_STATUS_SUCCESS)

/-- RedisRemoteSaiInterface::bulkCreate(object_type, serialized_object_ids,
attr_count, attr_list, mode, object_statuses); attr_count and attr_list are
arrays with an entry for every serialized id. -/
def bulkCreate_serialized (env : Env) (object_type : sai_object_type_t)
    (serialized_object_ids : List String) (attr_list : List (List sai_attribute_t)) :
    Op (sai_status_t × List sai_status_t) := do
  let str_object_type := env.sai_serialize_object_type object_type
  let entries : List FieldValueTuple :=
    (List.range serialized_object_ids.length).map (fun idx =>
      let entry := create_entry env object_type (attr_list.getD idx [])
      let str_attr := env.joinFieldValues entry
      (serialized_object_ids.getD idx "", str_attr))
  let key := str_object_type ++ ":" ++ toString entries.length
  channel_set key entries Command.BULK_CREATE
  waitForBulkResponse env sai_common_api_t.BULK_CREATE (serialized_object_ids.length % 2 ^ 32)

/-- The first loop of bulkCreate (object id form): allocate a handle for each
of the remaining items, stopping at the first null handle. The result tells
whether every allocation gave a handle, with the entries written to object_id. -/
def bulkCreate_allocate (env : Env) (object_type : sai_object_type_t)
    (switch_id : sai_object_id_t) :
    Nat → List sai_object_id_t → Op (Bool × List sai_object_id_t)
  | 0, object_id => pure (true, object_id)
  | n + 1, object_id => do
    let id ← vid_allocateNewObjectId env object_type switch_id
    if id = SAI_NULL_OBJECT_ID then
      pure (false, object_id ++ [id])
    else
      bulkCreate_allocate env object_type switch_id n (object_id ++ [id])

/-- RedisRemoteSaiInterface::bulkCreate(object_type, switch_id, object_count,
attr_count, attr_list, mode, object_id, object_statuses): the status, the
entries written to object_id and the entries written to object_statuses. -/
def bulkCreate (env : Env) (object_type : sai_object_type_t) (switch_id : sai_object_id_t)
    (object_count : Nat) (attr_list : List (List sai_attribute_t)) :
    Op (sai_status_t × List sai_object_id_t × List sai_status_t) := do
  let (allocated, object_id) ← bulkCreate_allocate env object_type switch_id object_count []
  if ¬ allocated then
    pure (SAI_STATUS_INSUFFICIENT_RESOURCES, object_id, [])
  else
    let serialized_object_ids := object_id.map env.sai_serialize_object_id
    let (status, object_statuses) ←
      bulkCreate_serialized env object_type serialized_object_ids attr_list
    pure (status, object_id, object_statuses)

/-- RedisRemoteSaiInterface::apiInitialize, with the object id manager and the
switch registry set up by clear_local_state. -/
def apiInitialize (env : Env) : Op sai_status_t := do
  let s ← Op.get
  if s.m_initialized then
    pure SAI_STATUS_FAILURE
  else
    Op.modify (fun s1 => { s1 with
      m_asicInitViewMode := false,
      m_useTempView := false,
      m_syncMode := false,
      m_redisCommunicationMode := some sai_redis_communication_mode_t.REDIS_ASYNC })
    channel_new env (if s.m_zmqEnable then ChannelKind.ZeroMQChannel else ChannelKind.RedisChannel)
    Op.modify (fun s1 => if s.m_zmqEnable then { s1 with m_syncMode := true } else s1)
    let s2 ← Op.get
    let timeout := (s2.m_communicationChannel.map (fun c => c.responseTimeout)).getD 0
    Op.modify (fun s1 => { s1 with m_responseTimeoutMs := timeout })
    clear_local_state
    Op.modify (fun s1 => { s1 with m_initialized := true })
    pure SAI_STATUS_SUCCESS

/-- The object as the constructor leaves it before it calls apiInitialize. -/
def constructed (zmqEnable : Bool) : RedisRemoteSaiInterface :=
  { m_initialized := false
    m_meta := false
    m_zmqEnable := zmqEnable
    m_syncMode := false
    m_useTempView := false
    m_asicInitViewMode := false
    m_redisCommunicationMode := some sai_redis_communication_mode_t.REDIS_ASYNC
    m_responseTimeoutMs := 0
    m_communicationChannel := none
    m_switchContainer := []
    m_tableDump := []
    calls := [] }

/-- The calls made on the collaborators between an earlier state of the
object and a later one. -/
def callsSince (before after : RedisRemoteSaiInterface) : List Call :=
  after.calls.drop before.calls.length

/-- The handles passed to releaseObjectId in a list of calls, in call order. -/
def releasedIds (calls : List Call) : List sai_object_id_t :=
  calls.filterMap (fun c =>
    match c with
    | Call.releaseObjectId objectId => some objectId
    | _ => none)

/-- A body is confined to P when, from every state, each call it makes on a
collaborator satisfies P and it leaves the switch registry either as it was
or empty. -/
def Confined {α : Type} (P : Call → Prop) (x : Op α) : Prop :=
  ∀ s, (∃ l, (x s).self.calls = s.calls ++ l ∧ ∀ c ∈ l, P c)
    ∧ ((x s).self.m_switchContainer = s.m_switchContainer
        ∨ (x s).self.m_switchContainer = [])

/-- Whether a call is a request sent under the generic set command kind. -/
def isGenericSet (c : Call) : Bool :=
  match c with
  | Call.channel_set _ _ Command.SET => true
  | _ => false

/-- Lift a computation that has no access to the object into a member function
body. -/
def Op.ofExcept {α : Type} (r : Except Fault α) : Op α :=
  match r with
  | Except.ok a => pure a
  | Except.error e => Op.fail e

/-! ### Bulk remove and bulk set -/

/-- RedisRemoteSaiInterface::bulkRemove(object_type, serialized_object_ids,
mode, object_statuses). -/
def bulkRemove_serialized (env : Env) (object_type : sai_object_type_t)
    (serialized_object_ids : List String) : Op (sai_status_t × List sai_status_t) := do
  let serializedObjectType := env.sai_serialize_object_type object_type
  let entries : List FieldValueTuple :=
    (List.range serialized_object_ids.length).map (fun idx =>
      let str_attr := ""
      (serialized_object_ids.getD idx "", str_attr))
  let key := serializedObjectType ++ ":" ++ toString entries.length
  channel_set key entries Command.BULK_REMOVE
  waitForBulkResponse env sai_common_api_t.BULK_REMOVE (serialized_object_ids.length % 2 ^ 32)

/-- RedisRemoteSaiInterface::bulkRemove(object_type, object_count, object_id,
mode, object_statuses). -/
def bulkRemove (env : Env) (object_type : sai_object_type_t)
    (object_id : List sai_object_id_t) : Op (sai_status_t × List sai_status_t) :=
  bulkRemove_serialized env object_type (object_id.map env.sai_serialize_object_id)

/-- RedisRemoteSaiInterface::bulkSet(object_type, serialized_object_ids,
attr_list, mode, object_statuses); attr_list is an array with one attribute
for every serialized id. -/
def bulkSet_serialized (env : Env) (object_type : sai_object_type_t)
    (serialized_object_ids : List String) (attr_list : List sai_attribute_t) :
    Op (sai_status_t × List sai_status_t) := do
  let entries : List FieldValueTuple :=
    (List.range serialized_object_ids.length).map (fun idx =>
      let entry := env.serialize_attr_list object_type (attr_list.get? idx).toList
      let str_attr := env.joinFieldValues entry
      (serialized_object_ids.getD idx "", str_attr))
  let serializedObjectType := env.sai_serialize_object_type object_type
  let key := serializedObjectType ++ ":" ++ toString entries.length
  channel_set key entries Command.BULK_SET
  waitForBulkResponse env sai_common_api_t.BULK_SET (serialized_object_ids.length % 2 ^ 32)

/-- RedisRemoteSaiInterface::bulkSet(object_type, object_count, object_id,
attr_list, mode, object_statuses). -/
def bulkSet (env : Env) (object_type : sai_object_type_t) (object_id : List sai_object_id_t)
    (attr_list : List sai_attribute_t) : Op (sai_status_t × List sai_status_t) :=
  bulkSet_serialized env object_type (object_id.map env.sai_serialize_object_id) attr_list

/-! ### Get -/

/-- The body shared by the success branch (countOnly false) and the
buffer-overflow branch (countOnly true) of waitForGetResponse: throw when the
response has no value, else build a SaiAttributeList from the values and
transfer its attributes to the caller's list. -/
def transfer_get_response (env : Env) (objectType : sai_object_type_t)
    (values : List FieldValueTuple) (attr_list : List sai_attribute_t) (countOnly : Bool) :
    Except Fault (List sai_attribute_t) :=
  if values.length = 0 then
    Except.error (Fault.exception "logic error, get response returned 0 values!")
  else
    match env.SaiAttributeList objectType values countOnly with
    | none => Except.error (Fault.exception "SaiAttributeList")
    | some list =>
      match env.transfer_attributes objectType list attr_list countOnly with
      | none => Except.error (Fault.exception "transfer_attributes")
      | some transferred => Except.ok transferred

/-- RedisRemoteSaiInterface::waitForGetResponse: the status with the caller's
attribute list as it is left. -/
def waitForGetResponse (env : Env) (objectType : sai_object_type_t)
    (attr_list : List sai_attribute_t) : Op (sai_status_t × List sai_attribute_t) := do
  let (status, kco) ← channel_wait env Command.GETRESPONSE
  let values := kco.fieldsValues
  if status = SAI_STATUS_SUCCESS then
    let transferred ← Op.ofExcept (transfer_get_response env objectType values attr_list false)
    pure (status, transferred)
  else if status = SAI_STATUS_BUFFER_OVERFLOW then
    let transferred ← Op.ofExcept (transfer_get_response env objectType values attr_list true)
    pure (status, transferred)
  else
    pure (status, attr_list)

/-- RedisRemoteSaiInterface::get(objectType, serializedObjectId, attr_count,
attr_list). -/
def get_serialized (env : Env) (objectType : sai_object_type_t)
    (serializedObjectId : String) (attr_list : List sai_attribute_t) :
    Op (sai_status_t × List sai_attribute_t) := do
  let attr_list := env.clearOidValues objectType attr_list
  let entry := env.serialize_attr_list objectType attr_list
  let serializedObjectType := env.sai_serialize_object_type objectType
  let key := serializedObjectType ++ ":" ++ serializedObjectId
  channel_set key entry Command.GET
  let status ← waitForGetResponse env objectType attr_list
  pure status

/-- RedisRemoteSaiInterface::get(objectType, objectId, attr_count, attr_list). -/
def get (env : Env) (objectType : sai_object_type_t) (objectId : sai_object_id_t)
    (attr_list : List sai_attribute_t) : Op (sai_status_t × List sai_attribute_t) :=
  get_serialized env objectType (env.sai_serialize_object_id objectId) attr_list

/-! ### Statistics and capability queries -/

/-- The predicate isspace of the C library, in the C locale. -/
def isspace (c : Char) : Bool :=
  c.toNat = 32 || (9 ≤ c.toNat && c.toNat ≤ 13)

/-- The text a C library integer conversion reads: after leading white space
an optional sign, then the longest run of decimal digits. The result tells
whether the sign was minus, with the digits. -/
def scanInteger (str : String) : Bool × List Char :=
  let cs := str.toList.dropWhile isspace
  let signed : Bool × List Char :=
    match cs with
    | c :: rest =>
      if c.toNat = 45 then (true, rest) else if c.toNat = 43 then (false, rest) else (false, cs)
    | [] => (false, [])
  (signed.1, signed.2.takeWhile Char.isDigit)

/-- The number a run of decimal digits stands for. -/
def digitsValue (digits : List Char) : Nat :=
  digits.foldl (fun acc d => 10 * acc + (d.toNat - 48)) 0

/-- The function std::stoi of the C++ library (base 10): none when it throws,
which it does when no digit can be read or when the value does not fit int. -/
def stoi (str : String) : Option Int :=
  let scanned := scanInteger str
  if scanned.2 = [] then none
  else
    let magnitude : Int := digitsValue scanned.2
    let v : Int := if scanned.1 then -magnitude else magnitude
    if v < -(2 ^ 31) ∨ 2 ^ 31 - 1 < v then none else some v

/-- The function std::stoull of the C++ library (base 10): none when it throws,
which it does when no digit can be read or when the magnitude does not fit
unsigned long long; a minus sign negates the magnitude modulo 2^64. -/
def stoull (str : String) : Option Nat :=
  let scanned := scanInteger str
  if scanned.2 = [] then none
  else
    let magnitude := digitsValue scanned.2
    if 2 ^ 64 - 1 < magnitude then none
    else some (if scanned.1 then (2 ^ 64 - magnitude) % 2 ^ 64 else magnitude)

/-- The function serialize_counter_id_list of Sai.cpp: one pair per counter id,
the enum name with an empty value; it throws when an id has no name. -/
def serialize_counter_id_list (env : Env) (object_type : sai_object_type_t) :
    List sai_stat_id_t → Except Fault (List FieldValueTuple)
  | [] => Except.ok []
  | id :: rest =>
    match env.stats_enum_value_name object_type id with
    | none => Except.error (Fault.exception "failed to find enum")
    | some name =>
      match serialize_counter_id_list env object_type rest with
      | Except.error e => Except.error e
      | Except.ok values => Except.ok ((name, "") :: values)

/-- The loop of waitForGetStatsResponse: counters[idx] = stoull(fvValue(values[idx]))
for every idx below number_of_counters; none when stoull throws. -/
def parse_counters (values : List FieldValueTuple) (number_of_counters : Nat) :
    Option (List Nat) :=
  (values.take number_of_counters).mapM (fun fv => stoull fv.2)

/-- RedisRemoteSaiInterface::waitForGetStatsResponse: the status with the
buffer counters as it is left. -/
def waitForGetStatsResponse (env : Env) (number_of_counters : Nat) (counters : List Nat) :
    Op (sai_status_t × List Nat) := do
  let (status, kco) ← channel_wait env Command.GETRESPONSE
  if status = SAI_STATUS_SUCCESS then
    let values := kco.fieldsValues
    if values.length ≠ number_of_counters then
      Op.fail (Fault.exception "wrong number of counters")
    else
      match parse_counters values number_of_counters with
      | none => Op.fail (Fault.exception "std::stoull")
      | some parsed => pure (status, parsed ++ counters.drop number_of_counters)
  else
    pure (status, counters)

/-- RedisRemoteSaiInterface::getStats; number_of_counters is the length of
counter_ids. -/
def getStats (env : Env) (object_type : sai_object_type_t) (object_id : sai_object_id_t)
    (counter_ids : List sai_stat_id_t) (counters : List Nat) :
    Op (sai_status_t × List Nat) := do
  let entry ← Op.ofExcept (serialize_counter_id_list env object_type counter_ids)
  let str_object_type := env.sai_serialize_object_type object_type
  let key := str_object_type ++ ":" ++ env.sai_serialize_object_id object_id
  channel_set key entry Command.GET_STATS
  waitForGetStatsResponse env counter_ids.length counters

/-- RedisRemoteSaiInterface::waitForQueryAttributeCapabilityResponse: the
status with *capability as it is left. -/
def waitForQueryAttributeCapabilityResponse (env : Env) (capability : sai_attr_capability_t) :
    Op (sai_status_t × sai_attr_capability_t) := do
  let (status, kco) ← channel_wait env Command.ATTR_CAPABILITY_RESPONSE
  if status = SAI_STATUS_SUCCESS then
    let values := kco.fieldsValues
    if values.length ≠ 3 then
      pure (SAI_STATUS_FAILURE, capability)
    else
      let written : sai_attr_capability_t :=
        { create_implemented := (values.getD 0 ("", "")).2 == "true"
          set_implemented := (values.getD 1 ("", "")).2 == "true"
          get_implemented := (values.getD 2 ("", "")).2 == "true" }
      pure (status, written)
  else
    pure (status, capability)

/-- RedisRemoteSaiInterface::queryAttributeCapability. -/
def queryAttributeCapability (env : Env) (switchId : sai_object_id_t)
    (objectType : sai_object_type_t) (attrId : sai_attr_id_t)
    (capability : sai_attr_capability_t) : Op (sai_status_t × sai_attr_capability_t) := do
  let switchIdStr := env.sai_serialize_object_id switchId
  let objectTypeStr := env.sai_serialize_object_type objectType
  match env.attridname objectType attrId with
  | none => pure (SAI_STATUS_INVALID_PARAMETER, capability)
  | some attrIdStr =>
    let entry : List FieldValueTuple := [("OBJECT_TYPE", objectTypeStr), ("ATTR_ID", attrIdStr)]
    channel_set switchIdStr entry Command.ATTR_CAPABILITY_QUERY
    let status ← waitForQueryAttributeCapabilityResponse env capability
    pure status

/-- A write list[i] = v through the pointer of a list: a fault when the
pointer is null or i is past the end of the buffer. -/
def writeAt {α : Type} (list : Option (List α)) (i : Nat) (v : α) :
    Except Fault (Option (List α)) :=
  match list with
  | none => Except.error Fault.nullPointer
  | some buffer =>
    if i < buffer.length then Except.ok (some (buffer.set i v))
    else Except.error Fault.outOfBounds

/-- The loop of waitForQueryAttributeEnumValuesCapabilityResponse over
i < num_capabilities, for the iterations still to run: `rest` is the part of
capability_str from `position` on. An iteration reads the text up to the next
comma, writes its stoi to list[i], and ends the loop when there was no comma
(position == npos). -/
def enum_values_loop : Nat → Nat → List Char → Option (List Int) →
    Except Fault (Option (List Int))
  | 0, _, _, list => Except.ok list
  | n + 1, i, rest, list =>
    let capability := rest.takeWhile (fun c => c.toNat != 44)
    let npos := capability.length = rest.length
    match stoi (String.mk capability) with
    | none => Except.error (Fault.exception "std::stoi")
    | some v =>
      match writeAt list i v with
      | Except.error e => Except.error e
      | Except.ok written =>
        if npos then Except.ok written
        else enum_values_loop n (i + 1) (rest.drop (capability.length + 1)) written

/-- The conversion of an int to uint32_t. -/
def to_uint32 (v : Int) : Nat := (v % 2 ^ 32).toNat

/-- RedisRemoteSaiInterface::waitForQueryAttributeEnumValuesCapabilityResponse:
the status with *enumValuesCapability as it is left. -/
def waitForQueryAttributeEnumValuesCapabilityResponse (env : Env)
    (enumValuesCapability : sai_s32_list_t) : Op (sai_status_t × sai_s32_list_t) := do
  let (status, kco) ← channel_wait env Command.ATTR_ENUM_VALUES_CAPABILITY_RESPONSE
  let values := kco.fieldsValues
  if status = SAI_STATUS_SUCCESS then
    if values.length ≠ 2 then
      pure (SAI_STATUS_FAILURE, enumValuesCapability)
    else
      let capability_str := (values.getD 0 ("", "")).2
      match stoi (values.getD 1 ("", "")).2 with
      | none => Op.fail (Fault.exception "std::stoi")
      | some v =>
        let num_capabilities := to_uint32 v
        let list ← Op.ofExcept
          (enum_values_loop num_capabilities 0 capability_str.toList enumValuesCapability.list)
        pure (status, { count := num_capabilities, list := list })
  else if status = SAI_STATUS_BUFFER_OVERFLOW then
    if values.length ≠ 1 then
      pure (SAI_STATUS_FAILURE, enumValuesCapability)
    else
      match stoi (values.getD 0 ("", "")).2 with
      | none => Op.fail (Fault.exception "std::stoi")
      | some v => pure (status, { enumValuesCapability with count := to_uint32 v })
  else
    pure (status, enumValuesCapability)

/-- The loop `for idx < count: list[idx] = zero` that clears an input list
before a capability query, run when the list pointer is not null: a fault
when count is past the end of the buffer. -/
def clear_list {α : Type} (zero : α) (count : Nat) (list : Option (List α)) :
    Except Fault (Option (List α)) :=
  match list with
  | none => Except.ok none
  | some buffer =>
    if buffer.length < count then Except.error Fault.outOfBounds
    else Except.ok (some (List.replicate count zero ++ buffer.drop count))

/-- RedisRemoteSaiInterface::queryAttributeEnumValuesCapability, on a non-null
enumValuesCapability. -/
def queryAttributeEnumValuesCapability (env : Env) (switchId : sai_object_id_t)
    (objectType : sai_object_type_t) (attrId : sai_attr_id_t)
    (enumValuesCapability : sai_s32_list_t) : Op (sai_status_t × sai_s32_list_t) := do
  let list ← Op.ofExcept (clear_list 0 enumValuesCapability.count enumValuesCapability.list)
  let cleared : sai_s32_list_t := { enumValuesCapability with list := list }
  let switch_id_str := env.sai_serialize_object_id switchId
  let object_type_str := env.sai_serialize_object_type objectType
  match env.attridname objectType attrId with
  | none => pure (SAI_STATUS_INVALID_PARAMETER, cleared)
  | some attr_id_str =>
    let list_size := toString cleared.count
    let entry : List FieldValueTuple :=
      [("OBJECT_TYPE", object_type_str), ("ATTR_ID", attr_id_str), ("LIST_SIZE", list_size)]
    channel_set switch_id_str entry Command.ATTR_ENUM_VALUES_CAPABILITY_QUERY
    let status ← waitForQueryAttributeEnumValuesCapabilityResponse env cleared
    pure status

/-- RedisRemoteSaiInterface::waitForQueryStatsCapabilityResponse: the status
with *stats_capability as it is left. -/
def waitForQueryStatsCapabilityResponse (env : Env)
    (stats_capability : sai_stat_capability_list_t) :
    Op (sai_status_t × sai_stat_capability_list_t) := do
  let (status, kco) ← channel_wait env Command.STATS_CAPABILITY_RESPONSE
  let values := kco.fieldsValues
  if status = SAI_STATUS_SUCCESS then
    if values.length ≠ 3 then
      pure (SAI_STATUS_FAILURE, stats_capability)
    else
      let stat_enum_str := (values.getD 0 ("", "")).2
      let stat_modes_str := (values.getD 1 ("", "")).2
      match stoi (values.getD 2 ("", "")).2 with
      | none => Op.fail (Fault.exception "std::stoi")
      | some v =>
        let counted : sai_stat_capability_list_t :=
          { stats_capability with count := to_uint32 v }
        match env.sai_deserialize_stats_capability_list counted stat_enum_str
            stat_modes_str with
        | none => Op.fail (Fault.exception "sai_deserialize_stats_capability_list")
        | some deserialized => pure (status, deserialized)
  else if status = SAI_STATUS_BUFFER_OVERFLOW then
    if values.length ≠ 1 then
      pure (SAI_STATUS_FAILURE, stats_capability)
    else
      match stoi (values.getD 0 ("", "")).2 with
      | none => Op.fail (Fault.exception "std::stoi")
      | some v => pure (status, { stats_capability with count := to_uint32 v })
  else
    pure (status, stats_capability)

/-- RedisRemoteSaiInterface::queryStatsCapability; the pointer stats_capability
may be null. -/
def queryStatsCapability (env : Env) (switchId : sai_object_id_t)
    (objectType : sai_object_type_t) (stats_capability : Option sai_stat_capability_list_t) :
    Op (sai_status_t × Option sai_stat_capability_list_t) := do
  let switchIdStr := env.sai_serialize_object_id switchId
  let objectTypeStr := env.sai_serialize_object_type objectType
  match stats_capability with
  | none => pure (SAI_STATUS_INVALID_PARAMETER, none)
  | some capability =>
    let zero : sai_stat_capability_t := { stat_enum := 0, stat_modes := 0 }
    let list ← Op.ofExcept (clear_list zero capability.count capability.list)
    let cleared : sai_stat_capability_list_t := { capability with list := list }
    let listSize := toString cleared.count
    let entry : List FieldValueTuple := [("OBJECT_TYPE", objectTypeStr), ("LIST_SIZE", listSize)]
    channel_set switchIdStr entry Command.STATS_CAPABILITY_QUERY
    let (status, written) ← waitForQueryStatsCapabilityResponse env cleared
    pure (status, some written)

/-- The fault a member function ended with, if it did not return. -/
def Outcome.fault? {α : Type} : Outcome α → Option Fault
  | Outcome.ok _ _ => none
  | Outcome.fault f _ => some f

/-! ### Invariants of the extension attributes -/

/-- The invariant "synchronous mode implies the channel is unbuffered": when
m_syncMode is set, the channel the object holds has its buffering flag off. -/
def syncImpliesUnbuffered (s : RedisRemoteSaiInterface) : Prop :=
  s.m_syncMode = true → ∀ ch, s.m_communicationChannel = some ch → ch.buffered = false

/-- A body keeps a relation between states when, from every state, the state
it ends in (returning or not) is related to the state it started from. -/
def Keeps {α : Type} (R : RedisRemoteSaiInterface → RedisRemoteSaiInterface → Prop)
    (x : Op α) : Prop :=
  ∀ s, R s (x s).self

/-- A relation between states that is reflexive and transitive and does not
look at the call log, at the switch registry, at the view flags or at the
response timeout. -/
def Frame (R : RedisRemoteSaiInterface → RedisRemoteSaiInterface → Prop) : Prop :=
  (∀ s, R s s)
    ∧ (∀ a b c, R a b → R b c → R a c)
    ∧ (∀ s calls, R s { s with calls := calls })
    ∧ (∀ s c, R s { s with m_switchContainer := c })
    ∧ (∀ s b, R s { s with m_asicInitViewMode := b })
    ∧ (∀ s b, R s { s with m_useTempView := b })

/-- The relation "if the earlier state satisfies the invariant, the later state
satisfies it". -/
def keepsSyncUnbuffered (s s1 : RedisRemoteSaiInterface) : Prop :=
  syncImpliesUnbuffered s → syncImpliesUnbuffered s1

/-- The relation "if zmq is enabled in the context configuration of the earlier
state, it is enabled in the later state, and if the earlier state moreover
holds a channel, so does the later state". -/
def zmqStaysEnabled (s s1 : RedisRemoteSaiInterface) : Prop :=
  s.m_zmqEnable = true →
    s1.m_zmqEnable = true
      ∧ (s.m_communicationChannel.isSome = true → s1.m_communicationChannel.isSome = true)

/-- A sequence of calls of RedisRemoteSaiInterface::set, each made on the state
the call before it left; the statuses are dropped, and a fault ends the
sequence. -/
def setSequence (env : Env) :
    List (sai_object_type_t × sai_object_id_t × Option sai_attribute_t) → Op Unit
  | [] => pure ()
  | call :: rest => do
    let _ ← set env call.1 call.2.1 call.2.2
    setSequence env rest

/-! ## The facade (lib/Sai.cpp) -/

/-- An entry key (sai_fdb_entry_t, sai_route_entry_t and the other structs of
SAIREDIS_DECLARE_EVERY_ENTRY): the facade reads the member switch_id only; the
other members are kept as one text. -/
structure sai_entry_t where
  switch_id : sai_object_id_t
  key : String
  deriving DecidableEq, Repr

/-- One call the facade makes on a context: a member function of its metadata
layer (context->m_meta->...), named after the function, with the arguments the
facade passes, or Context::populateMetadata. -/
inductive ContextCall
  | create (objectType : sai_object_type_t) (switchId : sai_object_id_t) (attr_count : Nat)
      (attr_list : Option (List sai_attribute_t))
  | remove (objectType : sai_object_type_t) (objectId : sai_object_id_t)
  | set (objectType : sai_object_type_t) (objectId : sai_object_id_t)
      (attr : Option sai_attribute_t)
  | get (objectType : sai_object_type_t) (objectId : sai_object_id_t) (attr_count : Nat)
      (attr_list : List sai_attribute_t)
  | create_entry (entry : sai_entry_t) (attr_count : Nat) (attr_list : List sai_attribute_t)
  | remove_entry (entry : sai_entry_t)
  | set_entry (entry : sai_entry_t) (attr : Option sai_attribute_t)
  | get_entry (entry : sai_entry_t) (attr_count : Nat) (attr_list : List sai_attribute_t)
  | getStats (object_type : sai_object_type_t) (object_id : sai_object_id_t)
      (number_of_counters : Nat) (counter_ids : List sai_stat_id_t)
  | queryStatsCapability (switchId : sai_object_id_t) (objectType : sai_object_type_t)
      (stats_capability : Option sai_stat_capability_list_t)
  | queryStatsStCapability (switchId : sai_object_id_t) (objectType : sai_object_type_t)
  | getStatsExt (object_type : sai_object_type_t) (object_id : sai_object_id_t)
      (number_of_counters : Nat) (counter_ids : List sai_stat_id_t) (mode : Nat)
  | clearStats (object_type : sai_object_type_t) (object_id : sai_object_id_t)
      (number_of_counters : Nat) (counter_ids : List sai_stat_id_t)
  | bulkCreate (object_type : sai_object_type_t) (switch_id : sai_object_id_t)
      (object_count : Nat) (attr_list : List (List sai_attribute_t)) (mode : Nat)
  | bulkRemove (object_type : sai_object_type_t) (object_count : Nat)
      (object_id : List sai_object_id_t) (mode : Nat)
  | bulkSet (object_type : sai_object_type_t) (object_count : Nat)
      (object_id : List sai_object_id_t) (attr_list : List sai_attribute_t) (mode : Nat)
  | bulkGet (object_type : sai_object_type_t) (object_count : Nat)
      (object_id : List sai_object_id_t) (attr_list : List (List sai_attribute_t)) (mode : Nat)
  | bulkCreate_entry (object_count : Nat) (entries : List sai_entry_t)
      (attr_list : List (List sai_attribute_t)) (mode : Nat)
  | bulkRemove_entry (object_count : Nat) (entries : List sai_entry_t) (mode : Nat)
  | bulkSet_entry (object_count : Nat) (entries : List sai_entry_t)
      (attr_list : List sai_attribute_t) (mode : Nat)
  | flushFdbEntries (switch_id : sai_object_id_t) (attr_count : Nat)
      (attr_list : List sai_attribute_t)
  | objectTypeGetAvailability (switchId : sai_object_id_t) (objectType : sai_object_type_t)
      (attrCount : Nat) (attrList : List sai_attribute_t)
  | queryAttributeCapability (switch_id : sai_object_id_t) (object_type : sai_object_type_t)
      (attr_id : sai_attr_id_t)
  | queryAttributeEnumValuesCapability (switch_id : sai_object_id_t)
      (object_type : sai_object_type_t) (attr_id : sai_attr_id_t)
      (enum_values_capability : Option sai_s32_list_t)
  | populateMetadata (switchId : sai_object_id_t)
  deriving DecidableEq, Repr

/-- What a call on a context gives back to the facade: the status, and the
handle left in *objectId by a create. The other output buffers are written
by the context through the caller's pointers and are not read by the facade. -/
structure ContextAnswer where
  status : sai_status_t
  objectId : sai_object_id_t
  deriving DecidableEq, Repr

/-- Modelled from the spec: a context (class Context is not part of these
sources) groups one configuration, one channel and one remote interface with
its switch registry; the member kept here is the remote interface m_redisSai,
on which the metadata layer m_meta operates. -/
structure Context where
  m_redisSai : RedisRemoteSaiInterface

/-- The members of Sai (m_contextMap in the iteration order of the map, by
guid), followed by the log of the calls made on contexts, each with the guid
of the context it was made on. -/
structure Sai where
  m_apiInitialized : Bool
  m_contextMap : List (Nat × Context)
  calls : List (Nat × ContextCall)

/-- What the facade takes from outside these sources: the static decoder
VirtualObjectIdManager::getGlobalContext, two attribute ids of the headers,
the collaborators of the remote interface of each context (by guid), and what
a call on a context answers and does to its remote interface, which may depend
on every call made before. -/
structure FacadeEnv where
  getGlobalContext : sai_object_id_t → Nat
  SAI_REDIS_SWITCH_ATTR_CONTEXT : sai_attr_id_t
  SAI_SWITCH_ATTR_INIT_SWITCH : sai_attr_id_t
  context_env : Nat → Env
  context_answer : List (Nat × ContextCall) → Nat → ContextCall → RedisRemoteSaiInterface →
    ContextAnswer × RedisRemoteSaiInterface

/-- The outcome of an entry point of the facade: a returned value or a fault,
each with the state of the facade at that point. -/
inductive SaiOutcome (α : Type)
  | ok (value : α) (self : Sai)
  | fault (f : Fault) (self : Sai)

/-- An entry point body: from the state of the facade to an outcome. -/
def SaiOp (α : Type) : Type := Sai → SaiOutcome α

/-- The value returned, if the entry point returned. -/
def SaiOutcome.value? {α : Type} : SaiOutcome α → Option α
  | SaiOutcome.ok a _ => some a
  | SaiOutcome.fault _ _ => none

/-- The fault an entry point ended with, if it did not return. -/
def SaiOutcome.fault? {α : Type} : SaiOutcome α → Option Fault
  | SaiOutcome.ok _ _ => none
  | SaiOutcome.fault f _ => some f

/-- The state the facade is left in. -/
def SaiOutcome.self {α : Type} : SaiOutcome α → Sai
  | SaiOutcome.ok _ s => s
  | SaiOutcome.fault _ s => s

/-- Sai::getContext: the context stored under the index, or null. -/
def Sai.getContext (s : Sai) (globalContext : Nat) : Option Context :=
  (s.m_contextMap.find? (fun kvp => kvp.1 == globalContext)).map Prod.snd

/-- The macro REDIS_CHECK_API_INITIALIZED, with the rest of the function as
its continuation. -/
def REDIS_CHECK_API_INITIALIZED (rest : SaiOp sai_status_t) : SaiOp sai_status_t := fun s =>
  if ¬ s.m_apiInitialized then SaiOutcome.ok SAI_STATUS_FAILURE s else rest s

/-- The macro REDIS_CHECK_CONTEXT(oid), with the rest of the function as its
continuation; the variable `context` it declares is handed on as the index
under which the context was found. -/
def REDIS_CHECK_CONTEXT (fenv : FacadeEnv) (oid : sai_object_id_t)
    (rest : Nat → SaiOp sai_status_t) : SaiOp sai_status_t := fun s =>
  let _globalContext := fenv.getGlobalContext oid
  match Sai.getContext s _globalContext with
  | none => SaiOutcome.ok SAI_STATUS_FAILURE s
  | some _ => rest _globalContext s

/-- The macro REDIS_CHECK_POINTER(pointer), with the rest of the function as
its continuation. -/
def REDIS_CHECK_POINTER {α : Type} (pointer : Option α)
    (rest : α → SaiOp sai_status_t) : SaiOp sai_status_t := fun s =>
  match pointer with
  | none => SaiOutcome.ok SAI_STATUS_INVALID_PARAMETER s
  | some p => rest p s

/-- The expression *object_id on an array of handles: its first entry; a
fault when the pointer is null or the array has no entry. -/
def deref_object_id (object_id : Option (List sai_object_id_t))
    (rest : sai_object_id_t → SaiOp sai_status_t) : SaiOp sai_status_t := fun s =>
  match object_id with
  | none => SaiOutcome.fault Fault.nullPointer s
  | some [] => SaiOutcome.fault Fault.outOfBounds s
  | some (oid :: _) => rest oid s

/-- A call on the context found under an index (context->m_meta->f(...) or
context->populateMetadata(...)): it is logged, and the context answers and
leaves its remote interface as the environment says. -/
def context_call (fenv : FacadeEnv) (context : Nat) (call : ContextCall) :
    SaiOp ContextAnswer := fun s =>
  match Sai.getContext s context with
  | none => SaiOutcome.fault Fault.nullPointer s
  | some c =>
    let answer := fenv.context_answer s.calls context call c.m_redisSai
    SaiOutcome.ok answer.1
      { s with
        calls := s.calls ++ [(context, call)],
        m_contextMap := s.m_contextMap.map (fun kvp =>
          if kvp.1 == context then (kvp.1, { m_redisSai := answer.2 }) else kvp) }

/-- The statement `return context->m_meta->f(...)`. -/
def return_context_call (fenv : FacadeEnv) (context : Nat) (call : ContextCall) :
    SaiOp sai_status_t := fun s =>
  match context_call fenv context call s with
  | SaiOutcome.ok answer s1 => SaiOutcome.ok answer.status s1
  | SaiOutcome.fault f s1 => SaiOutcome.fault f s1

/-- Sai::create(objectType, objectId, switchId, attr_count, attr_list), lines
156 to 180: the create on the selected context with the attribute count as it
is then, and populateMetadata after a successful create of a switch that is
marked INIT_SWITCH=false. -/
def Sai.create_on (fenv : FacadeEnv) (context : Nat) (objectType : sai_object_type_t)
    (switchId : sai_object_id_t) (attr_count : Nat)
    (attr_list : Option (List sai_attribute_t)) : SaiOp sai_status_t := fun s =>
  match context_call fenv context
      (ContextCall.create objectType switchId attr_count attr_list) s with
  | SaiOutcome.fault f s1 => SaiOutcome.fault f s1
  | SaiOutcome.ok answer s1 =>
    let status := answer.status
    if objectType = SAI_OBJECT_TYPE_SWITCH ∧ status = SAI_STATUS_SUCCESS then
      let attr := sai_metadata_get_attr_by_id fenv.SAI_SWITCH_ATTR_INIT_SWITCH
        ((attr_list.getD []).take attr_count)
      if attr.isSome ∧ (attr.map (fun a => a.value.booldata)) = some false then
        match context_call fenv context (ContextCall.populateMetadata answer.objectId) s1 with
        | SaiOutcome.fault f s2 => SaiOutcome.fault f s2
        | SaiOutcome.ok _ s2 => SaiOutcome.ok status s2
      else
        SaiOutcome.ok status s1
    else
      SaiOutcome.ok status s1

/-- Sai::create(objectType, objectId, switchId, attr_count, attr_list). The
attribute list is a pointer to a buffer; reading attr_list[attr_count - 1]
past the end of the buffer is a fault. -/
def Sai.create (fenv : FacadeEnv) (objectType : sai_object_type_t)
    (switchId : sai_object_id_t) (attr_count : Nat)
    (attr_list : Option (List sai_attribute_t)) : SaiOp sai_status_t :=
  REDIS_CHECK_API_INITIALIZED (
  REDIS_CHECK_CONTEXT fenv switchId (fun context s =>
    match (if objectType = SAI_OBJECT_TYPE_SWITCH ∧ attr_count > 0 then attr_list else none) with
    | some buffer =>
      match buffer.get? (attr_count - 1) with
      | none => SaiOutcome.fault Fault.outOfBounds s
      | some last =>
        let isContext : Bool := last.id == fenv.SAI_REDIS_SWITCH_ATTR_CONTEXT
        let globalContext := if isContext then last.value.u32 else 0
        let attr_count1 := if isContext then attr_count - 1 else attr_count
        match Sai.getContext s globalContext with
        | none => SaiOutcome.ok SAI_STATUS_FAILURE s
        | some _ =>
          Sai.create_on fenv globalContext objectType switchId attr_count1 attr_list s
    | none => Sai.create_on fenv context objectType switchId attr_count attr_list s))

/-- Sai::remove(objectType, objectId). -/
def Sai.remove (fenv : FacadeEnv) (objectType : sai_object_type_t)
    (objectId : sai_object_id_t) : SaiOp sai_status_t :=
  REDIS_CHECK_API_INITIALIZED (
  REDIS_CHECK_CONTEXT fenv objectId (fun context =>
    return_context_call fenv context (ContextCall.remove objectType objectId)))

/-- RedisRemoteSaiInterface::containsSwitch. -/
def containsSwitch (s : RedisRemoteSaiInterface) (switchId : sai_object_id_t) : Bool :=
  if ¬ SwitchContainer.contains s.m_switchContainer switchId then false else true

/-- The loop of Sai::set over m_contextMap, for the entries still to visit and
the value of `success` so far: the value of `success` at the end with the
entries as the calls left them, or the fault a call of set ended with. -/
def Sai.set_loop (fenv : FacadeEnv) (objectType : sai_object_type_t)
    (objectId : sai_object_id_t) (attr : Option sai_attribute_t) :
    List (Nat × Context) → Bool →
      Except (Fault × List (Nat × Context)) (Bool × List (Nat × Context))
  | [], success => Except.ok (success, [])
  | kvp :: rest, success =>
    if objectType = SAI_OBJECT_TYPE_SWITCH ∧ objectId ≠ SAI_NULL_OBJECT_ID
        ∧ containsSwitch kvp.2.m_redisSai objectId = false then
      match Sai.set_loop fenv objectType objectId attr rest success with
      | Except.ok r => Except.ok (r.1, kvp :: r.2)
      | Except.error r => Except.error (r.1, kvp :: r.2)
    else
      match sairedis.set (fenv.context_env kvp.1) objectType objectId attr kvp.2.m_redisSai with
      | Outcome.fault f redis => Except.error (f, (kvp.1, { m_redisSai := redis }) :: rest)
      | Outcome.ok status redis =>
        match Sai.set_loop fenv objectType objectId attr rest
            (success && decide (status = SAI_STATUS_SUCCESS)) with
        | Except.ok r => Except.ok (r.1, (kvp.1, { m_redisSai := redis }) :: r.2)
        | Except.error r => Except.error (r.1, (kvp.1, { m_redisSai := redis }) :: r.2)

/-- Sai::set(objectType, objectId, attr). The api mutex, which is unlocked for
the communication mode attribute, is not part of the state. -/
def Sai.set (fenv : FacadeEnv) (objectType : sai_object_type_t) (objectId : sai_object_id_t)
    (attr : Option sai_attribute_t) : SaiOp sai_status_t :=
  REDIS_CHECK_API_INITIALIZED (fun s =>
    if isRedisAttribute objectType attr then
      match Sai.set_loop fenv objectType objectId attr s.m_contextMap true with
      | Except.ok r =>
        SaiOutcome.ok (if r.1 then SAI_STATUS_SUCCESS else SAI_STATUS_FAILURE)
          { s with m_contextMap := r.2 }
      | Except.error r => SaiOutcome.fault r.1 { s with m_contextMap := r.2 }
    else
      REDIS_CHECK_CONTEXT fenv objectId (fun context =>
        return_context_call fenv context (ContextCall.set objectType objectId attr)) s)

/-- Sai::get(objectType, objectId, attr_count, attr_list). -/
def Sai.get (fenv : FacadeEnv) (objectType : sai_object_type_t) (objectId : sai_object_id_t)
    (attr_count : Nat) (attr_list : List sai_attribute_t) : SaiOp sai_status_t :=
  REDIS_CHECK_API_INITIALIZED (
  REDIS_CHECK_CONTEXT fenv objectId (fun context =>
    return_context_call fenv context (ContextCall.get objectType objectId attr_count attr_list)))

/-- Sai::create(entry, attr_count, attr_list), of DECLARE_CREATE_ENTRY. -/
def Sai.create_entry (fenv : FacadeEnv) (entry : Option sai_entry_t) (attr_count : Nat)
    (attr_list : List sai_attribute_t) : SaiOp sai_status_t :=
  REDIS_CHECK_API_INITIALIZED (
  REDIS_CHECK_POINTER entry (fun e =>
  REDIS_CHECK_CONTEXT fenv e.switch_id (fun context =>
    return_context_call fenv context (ContextCall.create_entry e attr_count attr_list))))

/-- Sai::remove(entry), of DECLARE_REMOVE_ENTRY. -/
def Sai.remove_entry (fenv : FacadeEnv) (entry : Option sai_entry_t) : SaiOp sai_status_t :=
  REDIS_CHECK_API_INITIALIZED (
  REDIS_CHECK_POINTER entry (fun e =>
  REDIS_CHECK_CONTEXT fenv e.switch_id (fun context =>
    return_context_call fenv context (ContextCall.remove_entry e))))

/-- Sai::set(entry, attr), of DECLARE_SET_ENTRY. -/
def Sai.set_entry (fenv : FacadeEnv) (entry : Option sai_entry_t)
    (attr : Option sai_attribute_t) : SaiOp sai_status_t :=
  REDIS_CHECK_API_INITIALIZED (
  REDIS_CHECK_POINTER entry (fun e =>
  REDIS_CHECK_CONTEXT fenv e.switch_id (fun context =>
    return_context_call fenv context (ContextCall.set_entry e attr))))

/-- Sai::get(entry, attr_count, attr_list), of DECLARE_GET_ENTRY. -/
def Sai.get_entry (fenv : FacadeEnv) (entry : Option sai_entry_t) (attr_count : Nat)
    (attr_list : List sai_attribute_t) : SaiOp sai_status_t :=
  REDIS_CHECK_API_INITIALIZED (
  REDIS_CHECK_POINTER entry (fun e =>
  REDIS_CHECK_CONTEXT fenv e.switch_id (fun context =>
    return_context_call fenv context (ContextCall.get_entry e attr_count attr_list))))

/-- Sai::getStats. -/
def Sai.getStats (fenv : FacadeEnv) (object_type : sai_object_type_t)
    (object_id : sai_object_id_t) (number_of_counters : Nat)
    (counter_ids : List sai_stat_id_t) : SaiOp sai_status_t :=
  REDIS_CHECK_API_INITIALIZED (
  REDIS_CHECK_CONTEXT fenv object_id (fun context =>
    return_context_call fenv context
      (ContextCall.getStats object_type object_id number_of_counters counter_ids)))

/-- Sai::queryStatsCapability. -/
def Sai.queryStatsCapability (fenv : FacadeEnv) (switchId : sai_object_id_t)
    (objectType : sai_object_type_t) (stats_capability : Option sai_stat_capability_list_t) :
    SaiOp sai_status_t :=
  REDIS_CHECK_API_INITIALIZED (
  REDIS_CHECK_CONTEXT fenv switchId (fun context =>
    return_context_call fenv context
      (ContextCall.queryStatsCapability switchId objectType stats_capability)))

/-- Sai::queryStatsStCapability. -/
def Sai.queryStatsStCapability (fenv : FacadeEnv) (switchId : sai_object_id_t)
    (objectType : sai_object_type_t) : SaiOp sai_status_t :=
  REDIS_CHECK_API_INITIALIZED (
  REDIS_CHECK_CONTEXT fenv switchId (fun context =>
    return_context_call fenv context (ContextCall.queryStatsStCapability switchId objectType)))

/-- Sai::getStatsExt. -/
def Sai.getStatsExt (fenv : FacadeEnv) (object_type : sai_object_type_t)
    (object_id : sai_object_id_t) (number_of_counters : Nat)
    (counter_ids : List sai_stat_id_t) (mode : Nat) : SaiOp sai_status_t :=
  REDIS_CHECK_API_INITIALIZED (
  REDIS_CHECK_CONTEXT fenv object_id (fun context =>
    return_context_call fenv context
      (ContextCall.getStatsExt object_type object_id number_of_counters counter_ids mode)))

/-- Sai::clearStats. -/
def Sai.clearStats (fenv : FacadeEnv) (object_type : sai_object_type_t)
    (object_id : sai_object_id_t) (number_of_counters : Nat)
    (counter_ids : List sai_stat_id_t) : SaiOp sai_status_t :=
  REDIS_CHECK_API_INITIALIZED (
  REDIS_CHECK_CONTEXT fenv object_id (fun context =>
    return_context_call fenv context
      (ContextCall.clearStats object_type object_id number_of_counters counter_ids)))

/-- Sai::bulkCreate (object id form). -/
def Sai.bulkCreate (fenv : FacadeEnv) (object_type : sai_object_type_t)
    (switch_id : sai_object_id_t) (object_count : Nat)
    (attr_list : List (List sai_attribute_t)) (mode : Nat) : SaiOp sai_status_t :=
  REDIS_CHECK_API_INITIALIZED (
  REDIS_CHECK_CONTEXT fenv switch_id (fun context =>
    return_context_call fenv context
      (ContextCall.bulkCreate object_type switch_id object_count attr_list mode)))

/-- Sai::bulkRemove (object id form); object_id is a pointer to an array. -/
def Sai.bulkRemove (fenv : FacadeEnv) (object_type : sai_object_type_t) (object_count : Nat)
    (object_id : Option (List sai_object_id_t)) (mode : Nat) : SaiOp sai_status_t :=
  REDIS_CHECK_API_INITIALIZED (
  REDIS_CHECK_POINTER object_id (fun ids =>
  deref_object_id object_id (fun first =>
  REDIS_CHECK_CONTEXT fenv first (fun context =>
    return_context_call fenv context
      (ContextCall.bulkRemove object_type object_count ids mode)))))

/-- Sai::bulkSet (object id form); object_id is a pointer to an array. -/
def Sai.bulkSet (fenv : FacadeEnv) (object_type : sai_object_type_t) (object_count : Nat)
    (object_id : Option (List sai_object_id_t)) (attr_list : List sai_attribute_t)
    (mode : Nat) : SaiOp sai_status_t :=
  REDIS_CHECK_API_INITIALIZED (
  deref_object_id object_id (fun first =>
  REDIS_CHECK_CONTEXT fenv first (fun context =>
    return_context_call fenv context
      (ContextCall.bulkSet object_type object_count (object_id.getD []) attr_list mode))))

/-- Sai::bulkGet (object id form); object_id is a pointer to an array. -/
def Sai.bulkGet (fenv : FacadeEnv) (object_type : sai_object_type_t) (object_count : Nat)
    (object_id : Option (List sai_object_id_t)) (attr_list : List (List sai_attribute_t))
    (mode : Nat) : SaiOp sai_status_t :=
  REDIS_CHECK_API_INITIALIZED (
  deref_object_id object_id (fun first =>
  REDIS_CHECK_CONTEXT fenv first (fun context =>
    return_context_call fenv context
      (ContextCall.bulkGet object_type object_count (object_id.getD []) attr_list mode))))

/-- The expression entries->switch_id on an array of entries: the member of
its first entry; a fault when the array has no entry. -/
def deref_entries (entries : List sai_entry_t)
    (rest : sai_object_id_t → SaiOp sai_status_t) : SaiOp sai_status_t := fun s =>
  match entries with
  | [] => SaiOutcome.fault Fault.outOfBounds s
  | e :: _ => rest e.switch_id s

/-- Sai::bulkCreate(object_count, entries, ...), of DECLARE_BULK_CREATE_ENTRY. -/
def Sai.bulkCreate_entry (fenv : FacadeEnv) (object_count : Nat)
    (entries : Option (List sai_entry_t)) (attr_list : List (List sai_attribute_t))
    (mode : Nat) : SaiOp sai_status_t :=
  REDIS_CHECK_API_INITIALIZED (
  REDIS_CHECK_POINTER entries (fun es =>
  deref_entries es (fun switch_id =>
  REDIS_CHECK_CONTEXT fenv switch_id (fun context =>
    return_context_call fenv context
      (ContextCall.bulkCreate_entry object_count es attr_list mode)))))

/-- Sai::bulkRemove(object_count, entries, ...), of DECLARE_BULK_REMOVE_ENTRY. -/
def Sai.bulkRemove_entry (fenv : FacadeEnv) (object_count : Nat)
    (entries : Option (List sai_entry_t)) (mode : Nat) : SaiOp sai_status_t :=
  REDIS_CHECK_API_INITIALIZED (
  REDIS_CHECK_POINTER entries (fun es =>
  deref_entries es (fun switch_id =>
  REDIS_CHECK_CONTEXT fenv switch_id (fun context =>
    return_context_call fenv context (ContextCall.bulkRemove_entry object_count es mode)))))

/-- Sai::bulkSet(object_count, entries, ...), of DECLARE_BULK_SET_ENTRY. -/
def Sai.bulkSet_entry (fenv : FacadeEnv) (object_count : Nat)
    (entries : Option (List sai_entry_t)) (attr_list : List sai_attribute_t)
    (mode : Nat) : SaiOp sai_status_t :=
  REDIS_CHECK_API_INITIALIZED (
  REDIS_CHECK_POINTER entries (fun es =>
  deref_entries es (fun switch_id =>
  REDIS_CHECK_CONTEXT fenv switch_id (fun context =>
    return_context_call fenv context
      (ContextCall.bulkSet_entry object_count es attr_list mode)))))

/-- Sai::flushFdbEntries. -/
def Sai.flushFdbEntries (fenv : FacadeEnv) (switch_id : sai_object_id_t) (attr_count : Nat)
    (attr_list : List sai_attribute_t) : SaiOp sai_status_t :=
  REDIS_CHECK_API_INITIALIZED (
  REDIS_CHECK_CONTEXT fenv switch_id (fun context =>
    return_context_call fenv context
      (ContextCall.flushFdbEntries switch_id attr_count attr_list)))

/-- Sai::objectTypeGetAvailability. -/
def Sai.objectTypeGetAvailability (fenv : FacadeEnv) (switchId : sai_object_id_t)
    (objectType : sai_object_type_t) (attrCount : Nat) (attrList : List sai_attribute_t) :
    SaiOp sai_status_t :=
  REDIS_CHECK_API_INITIALIZED (
  REDIS_CHECK_CONTEXT fenv switchId (fun context =>
    return_context_call fenv context
      (ContextCall.objectTypeGetAvailability switchId objectType attrCount attrList)))

/-- Sai::queryAttributeCapability. -/
def Sai.queryAttributeCapability (fenv : FacadeEnv) (switch_id : sai_object_id_t)
    (object_type : sai_object_type_t) (attr_id : sai_attr_id_t) : SaiOp sai_status_t :=
  REDIS_CHECK_API_INITIALIZED (
  REDIS_CHECK_CONTEXT fenv switch_id (fun context =>
    return_context_call fenv context
      (ContextCall.queryAttributeCapability switch_id object_type attr_id)))

/-- Sai::queryAttributeEnumValuesCapability. -/
def Sai.queryAttributeEnumValuesCapability (fenv : FacadeEnv) (switch_id : sai_object_id_t)
    (object_type : sai_object_type_t) (attr_id : sai_attr_id_t)
    (enum_values_capability : Option sai_s32_list_t) : SaiOp sai_status_t :=
  REDIS_CHECK_API_INITIALIZED (
  REDIS_CHECK_CONTEXT fenv switch_id (fun context =>
    return_context_call fenv context
      (ContextCall.queryAttributeEnumValuesCapability switch_id object_type attr_id
        enum_values_capability)))

/-! ## Concrete inputs -/

/-- An environment for evaluating the functions on concrete inputs. The
enumerators are numbered in the order of the inductive types above (the
switch attributes from the start of the custom range), every handle is
serialized to the same text, and the collaborators give the same answers
whatever was called before: wait gives `status` with `values`, and both
allocations give `handle`. -/
def exampleEnv (status : sai_status_t) (values : List FieldValueTuple)
    (handle : sai_object_id_t) : Env :=
  { redis_switch_attr := fun id =>
      [sai_redis_switch_attr_t.PERFORM_LOG_ROTATE, sai_redis_switch_attr_t.RECORD,
       sai_redis_switch_attr_t.NOTIFY_SYNCD, sai_redis_switch_attr_t.USE_TEMP_VIEW,
       sai_redis_switch_attr_t.RECORD_STATS,
       sai_redis_switch_attr_t.SYNC_OPERATION_RESPONSE_TIMEOUT,
       sai_redis_switch_attr_t.SYNC_MODE, sai_redis_switch_attr_t.REDIS_COMMUNICATION_MODE,
       sai_redis_switch_attr_t.USE_PIPELINE, sai_redis_switch_attr_t.FLUSH,
       sai_redis_switch_attr_t.RECORDING_OUTPUT_DIR, sai_redis_switch_attr_t.RECORDING_FILENAME,
       sai_redis_switch_attr_t.FLEX_COUNTER_GROUP, sai_redis_switch_attr_t.FLEX_COUNTER,
       sai_redis_switch_attr_t.CONTEXT].get? (id - SAI_SWITCH_ATTR_CUSTOM_RANGE_START)
    communication_mode := fun v =>
      if v = 0 then some sai_redis_communication_mode_t.REDIS_ASYNC
      else if v = 1 then some sai_redis_communication_mode_t.REDIS_SYNC
      else if v = 2 then some sai_redis_communication_mode_t.ZMQ_SYNC
      else none
    notify_syncd := fun v =>
      if v = 0 then some sai_redis_notify_syncd_t.INIT_VIEW
      else if v = 1 then some sai_redis_notify_syncd_t.APPLY_VIEW
      else if v = 2 then some sai_redis_notify_syncd_t.INSPECT_ASIC
      else if v = 3 then some sai_redis_notify_syncd_t.INVOKE_DUMP
      else none
    SAI_SWITCH_ATTR_INIT_SWITCH := 1
    sai_serialize_object_type := fun t =>
      if t = SAI_OBJECT_TYPE_SWITCH then "SAI_OBJECT_TYPE_SWITCH" else "SAI_OBJECT_TYPE_PORT"
    sai_serialize_object_id := fun _ => "oid:0x1000000000123"
    sai_serialize_notify_syncd := fun k =>
      match k with
      | sai_redis_notify_syncd_t.INIT_VIEW => "INIT_VIEW"
      | sai_redis_notify_syncd_t.APPLY_VIEW => "APPLY_VIEW"
      | sai_redis_notify_syncd_t.INSPECT_ASIC => "SYNCD_INSPECT_ASIC"
      | sai_redis_notify_syncd_t.INVOKE_DUMP => "SYNCD_INVOKE_DUMP"
    serialize_attr_list := fun _ attrs => attrs.map (fun a => ("ATTR", if a.value.booldata then "true" else "false"))
    joinFieldValues := fun fvs => String.intercalate "|" (fvs.map (fun fv => fv.1 ++ "=" ++ fv.2))
    getHardwareInfo := fun _ => ""
    sai_deserialize_status := fun str =>
      if str = "SAI_STATUS_SUCCESS" then some SAI_STATUS_SUCCESS
      else if str = "SAI_STATUS_FAILURE" then some SAI_STATUS_FAILURE
      else none
    POLL_INTERVAL_FIELD := "POLL_INTERVAL"
    BULK_CHUNK_SIZE_FIELD := "BULK_CHUNK_SIZE"
    BULK_CHUNK_SIZE_PER_PREFIX_FIELD := "BULK_CHUNK_SIZE_PER_PREFIX"
    STATS_MODE_FIELD := "STATS_MODE"
    FLEX_COUNTER_STATUS_FIELD := "FLEX_COUNTER_STATUS"
    wait := fun _ _ => (status, { key := "", op := "", fieldsValues := values })
    allocateNewObjectId := fun _ _ _ => handle
    allocateNewSwitchObjectId := fun _ _ => handle
    tableDumpSwitches := fun _ => []
    channelStartsBuffered := fun _ => true
    channelStartTimeout := fun _ => 60000
    clearOidValues := fun _ attrs => attrs
    SaiAttributeList := fun _ fvs countOnly =>
      some (fvs.map (fun fv =>
        { id := fv.1.length
          value :=
            { booldata := !countOnly && fv.2 == "true"
              s32 := 0
              u64 := fv.2.length
              ptr_flex_counter_group := none
              ptr_flex_counter := none } }))
    transfer_attributes := fun _ src dst _ =>
      if src.length = dst.length then some src else none
    stats_enum_value_name := fun _ id =>
      if id = 0 then some "SAI_PORT_STAT_IF_IN_OCTETS"
      else if id = 1 then some "SAI_PORT_STAT_IF_IN_UCAST_PKTS"
      else none
    attridname := fun _ id => if id = 0 then some "SAI_PORT_ATTR_TYPE" else none
    sai_deserialize_stats_capability_list := fun l _ _ => some l }

/-- An attribute with the given id and boolean value. -/
def exampleAttr (id : sai_attr_id_t) (booldata : Bool) : sai_attribute_t :=
  { id := id
    value :=
      { booldata := booldata
        s32 := 0
        u64 := 0
        ptr_flex_counter_group := none
        ptr_flex_counter := none } }

/-- An attribute with the given id and signed value. -/
def exampleAttrS32 (id : sai_attr_id_t) (s32 : Int) : sai_attribute_t :=
  { id := id
    value :=
      { booldata := false
        s32 := s32
        u64 := 0
        ptr_flex_counter_group := none
        ptr_flex_counter := none } }

/-- The object after the constructor, without zmq in the context
configuration: asynchronous mode over a redis channel. -/
def exampleAsync : RedisRemoteSaiInterface :=
  (apiInitialize (exampleEnv 0 [] 0) (constructed false)).self

/-- The same object in synchronous mode. -/
def exampleSync : RedisRemoteSaiInterface :=
  { exampleAsync with
    m_syncMode := true,
    m_communicationChannel := exampleAsync.m_communicationChannel.map
      (fun ch => { ch with buffered := false }) }

/-- The asynchronous object after a switch has been created on it. -/
def exampleWithSwitch : RedisRemoteSaiInterface :=
  (create (exampleEnv 0 [] 0x21000000000000) SAI_OBJECT_TYPE_SWITCH 0 [] exampleAsync).self

/-- A string list that holds the bytes of a text, without a NUL. -/
def exampleS8 (str : String) : sai_s8_list_t :=
  { count := str.length, list := some str.toList }

/-- A flex counter parameter that names a counter field and its ids and leaves
the stats mode out. -/
def exampleFlexCounter : sai_redis_flex_counter_parameter_t :=
  { counter_key := exampleS8 "PORT:oid:0x1"
    counter_ids := exampleS8 "SAI_PORT_STAT_IF_IN_OCTETS"
    counter_field_name := exampleS8 "PORT_COUNTER_ID_LIST"
    stats_mode := { count := 0, list := none } }

/-- The asynchronous object after a communication-mode set that selected
zmq-sync (attribute id 0x10000007, value 2). -/
def exampleZmq : RedisRemoteSaiInterface :=
  (setRedisExtensionAttribute (exampleEnv 0 [] 0) SAI_OBJECT_TYPE_SWITCH 0
    (some (exampleAttrS32 0x10000007 2)) exampleAsync).self

/-- A facade environment for evaluating the entry points on concrete inputs:
the context index is the top byte of a handle, the context attribute has the
id 0x1000000e, and every call on a context answers success with the handle
0x21000000000000 and leaves the remote interface as it was. -/
def exampleFacadeEnv : FacadeEnv :=
  { getGlobalContext := fun oid => oid / 2 ^ 56
    SAI_REDIS_SWITCH_ATTR_CONTEXT := 0x1000000e
    SAI_SWITCH_ATTR_INIT_SWITCH := 1
    context_env := fun _ => exampleEnv 0 [] 0
    context_answer := fun _ _ _ redis =>
      ({ status := SAI_STATUS_SUCCESS, objectId := 0x21000000000000 }, redis) }

/-- An initialized facade with two contexts: context 0, whose registry holds
the switch 0x21000000000000, and context 1, whose registry is empty. -/
def exampleSai : Sai :=
  { m_apiInitialized := true
    m_contextMap := [(0, { m_redisSai := exampleWithSwitch }), (1, { m_redisSai := exampleAsync })]
    calls := [] }

/-- An attribute with the given id and u32 value. -/
def exampleAttrU32 (id : sai_attr_id_t) (u32 : Nat) : sai_attribute_t :=
  { id := id
    value :=
      { booldata := false
        s32 := 0
        u64 := 0
        ptr_flex_counter_group := none
        ptr_flex_counter := none
        u32 := u32 } }

/-- A flex counter group parameter whose group name and optional fields are
all null pointers. -/
def exampleFlexCounterGroupUnnamed : sai_redis_flex_counter_group_parameter_t :=
  { counter_group_name := { count := 0, list := none }
    poll_interval := { count := 0, list := none }
    operation := { count := 0, list := none }
    stats_mode := { count := 0, list := none }
    plugin_name := { count := 0, list := none }
    plugins := { count := 0, list := none }
    bulk_chunk_size := { count := 0, list := none }
    bulk_chunk_size_per_prefix := { count := 0, list := none } }

/-! ## Evaluation lemmas -/

theorem run_pure {α : Type} (a : α) (s : RedisRemoteSaiInterface) :
    (pure a : Op α) s = Outcome.ok a s := rfl

theorem run_bind {α β : Type} (x : Op α) (f : α → Op β) (s : RedisRemoteSaiInterface) :
    (x >>= f) s = (match x s with
      | Outcome.ok a s1 => f a s1
      | Outcome.fault e s1 => Outcome.fault e s1) := rfl

theorem run_get (s : RedisRemoteSaiInterface) : Op.get s = Outcome.ok s s := rfl

theorem run_modify (f : RedisRemoteSaiInterface → RedisRemoteSaiInterface)
    (s : RedisRemoteSaiInterface) : Op.modify f s = Outcome.ok () (f s) := rfl

theorem run_fail {α : Type} (e : Fault) (s : RedisRemoteSaiInterface) :
    (Op.fail e : Op α) s = Outcome.fault e s := rfl

theorem run_log (c : Call) (s : RedisRemoteSaiInterface) :
    Op.log c s = Outcome.ok () { s with calls := s.calls ++ [c] } := rfl

theorem channel_set_run (key : String) (values : List FieldValueTuple) (command : Command)
    (s : RedisRemoteSaiInterface) (ch : Channel) (h : s.m_communicationChannel = some ch) :
    channel_set key values command s
      = Outcome.ok () { s with calls := s.calls ++ [Call.channel_set key values command] } := by
  simp [channel_set, run_bind, run_get, h, run_log]

theorem waitForResponse_async (env : Env) (api : sai_common_api_t)
    (s : RedisRemoteSaiInterface) (h : s.m_syncMode = false) :
    waitForResponse env api s = Outcome.ok SAI_STATUS_SUCCESS s := by
  simp [waitForResponse, run_bind, run_get, h, run_pure]

theorem channel_del_run (key : String) (command : Command)
    (s : RedisRemoteSaiInterface) (ch : Channel) (h : s.m_communicationChannel = some ch) :
    channel_del key command s
      = Outcome.ok () { s with calls := s.calls ++ [Call.channel_del key command] } := by
  simp [channel_del, run_bind, run_get, h, run_log]

theorem channel_wait_run (env : Env) (command : Command)
    (s : RedisRemoteSaiInterface) (ch : Channel) (h : s.m_communicationChannel = some ch) :
    channel_wait env command s
      = Outcome.ok (env.wait s.calls command)
          { s with calls := s.calls ++ [Call.channel_wait command] } := by
  simp [channel_wait, run_bind, run_get, h, run_log, run_pure]

theorem waitForResponse_sync (env : Env) (api : sai_common_api_t)
    (s : RedisRemoteSaiInterface) (ch : Channel) (hch : s.m_communicationChannel = some ch)
    (h : s.m_syncMode = true) :
    waitForResponse env api s
      = Outcome.ok (env.wait s.calls Command.GETRESPONSE).1
          { s with calls := s.calls ++ [Call.channel_wait Command.GETRESPONSE] } := by
  simp [waitForResponse, run_bind, run_get, h, run_pure, channel_wait_run env _ s ch hch]

theorem create_serialized_run (env : Env) (object_type : sai_object_type_t)
    (serializedObjectId : String) (attr_list : List sai_attribute_t)
    (s : RedisRemoteSaiInterface) (ch : Channel) (hch : s.m_communicationChannel = some ch) :
    create_serialized env object_type serializedObjectId attr_list s
      = waitForResponse env sai_common_api_t.CREATE
          { s with calls := s.calls ++ [Call.channel_set
              (env.sai_serialize_object_type object_type ++ ":" ++ serializedObjectId)
              (create_entry env object_type attr_list) Command.CREATE] } := by
  simp only [create_serialized, run_bind, channel_set_run _ _ _ s ch hch]
  cases waitForResponse env sai_common_api_t.CREATE _ <;> rfl

theorem remove_serialized_run (env : Env) (objectType : sai_object_type_t)
    (serializedObjectId : String)
    (s : RedisRemoteSaiInterface) (ch : Channel) (hch : s.m_communicationChannel = some ch) :
    remove_serialized env objectType serializedObjectId s
      = waitForResponse env sai_common_api_t.REMOVE
          { s with calls := s.calls ++ [Call.channel_del
              (env.sai_serialize_object_type objectType ++ ":" ++ serializedObjectId)
              Command.REMOVE] } := by
  simp only [remove_serialized, run_bind, channel_del_run _ _ s ch hch]
  cases waitForResponse env sai_common_api_t.REMOVE _ <;> rfl

theorem set_serialized_run (env : Env) (objectType : sai_object_type_t)
    (serializedObjectId : String) (a : sai_attribute_t)
    (s : RedisRemoteSaiInterface) (ch : Channel) (hch : s.m_communicationChannel = some ch) :
    set_serialized env objectType serializedObjectId (some a) s
      = waitForResponse env sai_common_api_t.SET
          { s with calls := s.calls ++ [Call.channel_set
              (env.sai_serialize_object_type objectType ++ ":" ++ serializedObjectId)
              (env.serialize_attr_list objectType [a]) Command.SET] } := by
  simp only [set_serialized, run_bind, channel_set_run _ _ _ s ch hch]
  cases waitForResponse env sai_common_api_t.SET _ <;> rfl

theorem callsSince_append (s s1 : RedisRemoteSaiInterface) (l : List Call)
    (h : s1.calls = s.calls ++ l) : callsSince s s1 = l := by
  simp [callsSince, h]

theorem range_map_eq_zipWith {α β γ : Type} (f : α → β → γ) (a0 : α) (b0 : β)
    (as : List α) (bs : List β) (h : bs.length = as.length) :
    (List.range as.length).map (fun idx => f (as.getD idx a0) (bs.getD idx b0))
      = List.zipWith f as bs := by
  apply List.ext_getElem
  · simp [h]
  · intro i h1 h2
    simp at h1 h2
    simp [List.getD_eq_getElem?_getD, List.getElem?_eq_getElem, h1, h2]

theorem waitForResponse_calls (env : Env) (api : sai_common_api_t)
    (s : RedisRemoteSaiInterface) (ch : Channel) (hch : s.m_communicationChannel = some ch) :
    (waitForResponse env api s).self.calls
      = s.calls ++ (if s.m_syncMode then [Call.channel_wait Command.GETRESPONSE] else []) := by
  cases h : s.m_syncMode
  · rw [waitForResponse_async env api s h]
    simp [Outcome.self]
  · rw [waitForResponse_sync env api s ch hch h]
    simp [Outcome.self]

theorem waitForBulkResponse_calls (env : Env) (api : sai_common_api_t) (object_count : Nat)
    (s : RedisRemoteSaiInterface) (ch : Channel) (hch : s.m_communicationChannel = some ch) :
    (waitForBulkResponse env api object_count s).self.calls
      = s.calls ++ (if s.m_syncMode then [Call.channel_wait Command.GETRESPONSE] else []) := by
  cases h : s.m_syncMode
  · simp [waitForBulkResponse, run_bind, run_get, h, run_pure, Outcome.self]
  · simp only [waitForBulkResponse, run_bind, run_get, h, if_true,
      channel_wait_run env _ s ch hch]
    split
    · simp [run_fail, Outcome.self]
    · cases deserialize_statuses env _ object_count <;> simp [run_fail, run_pure, Outcome.self]

theorem bulkCreate_serialized_run (env : Env) (object_type : sai_object_type_t)
    (serialized_object_ids : List String) (attr_list : List (List sai_attribute_t))
    (s : RedisRemoteSaiInterface) (ch : Channel) (hch : s.m_communicationChannel = some ch) :
    bulkCreate_serialized env object_type serialized_object_ids attr_list s
      = waitForBulkResponse env sai_common_api_t.BULK_CREATE
          (serialized_object_ids.length % 2 ^ 32)
          { s with calls := s.calls ++ [Call.channel_set
              (env.sai_serialize_object_type object_type ++ ":"
                ++ toString serialized_object_ids.length)
              ((List.range serialized_object_ids.length).map (fun idx =>
                (serialized_object_ids.getD idx "",
                  env.joinFieldValues (create_entry env object_type (attr_list.getD idx [])))))
              Command.BULK_CREATE] } := by
  simp only [bulkCreate_serialized, run_bind, channel_set_run _ _ _ s ch hch, List.length_map,
    List.length_range]

theorem vid_allocateNewObjectId_run (env : Env) (objectType : sai_object_type_t)
    (switchId : sai_object_id_t) (s : RedisRemoteSaiInterface) :
    vid_allocateNewObjectId env objectType switchId s
      = Outcome.ok (env.allocateNewObjectId s.calls objectType switchId)
          { s with calls := s.calls ++ [Call.allocateNewObjectId objectType switchId] } := by
  simp [vid_allocateNewObjectId, run_bind, run_get, run_log, run_pure]

theorem vid_allocateNewSwitchObjectId_run (env : Env) (hwinfo : String)
    (s : RedisRemoteSaiInterface) :
    vid_allocateNewSwitchObjectId env hwinfo s
      = Outcome.ok (env.allocateNewSwitchObjectId s.calls hwinfo)
          { s with calls := s.calls ++ [Call.allocateNewSwitchObjectId hwinfo] } := by
  simp [vid_allocateNewSwitchObjectId, run_bind, run_get, run_log, run_pure]

theorem vid_releaseObjectId_run (objectId : sai_object_id_t) (s : RedisRemoteSaiInterface) :
    vid_releaseObjectId objectId s
      = Outcome.ok () { s with calls := s.calls ++ [Call.releaseObjectId objectId] } := by
  simp [vid_releaseObjectId, run_log]

theorem create_allocated_null (env : Env) (objectType : sai_object_type_t)
    (attr_list : List sai_attribute_t) (s : RedisRemoteSaiInterface) :
    create_allocated env objectType SAI_NULL_OBJECT_ID attr_list s
      = Outcome.ok (SAI_STATUS_INSUFFICIENT_RESOURCES, SAI_NULL_OBJECT_ID) s := by
  simp [create_allocated, run_pure]

theorem create_serialized_async (env : Env) (object_type : sai_object_type_t)
    (serializedObjectId : String) (attr_list : List sai_attribute_t)
    (s : RedisRemoteSaiInterface) (ch : Channel) (hch : s.m_communicationChannel = some ch)
    (hmode : s.m_syncMode = false) :
    create_serialized env object_type serializedObjectId attr_list s
      = Outcome.ok SAI_STATUS_SUCCESS
          { s with calls := s.calls ++ [Call.channel_set
              (env.sai_serialize_object_type object_type ++ ":" ++ serializedObjectId)
              (create_entry env object_type attr_list) Command.CREATE] } := by
  rw [create_serialized_run env _ _ _ s ch hch, waitForResponse_async]
  exact hmode

theorem create_serialized_sync (env : Env) (object_type : sai_object_type_t)
    (serializedObjectId : String) (attr_list : List sai_attribute_t)
    (s : RedisRemoteSaiInterface) (ch : Channel) (hch : s.m_communicationChannel = some ch)
    (hmode : s.m_syncMode = true) :
    create_serialized env object_type serializedObjectId attr_list s
      = Outcome.ok
          (env.wait (s.calls ++ [Call.channel_set
              (env.sai_serialize_object_type object_type ++ ":" ++ serializedObjectId)
              (create_entry env object_type attr_list) Command.CREATE]) Command.GETRESPONSE).1
          { s with calls := s.calls ++ [Call.channel_set
              (env.sai_serialize_object_type object_type ++ ":" ++ serializedObjectId)
              (create_entry env object_type attr_list) Command.CREATE,
              Call.channel_wait Command.GETRESPONSE] } := by
  rw [create_serialized_run env _ _ _ s ch hch, waitForResponse_sync env _ _ ch]
  · simp
  · exact hch
  · exact hmode

theorem create_allocated_of_status (env : Env) (objectType : sai_object_type_t)
    (objectId : sai_object_id_t) (attr_list : List sai_attribute_t)
    (s s2 : RedisRemoteSaiInterface) (status : sai_status_t)
    (hid : objectId ≠ SAI_NULL_OBJECT_ID)
    (h : create_serialized env objectType (env.sai_serialize_object_id objectId) attr_list s
      = Outcome.ok status s2) :
    create_allocated env objectType objectId attr_list s
      = if objectType = SAI_OBJECT_TYPE_SWITCH ∧ status = SAI_STATUS_SUCCESS then
          Outcome.ok (status, objectId)
            { s2 with m_switchContainer :=
                SwitchContainer.insert s2.m_switchContainer (Switch.new objectId attr_list) }
        else if status ≠ SAI_STATUS_SUCCESS then
          Outcome.ok (status, objectId)
            { s2 with calls := s2.calls ++ [Call.releaseObjectId objectId] }
        else
          Outcome.ok (status, objectId) s2 := by
  simp only [create_allocated, hid, if_false, run_bind, h]
  split
  · simp [run_bind, run_modify, run_pure]
  · split
    · simp [run_bind, run_pure, vid_releaseObjectId_run]
    · simp [run_pure]

theorem bulkCreate_allocate_run (env : Env) (object_type : sai_object_type_t)
    (switch_id : sai_object_id_t) (n : Nat) :
    ∀ (object_id : List sai_object_id_t) (s : RedisRemoteSaiInterface),
      ∃ (allocated : Bool) (written : List sai_object_id_t) (m : Nat),
        bulkCreate_allocate env object_type switch_id n object_id s
            = Outcome.ok (allocated, written)
                { s with calls := s.calls
                    ++ List.replicate m (Call.allocateNewObjectId object_type switch_id) }
          ∧ m ≤ n
          ∧ (allocated = false ↔ ∃ k, k < n ∧ env.allocateNewObjectId
              (s.calls ++ List.replicate k (Call.allocateNewObjectId object_type switch_id))
              object_type switch_id = SAI_NULL_OBJECT_ID) := by
  induction n with
  | zero =>
    intro object_id s
    exact ⟨true, object_id, 0, by simp [bulkCreate_allocate, run_pure], le_refl _, by simp⟩
  | succ n ih =>
    intro object_id s
    by_cases h0 : env.allocateNewObjectId s.calls object_type switch_id = SAI_NULL_OBJECT_ID
    · refine ⟨false, object_id ++ [SAI_NULL_OBJECT_ID], 1, ?_, by omega, ?_⟩
      · simp [bulkCreate_allocate, run_bind, vid_allocateNewObjectId_run, h0, run_pure]
      · simp only [true_iff]
        exact ⟨0, by omega, by simpa using h0⟩
    · obtain ⟨b, w, m, hrun, hm, hiff⟩ := ih
        (object_id ++ [env.allocateNewObjectId s.calls object_type switch_id])
        { s with calls := s.calls ++ [Call.allocateNewObjectId object_type switch_id] }
      refine ⟨b, w, m + 1, ?_, by omega, ?_⟩
      · simp only [bulkCreate_allocate, run_bind, vid_allocateNewObjectId_run, h0, if_false]
        rw [hrun]
        simp [List.replicate_succ]
      · rw [hiff]
        constructor
        · rintro ⟨k, hk, hnull⟩
          refine ⟨k + 1, by omega, ?_⟩
          simpa [List.replicate_succ] using hnull
        · rintro ⟨k, hk, hnull⟩
          cases k with
          | zero => exact absurd (by simpa using hnull) h0
          | succ k =>
            refine ⟨k, by omega, ?_⟩
            simpa [List.replicate_succ] using hnull

theorem remove_serialized_async (env : Env) (objectType : sai_object_type_t)
    (serializedObjectId : String)
    (s : RedisRemoteSaiInterface) (ch : Channel) (hch : s.m_communicationChannel = some ch)
    (hmode : s.m_syncMode = false) :
    remove_serialized env objectType serializedObjectId s
      = Outcome.ok SAI_STATUS_SUCCESS
          { s with calls := s.calls ++ [Call.channel_del
              (env.sai_serialize_object_type objectType ++ ":" ++ serializedObjectId)
              Command.REMOVE] } := by
  rw [remove_serialized_run env _ _ s ch hch, waitForResponse_async]
  exact hmode

theorem remove_serialized_sync (env : Env) (objectType : sai_object_type_t)
    (serializedObjectId : String)
    (s : RedisRemoteSaiInterface) (ch : Channel) (hch : s.m_communicationChannel = some ch)
    (hmode : s.m_syncMode = true) :
    remove_serialized env objectType serializedObjectId s
      = Outcome.ok
          (env.wait (s.calls ++ [Call.channel_del
              (env.sai_serialize_object_type objectType ++ ":" ++ serializedObjectId)
              Command.REMOVE]) Command.GETRESPONSE).1
          { s with calls := s.calls ++ [Call.channel_del
              (env.sai_serialize_object_type objectType ++ ":" ++ serializedObjectId)
              Command.REMOVE, Call.channel_wait Command.GETRESPONSE] } := by
  rw [remove_serialized_run env _ _ s ch hch, waitForResponse_sync env _ _ ch]
  · simp
  · exact hch
  · exact hmode

theorem remove_of_status (env : Env) (objectType : sai_object_type_t)
    (objectId : sai_object_id_t) (s s2 : RedisRemoteSaiInterface) (status : sai_status_t)
    (h : remove_serialized env objectType (env.sai_serialize_object_id objectId) s
      = Outcome.ok status s2) :
    remove env objectType objectId s
      = if objectType = SAI_OBJECT_TYPE_SWITCH ∧ status = SAI_STATUS_SUCCESS then
          Outcome.ok status
            { s2 with
              calls := s2.calls ++ [Call.releaseObjectId objectId],
              m_switchContainer := SwitchContainer.removeSwitch s2.m_switchContainer objectId }
        else
          Outcome.ok status s2 := by
  simp only [remove, run_bind, h]
  split
  · simp [run_bind, run_modify, run_pure, vid_releaseObjectId_run]
  · simp [run_pure]

theorem SwitchContainer.contains_removeSwitch (c : SwitchContainer)
    (switchId : sai_object_id_t) :
    SwitchContainer.contains (SwitchContainer.removeSwitch c switchId) switchId = false := by
  simp [SwitchContainer.contains, SwitchContainer.removeSwitch, SwitchContainer.getSwitch,
    List.find?_eq_none]

theorem create_serialized_no_channel (env : Env) (object_type : sai_object_type_t)
    (serializedObjectId : String) (attr_list : List sai_attribute_t)
    (s : RedisRemoteSaiInterface) (hch : s.m_communicationChannel = none) :
    create_serialized env object_type serializedObjectId attr_list s
      = Outcome.fault Fault.nullPointer s := by
  simp [create_serialized, channel_set, run_bind, run_get, hch, run_fail]

theorem remove_serialized_no_channel (env : Env) (objectType : sai_object_type_t)
    (serializedObjectId : String)
    (s : RedisRemoteSaiInterface) (hch : s.m_communicationChannel = none) :
    remove_serialized env objectType serializedObjectId s
      = Outcome.fault Fault.nullPointer s := by
  simp [remove_serialized, channel_del, run_bind, run_get, hch, run_fail]

theorem create_allocated_success_of (env : Env) (objectType : sai_object_type_t)
    (objectId handle : sai_object_id_t) (attr_list : List sai_attribute_t)
    (s s2 : RedisRemoteSaiInterface) (status : sai_status_t) (l0 : List Call)
    (hid : objectId ≠ SAI_NULL_OBJECT_ID)
    (h : create_serialized env objectType (env.sai_serialize_object_id objectId) attr_list s
      = Outcome.ok status s2)
    (hl : s2.calls = s.calls ++ l0) (hr : releasedIds l0 = [])
    (hok : (create_allocated env objectType objectId attr_list s).value?
      = some (SAI_STATUS_SUCCESS, handle)) :
    handle = objectId ∧ ∃ l, (create_allocated env objectType objectId attr_list s).self.calls
      = s.calls ++ l ∧ releasedIds l = [] := by
  rw [create_allocated_of_status env objectType objectId attr_list s s2 status hid h] at hok ⊢
  split_ifs at hok ⊢ with h1 h2
  · simp only [Outcome.value?, Option.some.injEq, Prod.mk.injEq] at hok
    exact ⟨hok.2.symm, l0, hl, hr⟩
  · simp only [Outcome.value?, Option.some.injEq, Prod.mk.injEq] at hok
    exact absurd hok.1 h2
  · simp only [Outcome.value?, Option.some.injEq, Prod.mk.injEq] at hok
    exact ⟨hok.2.symm, l0, hl, hr⟩

theorem create_allocated_success_calls (env : Env) (objectType : sai_object_type_t)
    (objectId handle : sai_object_id_t) (attr_list : List sai_attribute_t)
    (s : RedisRemoteSaiInterface)
    (hok : (create_allocated env objectType objectId attr_list s).value?
      = some (SAI_STATUS_SUCCESS, handle)) :
    handle = objectId ∧ ∃ l, (create_allocated env objectType objectId attr_list s).self.calls
      = s.calls ++ l ∧ releasedIds l = [] := by
  by_cases hid : objectId = SAI_NULL_OBJECT_ID
  · subst hid
    rw [create_allocated_null] at hok
    simp [Outcome.value?, SAI_STATUS_INSUFFICIENT_RESOURCES, SAI_STATUS_SUCCESS] at hok
  · cases hc : s.m_communicationChannel with
    | none =>
      have hf : create_allocated env objectType objectId attr_list s
          = Outcome.fault Fault.nullPointer s := by
        simp [create_allocated, hid, run_bind, create_serialized_no_channel env _ _ _ s hc]
      rw [hf] at hok
      simp [Outcome.value?] at hok
    | some ch =>
      cases hmode : s.m_syncMode
      · exact create_allocated_success_of env objectType objectId handle attr_list s _ _ _ hid
          (create_serialized_async env objectType _ attr_list s ch hc hmode) rfl
          (by simp [releasedIds]) hok
      · exact create_allocated_success_of env objectType objectId handle attr_list s _ _ _ hid
          (create_serialized_sync env objectType _ attr_list s ch hc hmode) rfl
          (by simp [releasedIds]) hok

theorem refreshTableDump_run (env : Env) (s : RedisRemoteSaiInterface) :
    refreshTableDump env s
      = Outcome.ok ()
          { s with
            calls := s.calls ++ [Call.table_dump],
            m_tableDump := env.tableDumpSwitches s.calls } := by
  simp [refreshTableDump, run_bind, run_get, run_log, run_modify]

theorem create_success_calls (env : Env) (objectType : sai_object_type_t)
    (switchId handle : sai_object_id_t) (attr_list : List sai_attribute_t)
    (s : RedisRemoteSaiInterface)
    (hok : (create env objectType switchId attr_list s).value?
      = some (SAI_STATUS_SUCCESS, handle)) :
    ∃ l, (create env objectType switchId attr_list s).self.calls = s.calls ++ l
      ∧ releasedIds l = [] := by
  by_cases ht : objectType = SAI_OBJECT_TYPE_SWITCH
  · simp only [create, ht, if_true, run_bind, vid_allocateNewSwitchObjectId_run] at hok ⊢
    by_cases hnull : env.allocateNewSwitchObjectId s.calls (env.getHardwareInfo attr_list)
        = SAI_NULL_OBJECT_ID
    · simp [hnull, run_pure, Outcome.value?, SAI_STATUS_FAILURE, SAI_STATUS_SUCCESS] at hok
    · simp only [hnull, if_false] at hok ⊢
      split_ifs at hok ⊢ with hinit
      · simp only [run_get, run_bind] at hok ⊢
        split_ifs at hok ⊢ with hcontains
        · exact ⟨_, rfl, by simp [releasedIds]⟩
        · simp only [refreshTableDump_run, run_bind, run_get] at hok ⊢
          split_ifs at hok ⊢ with hdump
          · simp only [run_bind, run_modify, run_pure, Outcome.self]
            exact ⟨[Call.allocateNewSwitchObjectId (env.getHardwareInfo attr_list),
              Call.table_dump], by simp, by simp [releasedIds]⟩
          · simp [run_bind, vid_releaseObjectId_run, run_pure, Outcome.value?,
              SAI_STATUS_FAILURE, SAI_STATUS_SUCCESS] at hok
      · obtain ⟨_, l, hl, hr⟩ := create_allocated_success_calls env _ _ handle attr_list _ hok
        rw [hl]
        exact ⟨Call.allocateNewSwitchObjectId (env.getHardwareInfo attr_list) :: l,
          by simp, by simpa [releasedIds] using hr⟩
  · simp only [create, ht, if_false, run_bind, vid_allocateNewObjectId_run] at hok ⊢
    obtain ⟨_, l, hl, hr⟩ := create_allocated_success_calls env _ _ handle attr_list _ hok
    rw [hl]
    exact ⟨Call.allocateNewObjectId objectType switchId :: l,
      by simp, by simpa [releasedIds] using hr⟩

theorem remove_success_calls (env : Env) (objectType : sai_object_type_t)
    (objectId : sai_object_id_t) (s : RedisRemoteSaiInterface)
    (hok : (remove env objectType objectId s).value? = some SAI_STATUS_SUCCESS) :
    ∃ l, (remove env objectType objectId s).self.calls = s.calls ++ l
      ∧ releasedIds l = if objectType = SAI_OBJECT_TYPE_SWITCH then [objectId] else [] := by
  cases hc : s.m_communicationChannel with
  | none =>
    have hf : remove env objectType objectId s = Outcome.fault Fault.nullPointer s := by
      simp [remove, run_bind, remove_serialized_no_channel env _ _ s hc]
    rw [hf] at hok
    simp [Outcome.value?] at hok
  | some ch =>
    have hgen : ∀ (status : sai_status_t) (s2 : RedisRemoteSaiInterface) (l0 : List Call),
        remove_serialized env objectType (env.sai_serialize_object_id objectId) s
          = Outcome.ok status s2 → s2.calls = s.calls ++ l0 → releasedIds l0 = [] →
        ∃ l, (remove env objectType objectId s).self.calls = s.calls ++ l
          ∧ releasedIds l
            = if objectType = SAI_OBJECT_TYPE_SWITCH then [objectId] else [] := by
      intro status s2 l0 h hl hr
      rw [remove_of_status env objectType objectId s s2 status h] at hok ⊢
      split_ifs at hok ⊢ with h1 h2 h3
      · refine ⟨l0 ++ [Call.releaseObjectId objectId], by simp [Outcome.self, hl], ?_⟩
        simp only [releasedIds, List.filterMap_append] at hr ⊢
        simp [hr]
      · exact absurd h1.1 h2
      · simp only [Outcome.value?, Option.some.injEq] at hok
        exact absurd ⟨h3, hok⟩ h1
      · exact ⟨l0, hl, hr⟩
    cases hmode : s.m_syncMode
    · exact hgen _ _ _ (remove_serialized_async env objectType _ s ch hc hmode) rfl
        (by simp [releasedIds])
    · exact hgen _ _ _ (remove_serialized_sync env objectType _ s ch hc hmode) rfl
        (by simp [releasedIds])

theorem confined_pure {α : Type} (P : Call → Prop) (a : α) : Confined P (pure a : Op α) := by
  intro s
  exact ⟨⟨[], by simp [run_pure, Outcome.self], by simp⟩, Or.inl rfl⟩

theorem confined_fail {α : Type} (P : Call → Prop) (e : Fault) :
    Confined P (Op.fail e : Op α) := by
  intro s
  exact ⟨⟨[], by simp [run_fail, Outcome.self], by simp⟩, Or.inl rfl⟩

theorem confined_get (P : Call → Prop) : Confined P Op.get := by
  intro s
  exact ⟨⟨[], by simp [run_get, Outcome.self], by simp⟩, Or.inl rfl⟩

theorem confined_log (P : Call → Prop) (c : Call) (h : P c) : Confined P (Op.log c) := by
  intro s
  exact ⟨⟨[c], by simp [run_log, Outcome.self], by simpa using h⟩, Or.inl rfl⟩

theorem confined_modify (P : Call → Prop)
    (f : RedisRemoteSaiInterface → RedisRemoteSaiInterface)
    (hcalls : ∀ s, (f s).calls = s.calls)
    (hreg : ∀ s, (f s).m_switchContainer = s.m_switchContainer ∨ (f s).m_switchContainer = []) :
    Confined P (Op.modify f) := by
  intro s
  exact ⟨⟨[], by simp [run_modify, Outcome.self, hcalls], by simp⟩, hreg s⟩

theorem confined_bind {α β : Type} (P : Call → Prop) (x : Op α) (f : α → Op β)
    (hx : Confined P x) (hf : ∀ a, Confined P (f a)) : Confined P (x >>= f) := by
  intro s
  obtain ⟨⟨l1, hl1, hp1⟩, hr1⟩ := hx s
  rw [run_bind]
  cases hxs : x s with
  | ok a s1 =>
    rw [hxs] at hl1 hr1
    simp only [Outcome.self] at hl1 hr1
    obtain ⟨⟨l2, hl2, hp2⟩, hr2⟩ := hf a s1
    refine ⟨⟨l1 ++ l2, by simp [hl2, hl1], ?_⟩, ?_⟩
    · intro c hc
      rcases List.mem_append.mp hc with h | h
      · exact hp1 c h
      · exact hp2 c h
    · rcases hr2 with h2 | h2
      · rcases hr1 with h1 | h1
        · exact Or.inl (by simp [h2, h1])
        · exact Or.inr (by simp [h2, h1])
      · exact Or.inr (by simp [h2])
  | fault e s1 =>
    rw [hxs] at hl1 hr1
    simp only [Outcome.self] at hl1 hr1 ⊢
    exact ⟨⟨l1, hl1, hp1⟩, hr1⟩

theorem confined_channel_set (P : Call → Prop) (key : String)
    (values : List FieldValueTuple) (command : Command)
    (h : P (Call.channel_set key values command)) :
    Confined P (channel_set key values command) := by
  unfold channel_set
  apply confined_bind _ _ _ (confined_get P)
  intro s
  split
  · exact confined_fail P _
  · exact confined_log P _ h

theorem confined_channel_wait (P : Call → Prop) (env : Env) (command : Command)
    (h : P (Call.channel_wait command)) : Confined P (channel_wait env command) := by
  unfold channel_wait
  apply confined_bind _ _ _ (confined_get P)
  intro s
  split
  · exact confined_fail P _
  · exact confined_bind _ _ _ (confined_log P _ h) (fun _ => confined_pure P _)

theorem confined_channel_flush (P : Call → Prop) (h : P Call.channel_flush) :
    Confined P channel_flush := by
  unfold channel_flush
  apply confined_bind _ _ _ (confined_get P)
  intro s
  split
  · exact confined_fail P _
  · exact confined_log P _ h

theorem confined_channel_setBuffered (P : Call → Prop) (buffered : Bool)
    (h : P (Call.channel_setBuffered buffered)) : Confined P (channel_setBuffered buffered) := by
  unfold channel_setBuffered
  apply confined_bind _ _ _ (confined_get P)
  intro s
  split
  · exact confined_fail P _
  · exact confined_bind _ _ _
      (confined_modify P _ (fun _ => rfl) (fun _ => Or.inl rfl))
      (fun _ => confined_log P _ h)

theorem confined_channel_setResponseTimeout (P : Call → Prop) (ms : Nat)
    (h : P (Call.channel_setResponseTimeout ms)) :
    Confined P (channel_setResponseTimeout ms) := by
  unfold channel_setResponseTimeout
  apply confined_bind _ _ _ (confined_get P)
  intro s
  split
  · exact confined_fail P _
  · exact confined_bind _ _ _
      (confined_modify P _ (fun _ => rfl) (fun _ => Or.inl rfl))
      (fun _ => confined_log P _ h)

theorem confined_channel_new (P : Call → Prop) (env : Env) (kind : ChannelKind) :
    Confined P (channel_new env kind) :=
  confined_modify P _ (fun _ => rfl) (fun _ => Or.inl rfl)

theorem confined_clear_local_state (P : Call → Prop) (h1 : P Call.newVirtualObjectIdManager)
    (h2 : P Call.meta_init_db) : Confined P clear_local_state := by
  unfold clear_local_state
  apply confined_bind _ _ _
    (confined_modify P (fun s => { s with m_switchContainer := [] }) (fun _ => rfl)
      (fun _ => Or.inr rfl))
  intro _
  apply confined_bind _ _ _ (confined_log P _ h1)
  intro _
  apply confined_bind _ _ _ (confined_get P)
  intro s
  split
  · exact confined_log P _ h2
  · exact confined_pure P _

theorem confined_waitForResponse (P : Call → Prop) (env : Env) (api : sai_common_api_t)
    (h : P (Call.channel_wait Command.GETRESPONSE)) : Confined P (waitForResponse env api) := by
  unfold waitForResponse
  apply confined_bind _ _ _ (confined_get P)
  intro s
  split
  · exact confined_bind _ _ _ (confined_channel_wait P env _ h) (fun _ => confined_pure P _)
  · exact confined_pure P _

theorem confined_notifyCounterGroupOperations (env : Env) (objectId : sai_object_id_t)
    (p : Option sai_redis_flex_counter_group_parameter_t) :
    Confined (fun c => isGenericSet c = false) (notifyCounterGroupOperations env objectId p) := by
  unfold notifyCounterGroupOperations
  split
  · exact confined_pure _ _
  · split
    · exact confined_pure _ _
    · apply confined_bind
      · apply confined_channel_set
        split <;> rfl
      · intro _
        exact confined_waitForResponse _ env _ rfl

theorem confined_notifyCounterOperations (env : Env) (objectId : sai_object_id_t)
    (p : Option sai_redis_flex_counter_parameter_t) :
    Confined (fun c => isGenericSet c = false) (notifyCounterOperations env objectId p) := by
  unfold notifyCounterOperations
  split
  · exact confined_pure _ _
  · split
    · exact confined_pure _ _
    · dsimp only
      split
      · exact confined_bind _ _ _ (confined_channel_set _ _ _ _ rfl)
          (fun _ => confined_waitForResponse _ env _ rfl)
      · exact confined_bind _ _ _ (confined_channel_set _ _ _ _ rfl)
          (fun _ => confined_waitForResponse _ env _ rfl)

theorem confined_notifySyncd (env : Env) (switchId : sai_object_id_t)
    (kind : sai_redis_notify_syncd_t) :
    Confined (fun c => isGenericSet c = false) (notifySyncd env switchId kind) := by
  unfold notifySyncd waitForNotifySyncdResponse
  exact confined_bind _ _ _ (confined_channel_set _ _ _ _ rfl) (fun _ =>
    confined_bind _ _ _
      (confined_bind _ _ _ (confined_channel_wait _ env _ rfl) (fun _ => confined_pure _ _))
      (fun _ => confined_pure _ _))

theorem confined_sai_redis_notify_syncd (env : Env) (switchId : sai_object_id_t)
    (attr : sai_attribute_t) :
    Confined (fun c => isGenericSet c = false) (sai_redis_notify_syncd env switchId attr) := by
  unfold sai_redis_notify_syncd
  split
  · exact confined_pure _ _
  · apply confined_bind _ _ _ (confined_notifySyncd env switchId _)
    intro status
    split
    · split
      · exact confined_bind _ _ _ (confined_modify _ _ (fun _ => rfl) (fun _ => Or.inl rfl))
          (fun _ => confined_bind _ _ _ (confined_clear_local_state _ rfl rfl)
            (fun _ => confined_pure _ _))
      · exact confined_bind _ _ _ (confined_modify _ _ (fun _ => rfl) (fun _ => Or.inl rfl))
          (fun _ => confined_pure _ _)
      · exact confined_pure _ _
      · exact confined_pure _ _
    · exact confined_pure _ _

theorem confined_setRedisCommunicationMode (env : Env) (attr : sai_attribute_t) :
    Confined (fun c => isGenericSet c = false) (setRedisCommunicationMode env attr) := by
  unfold setRedisCommunicationMode
  refine confined_bind _ _ _ ?_ (fun _ => confined_bind _ _ _ ?_ (fun _ =>
    confined_bind _ _ _ ?_ (fun _ => confined_bind _ _ _ (confined_get _) (fun s1 => ?_))))
  · exact confined_modify _ _ (fun _ => rfl) (fun _ => Or.inl rfl)
  · refine confined_modify _ _ (fun s => ?_) (fun s => Or.inl ?_) <;> split <;> rfl
  · exact confined_modify _ _ (fun _ => rfl) (fun _ => Or.inl rfl)
  · split
    · exact confined_bind _ _ _ (confined_modify _ _ (fun _ => rfl) (fun _ => Or.inl rfl))
        (fun _ => confined_bind _ _ _ (confined_channel_new _ env _)
          (fun _ => confined_bind _ _ _ (confined_channel_setResponseTimeout _ _ rfl)
            (fun _ => confined_bind _ _ _ (confined_channel_setBuffered _ _ rfl)
              (fun _ => confined_pure _ _))))
    · exact confined_bind _ _ _ (confined_modify _ _ (fun _ => rfl) (fun _ => Or.inl rfl))
        (fun _ => confined_bind _ _ _ (confined_channel_new _ env _)
          (fun _ => confined_bind _ _ _ (confined_channel_setResponseTimeout _ _ rfl)
            (fun _ => confined_bind _ _ _ (confined_channel_setBuffered _ _ rfl)
              (fun _ => confined_pure _ _))))
    · exact confined_bind _ _ _ (confined_modify _ _ (fun _ => rfl) (fun _ => Or.inl rfl))
        (fun _ => confined_bind _ _ _ (confined_channel_new _ env _)
          (fun _ => confined_bind _ _ _ (confined_channel_setResponseTimeout _ _ rfl)
            (fun _ => confined_bind _ _ _
              (confined_modify _ _ (fun _ => rfl) (fun _ => Or.inl rfl))
              (fun _ => confined_bind _ _ _ (confined_channel_setBuffered _ _ rfl)
                (fun _ => confined_pure _ _)))))
    · exact confined_pure _ _

theorem confined_setRedisExtensionAttribute (env : Env) (objectType : sai_object_type_t)
    (objectId : sai_object_id_t) (attr : Option sai_attribute_t) :
    Confined (fun c => isGenericSet c = false)
      (setRedisExtensionAttribute env objectType objectId attr) := by
  unfold setRedisExtensionAttribute
  split
  · exact confined_pure _ _
  · split
    · exact confined_pure _ _
    · exact confined_pure _ _
    · exact confined_sai_redis_notify_syncd env objectId _
    · exact confined_bind _ _ _ (confined_modify _ _ (fun _ => rfl) (fun _ => Or.inl rfl))
        (fun _ => confined_pure _ _)
    · exact confined_pure _ _
    · exact confined_bind _ _ _ (confined_modify _ _ (fun _ => rfl) (fun _ => Or.inl rfl))
        (fun _ => confined_bind _ _ _ (confined_channel_setResponseTimeout _ _ rfl)
          (fun _ => confined_pure _ _))
    · refine confined_bind _ _ _ ?_ (fun _ => confined_bind _ _ _ ?_ (fun _ =>
        confined_bind _ _ _ (confined_get _) (fun s1 => ?_)))
      · exact confined_modify _ _ (fun _ => rfl) (fun _ => Or.inl rfl)
      · refine confined_modify _ _ (fun s => ?_) (fun s => Or.inl ?_) <;> split <;> rfl
      · split
        · exact confined_bind _ _ _ (confined_channel_setBuffered _ _ rfl)
            (fun _ => confined_pure _ _)
        · exact confined_pure _ _
    · exact confined_setRedisCommunicationMode env _
    · apply confined_bind _ _ _ (confined_get _)
      intro s
      split
      · exact confined_pure _ _
      · exact confined_bind _ _ _ (confined_channel_setBuffered _ _ rfl)
          (fun _ => confined_pure _ _)
    · exact confined_bind _ _ _ (confined_channel_flush _ rfl) (fun _ => confined_pure _ _)
    · exact confined_pure _ _
    · exact confined_pure _ _
    · exact confined_notifyCounterGroupOperations env objectId _
    · exact confined_notifyCounterOperations env objectId _
    · exact confined_pure _ _
    · exact confined_pure _ _

theorem set_calls_of_status (env : Env) (objectType : sai_object_type_t)
    (objectId : sai_object_id_t) (attr : Option sai_attribute_t)
    (s s2 : RedisRemoteSaiInterface) (status : sai_status_t)
    (hattr : isRedisAttribute objectType attr = false)
    (h : set_serialized env objectType (env.sai_serialize_object_id objectId) attr s
      = Outcome.ok status s2) :
    (set env objectType objectId attr s).self.calls = s2.calls := by
  simp only [set, hattr, Bool.false_eq_true, if_false, run_bind, h]
  split_ifs with hc
  · simp only [run_bind, run_get]
    cases SwitchContainer.getSwitch s2.m_switchContainer objectId with
    | none => simp [run_fail, Outcome.self]
    | some sw => simp [run_bind, run_modify, run_pure, Outcome.self]
  · simp [run_pure, Outcome.self]

theorem channel_setBuffered_run (buffered : Bool) (s : RedisRemoteSaiInterface) (ch : Channel)
    (h : s.m_communicationChannel = some ch) :
    channel_setBuffered buffered s
      = Outcome.ok ()
          { s with
            m_communicationChannel := some { ch with buffered := buffered },
            calls := s.calls ++ [Call.channel_setBuffered buffered] } := by
  simp [channel_setBuffered, run_bind, run_get, h, run_modify, run_log]

theorem channel_setResponseTimeout_run (ms : Nat) (s : RedisRemoteSaiInterface) (ch : Channel)
    (h : s.m_communicationChannel = some ch) :
    channel_setResponseTimeout ms s
      = Outcome.ok ()
          { s with
            m_communicationChannel := some { ch with responseTimeout := ms },
            calls := s.calls ++ [Call.channel_setResponseTimeout ms] } := by
  simp [channel_setResponseTimeout, run_bind, run_get, h, run_modify, run_log]

theorem setRedisCommunicationMode_run (env : Env) (attr : sai_attribute_t)
    (s : RedisRemoteSaiInterface) (hzmq : s.m_zmqEnable = false) :
    setRedisCommunicationMode env attr s
      = match env.communication_mode attr.value.s32 with
        | some sai_redis_communication_mode_t.REDIS_ASYNC =>
          Outcome.ok SAI_STATUS_SUCCESS
            { s with
              m_redisCommunicationMode := some sai_redis_communication_mode_t.REDIS_ASYNC,
              m_syncMode := false,
              m_communicationChannel := some
                { kind := ChannelKind.RedisChannel, buffered := true,
                  responseTimeout := s.m_responseTimeoutMs },
              calls := s.calls ++ [Call.channel_setResponseTimeout s.m_responseTimeoutMs,
                Call.channel_setBuffered true] }
        | some sai_redis_communication_mode_t.REDIS_SYNC =>
          Outcome.ok SAI_STATUS_SUCCESS
            { s with
              m_redisCommunicationMode := some sai_redis_communication_mode_t.REDIS_SYNC,
              m_syncMode := true,
              m_communicationChannel := some
                { kind := ChannelKind.RedisChannel, buffered := false,
                  responseTimeout := s.m_responseTimeoutMs },
              calls := s.calls ++ [Call.channel_setResponseTimeout s.m_responseTimeoutMs,
                Call.channel_setBuffered false] }
        | some sai_redis_communication_mode_t.ZMQ_SYNC =>
          Outcome.ok SAI_STATUS_SUCCESS
            { s with
              m_redisCommunicationMode := some sai_redis_communication_mode_t.ZMQ_SYNC,
              m_zmqEnable := true,
              m_syncMode := true,
              m_communicationChannel := some
                { kind := ChannelKind.ZeroMQChannel, buffered := false,
                  responseTimeout := s.m_responseTimeoutMs },
              calls := s.calls ++ [Call.channel_setResponseTimeout s.m_responseTimeoutMs,
                Call.channel_setBuffered false] }
        | none =>
          Outcome.ok SAI_STATUS_NOT_SUPPORTED
            { s with m_redisCommunicationMode := none, m_communicationChannel := none } := by
  cases hm : env.communication_mode attr.value.s32 with
  | none =>
    simp [setRedisCommunicationMode, run_bind, run_modify, run_get, run_pure, hzmq, hm]
  | some mode =>
    cases mode <;>
      simp [setRedisCommunicationMode, run_bind, run_modify, run_get, run_pure, hzmq, hm,
        channel_new, channel_setResponseTimeout, channel_setBuffered, run_log]

theorem range_map_fst (ids : List String) (f : Nat → String) :
    ((List.range ids.length).map (fun idx => (ids.getD idx "", f idx))).map Prod.fst = ids := by
  apply List.ext_getElem
  · simp
  · intro i h1 h2
    simp at h1 h2
    simp [List.getD_eq_getElem?_getD, List.getElem?_eq_getElem, h2]

theorem range_map_const (ids : List String) :
    (List.range ids.length).map (fun idx => (ids.getD idx "", ""))
      = ids.map (fun id => (id, "")) := by
  apply List.ext_getElem
  · simp
  · intro i h1 h2
    simp at h1 h2
    simp [List.getD_eq_getElem?_getD, List.getElem?_eq_getElem, h2]

theorem bulkRemove_serialized_run (env : Env) (object_type : sai_object_type_t)
    (serialized_object_ids : List String)
    (s : RedisRemoteSaiInterface) (ch : Channel) (hch : s.m_communicationChannel = some ch) :
    bulkRemove_serialized env object_type serialized_object_ids s
      = waitForBulkResponse env sai_common_api_t.BULK_REMOVE
          (serialized_object_ids.length % 2 ^ 32)
          { s with calls := s.calls ++ [Call.channel_set
              (env.sai_serialize_object_type object_type ++ ":"
                ++ toString serialized_object_ids.length)
              (serialized_object_ids.map (fun id => (id, "")))
              Command.BULK_REMOVE] } := by
  simp only [bulkRemove_serialized, run_bind, channel_set_run _ _ _ s ch hch, List.length_map,
    List.length_range, range_map_const]

theorem bulkSet_serialized_run (env : Env) (object_type : sai_object_type_t)
    (serialized_object_ids : List String) (attr_list : List sai_attribute_t)
    (s : RedisRemoteSaiInterface) (ch : Channel) (hch : s.m_communicationChannel = some ch) :
    bulkSet_serialized env object_type serialized_object_ids attr_list s
      = waitForBulkResponse env sai_common_api_t.BULK_SET
          (serialized_object_ids.length % 2 ^ 32)
          { s with calls := s.calls ++ [Call.channel_set
              (env.sai_serialize_object_type object_type ++ ":"
                ++ toString serialized_object_ids.length)
              ((List.range serialized_object_ids.length).map (fun idx =>
                (serialized_object_ids.getD idx "",
                  env.joinFieldValues
                    (env.serialize_attr_list object_type (attr_list.get? idx).toList))))
              Command.BULK_SET] } := by
  simp only [bulkSet_serialized, run_bind, channel_set_run _ _ _ s ch hch, List.length_map,
    List.length_range]

theorem mapM_option_eq_some {α β : Type} (f : α → Option β) :
    ∀ (l : List α) (r : List β), l.map f = r.map some → l.mapM f = some r := by
  intro l
  induction l with
  | nil =>
    intro r h
    cases r with
    | nil => rfl
    | cons b r => simp at h
  | cons a l ih =>
    intro r h
    cases r with
    | nil => simp at h
    | cons b r =>
      simp only [List.map_cons, List.cons.injEq] at h
      rw [List.mapM_cons, h.1, ih r h.2]
      rfl

theorem run_ofExcept_ok {α : Type} (a : α) (s : RedisRemoteSaiInterface) :
    Op.ofExcept (Except.ok a : Except Fault α) s = Outcome.ok a s := rfl

theorem run_ofExcept_error {α : Type} (e : Fault) (s : RedisRemoteSaiInterface) :
    Op.ofExcept (Except.error e : Except Fault α) s = Outcome.fault e s := rfl

theorem waitForGetResponse_run (env : Env) (objectType : sai_object_type_t)
    (attr_list : List sai_attribute_t)
    (s : RedisRemoteSaiInterface) (ch : Channel) (hch : s.m_communicationChannel = some ch) :
    waitForGetResponse env objectType attr_list s
      = (let status := (env.wait s.calls Command.GETRESPONSE).1
         let values := (env.wait s.calls Command.GETRESPONSE).2.fieldsValues
         let waited : RedisRemoteSaiInterface :=
           { s with calls := s.calls ++ [Call.channel_wait Command.GETRESPONSE] }
         let decode := fun (countOnly : Bool) =>
           match transfer_get_response env objectType values attr_list countOnly with
           | Except.error e => Outcome.fault e waited
           | Except.ok transferred => Outcome.ok (status, transferred) waited
         if status = SAI_STATUS_SUCCESS then decode false
         else if status = SAI_STATUS_BUFFER_OVERFLOW then decode true
         else Outcome.ok (status, attr_list) waited) := by
  simp only [waitForGetResponse, run_bind, channel_wait_run env _ s ch hch]
  split
  · cases transfer_get_response env objectType _ attr_list false with
    | error e => simp [run_bind, run_ofExcept_error]
    | ok transferred => simp [run_bind, run_ofExcept_ok, run_pure]
  · split
    · cases transfer_get_response env objectType _ attr_list true with
      | error e => simp [run_bind, run_ofExcept_error]
      | ok transferred => simp [run_bind, run_ofExcept_ok, run_pure]
    · simp [run_pure]

theorem notifySyncd_run (env : Env) (switchId : sai_object_id_t)
    (kind : sai_redis_notify_syncd_t)
    (s : RedisRemoteSaiInterface) (ch : Channel) (hch : s.m_communicationChannel = some ch) :
    notifySyncd env switchId kind s
      = Outcome.ok
          (env.wait (s.calls ++ [Call.channel_set (env.sai_serialize_notify_syncd kind) []
            Command.NOTIFY]) Command.NOTIFY).1
          { s with calls := s.calls ++ [Call.channel_set (env.sai_serialize_notify_syncd kind) []
            Command.NOTIFY, Call.channel_wait Command.NOTIFY] } := by
  simp only [notifySyncd, waitForNotifySyncdResponse, run_bind,
    channel_set_run _ _ _ s ch hch]
  rw [channel_wait_run env _ _ ch (by exact hch)]
  simp [run_pure]

theorem clear_local_state_run (s : RedisRemoteSaiInterface) :
    clear_local_state s
      = Outcome.ok ()
          { s with
            m_switchContainer := [],
            calls := s.calls ++ Call.newVirtualObjectIdManager
              :: (if s.m_meta then [Call.meta_init_db] else []) } := by
  cases hm : s.m_meta <;>
    simp [clear_local_state, run_bind, run_modify, run_log, run_get, run_pure, hm]

theorem serialize_counter_id_list_ok (env : Env) (object_type : sai_object_type_t) :
    ∀ (counter_ids : List sai_stat_id_t) (names : List String),
      counter_ids.map (env.stats_enum_value_name object_type) = names.map some →
      serialize_counter_id_list env object_type counter_ids
        = Except.ok (names.map (fun name => (name, ""))) := by
  intro counter_ids
  induction counter_ids with
  | nil =>
    intro names h
    cases names with
    | nil => rfl
    | cons n names => simp at h
  | cons id rest ih =>
    intro names h
    cases names with
    | nil => simp at h
    | cons n names =>
      simp only [List.map_cons, List.cons.injEq] at h
      simp [serialize_counter_id_list, h.1, ih names h.2]

theorem serialize_counter_id_list_error (env : Env) (object_type : sai_object_type_t) :
    ∀ (counter_ids : List sai_stat_id_t),
      (∃ id, id ∈ counter_ids ∧ env.stats_enum_value_name object_type id = none) →
      serialize_counter_id_list env object_type counter_ids
        = Except.error (Fault.exception "failed to find enum") := by
  intro counter_ids
  induction counter_ids with
  | nil =>
    rintro ⟨id, hmem, _⟩
    simp at hmem
  | cons first rest ih =>
    rintro ⟨id, hmem, hnone⟩
    cases hfirst : env.stats_enum_value_name object_type first with
    | none => simp [serialize_counter_id_list, hfirst]
    | some name =>
      have hrest : ∃ id, id ∈ rest ∧ env.stats_enum_value_name object_type id = none := by
        rcases List.mem_cons.mp hmem with h | h
        · subst h
          rw [hfirst] at hnone
          cases hnone
        · exact ⟨id, h, hnone⟩
      simp [serialize_counter_id_list, hfirst, ih hrest]

theorem waitForGetStatsResponse_run (env : Env) (number_of_counters : Nat)
    (counters : List Nat)
    (s : RedisRemoteSaiInterface) (ch : Channel) (hch : s.m_communicationChannel = some ch) :
    waitForGetStatsResponse env number_of_counters counters s
      = (let status := (env.wait s.calls Command.GETRESPONSE).1
         let values := (env.wait s.calls Command.GETRESPONSE).2.fieldsValues
         let waited : RedisRemoteSaiInterface :=
           { s with calls := s.calls ++ [Call.channel_wait Command.GETRESPONSE] }
         if status = SAI_STATUS_SUCCESS then
           if values.length ≠ number_of_counters then
             Outcome.fault (Fault.exception "wrong number of counters") waited
           else
             match parse_counters values number_of_counters with
             | none => Outcome.fault (Fault.exception "std::stoull") waited
             | some parsed =>
               Outcome.ok (status, parsed ++ counters.drop number_of_counters) waited
         else Outcome.ok (status, counters) waited) := by
  simp only [waitForGetStatsResponse, run_bind, channel_wait_run env _ s ch hch]
  split
  · split
    · simp [run_fail]
    · cases parse_counters _ number_of_counters with
      | none => simp [run_fail]
      | some parsed => simp [run_pure]
  · simp [run_pure]

theorem bulkCreate_allocate_first_null (env : Env) (object_type : sai_object_type_t)
    (switch_id : sai_object_id_t) (n : Nat) :
    ∀ (k : Nat) (object_id : List sai_object_id_t) (s : RedisRemoteSaiInterface),
      k < n →
      (∀ j, j < k → env.allocateNewObjectId
        (s.calls ++ List.replicate j (Call.allocateNewObjectId object_type switch_id))
        object_type switch_id ≠ SAI_NULL_OBJECT_ID) →
      env.allocateNewObjectId
        (s.calls ++ List.replicate k (Call.allocateNewObjectId object_type switch_id))
        object_type switch_id = SAI_NULL_OBJECT_ID →
      bulkCreate_allocate env object_type switch_id n object_id s
        = Outcome.ok
            (false,
              object_id
                ++ (List.range k).map (fun j => env.allocateNewObjectId
                    (s.calls ++ List.replicate j (Call.allocateNewObjectId object_type switch_id))
                    object_type switch_id)
                ++ [SAI_NULL_OBJECT_ID])
            { s with calls := s.calls
                ++ List.replicate (k + 1) (Call.allocateNewObjectId object_type switch_id) } := by
  induction n with
  | zero => intro k _ _ hk; omega
  | succ n ih =>
    intro k object_id s hk hfirst hnull
    cases k with
    | zero =>
      simp only [List.replicate_zero, List.append_nil] at hnull
      simp [bulkCreate_allocate, run_bind, vid_allocateNewObjectId_run, hnull, run_pure]
    | succ k =>
      have h0 := hfirst 0 (by omega)
      simp only [List.replicate_zero, List.append_nil] at h0
      have hstep : ∀ j, s.calls ++ [Call.allocateNewObjectId object_type switch_id]
            ++ List.replicate j (Call.allocateNewObjectId object_type switch_id)
          = s.calls ++ List.replicate (j + 1) (Call.allocateNewObjectId object_type switch_id) := by
        intro j
        simp [List.replicate_succ]
      have hrec := ih k
        (object_id ++ [env.allocateNewObjectId s.calls object_type switch_id])
        { s with calls := s.calls ++ [Call.allocateNewObjectId object_type switch_id] }
        (by omega)
        (by
          intro j hj
          simp only [hstep]
          exact hfirst (j + 1) (by omega))
        (by
          simp only [hstep]
          exact hnull)
      simp only [bulkCreate_allocate, run_bind, vid_allocateNewObjectId_run, h0, if_false, hrec]
      simp only [hstep]
      congr 2
      rw [List.range_succ_eq_map]
      simp [List.map_map, Function.comp_def]

theorem strnlen_eq_iff (bytes : List Char) (count : Nat) :
    strnlen bytes count = count ↔
      count ≤ bytes.length ∧ ∀ c ∈ bytes.take count, c ≠ Char.ofNat 0 := by
  unfold strnlen
  constructor
  · intro h
    have hle : ((bytes.take count).takeWhile (fun c => c != Char.ofNat 0)).length
        ≤ (bytes.take count).length := (List.takeWhile_sublist _).length_le
    have hlen : (bytes.take count).length ≤ count := by simp
    have hlen2 : (bytes.take count).length = count := by omega
    refine ⟨by
      rw [List.length_take] at hlen2
      omega, ?_⟩
    have hall : (bytes.take count).takeWhile (fun c => c != Char.ofNat 0) = bytes.take count := by
      apply List.IsPrefix.eq_of_length (List.takeWhile_prefix _)
      omega
    intro c hc
    rw [← hall] at hc
    have := List.mem_takeWhile_imp hc
    simpa using this
  · rintro ⟨hle, hall⟩
    have : (bytes.take count).takeWhile (fun c => c != Char.ofNat 0) = bytes.take count := by
      rw [List.takeWhile_eq_self_iff]
      intro c hc
      simpa using hall c hc
    rw [this, List.length_take]
    omega

theorem isSaiS8ListValidString_iff (s8list : sai_s8_list_t) :
    isSaiS8ListValidString s8list = true ↔
      ∃ bytes, s8list.list = some bytes ∧ 0 < s8list.count ∧ s8list.count ≤ bytes.length
        ∧ ∀ c ∈ bytes.take s8list.count, c ≠ Char.ofNat 0 := by
  unfold isSaiS8ListValidString
  cases hl : s8list.list with
  | none => simp
  | some bytes =>
    by_cases hc : s8list.count > 0
    · simp only [hc, if_true, Option.some.injEq, exists_eq_left', true_and]
      rw [← strnlen_eq_iff]
      simp
    · simp [hc]

theorem channel_set_then {α : Type} (key : String) (values : List FieldValueTuple)
    (command : Command) (k : Op α)
    (s : RedisRemoteSaiInterface) (ch : Channel) (h : s.m_communicationChannel = some ch) :
    (channel_set key values command >>= fun _ => k) s
      = k { s with calls := s.calls ++ [Call.channel_set key values command] } := by
  rw [run_bind, channel_set_run _ _ _ s ch h]

theorem keeps_pure {α : Type} (R : RedisRemoteSaiInterface → RedisRemoteSaiInterface → Prop)
    (hR : Frame R) (a : α) : Keeps R (pure a : Op α) :=
  fun s => hR.1 s

theorem keeps_fail {α : Type} (R : RedisRemoteSaiInterface → RedisRemoteSaiInterface → Prop)
    (hR : Frame R) (e : Fault) : Keeps R (Op.fail e : Op α) :=
  fun s => hR.1 s

theorem keeps_get (R : RedisRemoteSaiInterface → RedisRemoteSaiInterface → Prop)
    (hR : Frame R) : Keeps R Op.get :=
  fun s => hR.1 s

theorem keeps_log (R : RedisRemoteSaiInterface → RedisRemoteSaiInterface → Prop)
    (hR : Frame R) (c : Call) : Keeps R (Op.log c) :=
  fun s => hR.2.2.1 s _

theorem keeps_modify (R : RedisRemoteSaiInterface → RedisRemoteSaiInterface → Prop)
    (f : RedisRemoteSaiInterface → RedisRemoteSaiInterface) (h : ∀ s, R s (f s)) :
    Keeps R (Op.modify f) :=
  fun s => h s

theorem keeps_bind {α β : Type} (R : RedisRemoteSaiInterface → RedisRemoteSaiInterface → Prop)
    (hR : Frame R) (x : Op α) (f : α → Op β) (hx : Keeps R x) (hf : ∀ a, Keeps R (f a)) :
    Keeps R (x >>= f) := by
  intro s
  have h1 := hx s
  rw [run_bind]
  cases hxs : x s with
  | ok a s1 =>
    rw [hxs] at h1
    exact hR.2.1 _ _ _ h1 (hf a s1)
  | fault e s1 =>
    rw [hxs] at h1
    exact h1

theorem keeps_channel_set (R : RedisRemoteSaiInterface → RedisRemoteSaiInterface → Prop)
    (hR : Frame R) (key : String) (values : List FieldValueTuple) (command : Command) :
    Keeps R (channel_set key values command) := by
  unfold channel_set
  apply keeps_bind R hR _ _ (keeps_get R hR)
  intro s
  split
  · exact keeps_fail R hR _
  · exact keeps_log R hR _

theorem keeps_channel_wait (R : RedisRemoteSaiInterface → RedisRemoteSaiInterface → Prop)
    (hR : Frame R) (env : Env) (command : Command) : Keeps R (channel_wait env command) := by
  unfold channel_wait
  apply keeps_bind R hR _ _ (keeps_get R hR)
  intro s
  split
  · exact keeps_fail R hR _
  · exact keeps_bind R hR _ _ (keeps_log R hR _) (fun _ => keeps_pure R hR _)

theorem keeps_channel_flush (R : RedisRemoteSaiInterface → RedisRemoteSaiInterface → Prop)
    (hR : Frame R) : Keeps R channel_flush := by
  unfold channel_flush
  apply keeps_bind R hR _ _ (keeps_get R hR)
  intro s
  split
  · exact keeps_fail R hR _
  · exact keeps_log R hR _

theorem keeps_waitForResponse (R : RedisRemoteSaiInterface → RedisRemoteSaiInterface → Prop)
    (hR : Frame R) (env : Env) (api : sai_common_api_t) : Keeps R (waitForResponse env api) := by
  unfold waitForResponse
  apply keeps_bind R hR _ _ (keeps_get R hR)
  intro s
  split
  · exact keeps_bind R hR _ _ (keeps_channel_wait R hR env _) (fun _ => keeps_pure R hR _)
  · exact keeps_pure R hR _

theorem keeps_clear_local_state (R : RedisRemoteSaiInterface → RedisRemoteSaiInterface → Prop)
    (hR : Frame R) : Keeps R clear_local_state := by
  unfold clear_local_state
  apply keeps_bind R hR _ _ (keeps_modify R _ (fun s => hR.2.2.2.1 s _))
  intro _
  apply keeps_bind R hR _ _ (keeps_log R hR _)
  intro _
  apply keeps_bind R hR _ _ (keeps_get R hR)
  intro s
  split
  · exact keeps_log R hR _
  · exact keeps_pure R hR _

theorem keeps_notifyCounterGroupOperations
    (R : RedisRemoteSaiInterface → RedisRemoteSaiInterface → Prop) (hR : Frame R)
    (env : Env) (objectId : sai_object_id_t)
    (p : Option sai_redis_flex_counter_group_parameter_t) :
    Keeps R (notifyCounterGroupOperations env objectId p) := by
  unfold notifyCounterGroupOperations
  split
  · exact keeps_pure R hR _
  · split
    · exact keeps_pure R hR _
    · exact keeps_bind R hR _ _ (keeps_channel_set R hR _ _ _)
        (fun _ => keeps_waitForResponse R hR env _)

theorem keeps_notifyCounterOperations
    (R : RedisRemoteSaiInterface → RedisRemoteSaiInterface → Prop) (hR : Frame R)
    (env : Env) (objectId : sai_object_id_t) (p : Option sai_redis_flex_counter_parameter_t) :
    Keeps R (notifyCounterOperations env objectId p) := by
  unfold notifyCounterOperations
  split
  · exact keeps_pure R hR _
  · split
    · exact keeps_pure R hR _
    · dsimp only
      split
      · exact keeps_bind R hR _ _ (keeps_channel_set R hR _ _ _)
          (fun _ => keeps_waitForResponse R hR env _)
      · exact keeps_bind R hR _ _ (keeps_channel_set R hR _ _ _)
          (fun _ => keeps_waitForResponse R hR env _)

theorem keeps_sai_redis_notify_syncd
    (R : RedisRemoteSaiInterface → RedisRemoteSaiInterface → Prop) (hR : Frame R)
    (env : Env) (switchId : sai_object_id_t) (attr : sai_attribute_t) :
    Keeps R (sai_redis_notify_syncd env switchId attr) := by
  unfold sai_redis_notify_syncd
  split
  · exact keeps_pure R hR _
  · apply keeps_bind R hR
    · unfold notifySyncd waitForNotifySyncdResponse
      exact keeps_bind R hR _ _ (keeps_channel_set R hR _ _ _) (fun _ =>
        keeps_bind R hR _ _
          (keeps_bind R hR _ _ (keeps_channel_wait R hR env _) (fun _ => keeps_pure R hR _))
          (fun _ => keeps_pure R hR _))
    · intro status
      split
      · split
        · exact keeps_bind R hR _ _ (keeps_modify R _ (fun s => hR.2.2.2.2.1 s _))
            (fun _ => keeps_bind R hR _ _ (keeps_clear_local_state R hR)
              (fun _ => keeps_pure R hR _))
        · exact keeps_bind R hR _ _ (keeps_modify R _ (fun s => hR.2.2.2.2.1 s _))
            (fun _ => keeps_pure R hR _)
        · exact keeps_pure R hR _
        · exact keeps_pure R hR _
      · exact keeps_pure R hR _

theorem frame_keepsSyncUnbuffered : Frame keepsSyncUnbuffered := by
  refine ⟨fun s h => h, ?_, fun s _ h => h, fun s _ h => h, fun s _ h => h, fun s _ h => h⟩
  intro a b c hab hbc h
  exact hbc (hab h)

theorem frame_zmqStaysEnabled : Frame zmqStaysEnabled := by
  refine ⟨fun s h => ⟨h, id⟩, ?_, fun s _ h => ⟨h, id⟩, fun s _ h => ⟨h, id⟩,
    fun s _ h => ⟨h, id⟩, fun s _ h => ⟨h, id⟩⟩
  intro a b c hab hbc h
  obtain ⟨hb, hbch⟩ := hab h
  obtain ⟨hc, hcch⟩ := hbc hb
  exact ⟨hc, fun hch => hcch (hbch hch)⟩

theorem setRedisCommunicationMode_zmq (env : Env) (attr : sai_attribute_t)
    (s : RedisRemoteSaiInterface) (hzmq : s.m_zmqEnable = true) :
    setRedisCommunicationMode env attr s
      = Outcome.ok SAI_STATUS_SUCCESS
          { s with
            m_redisCommunicationMode := some sai_redis_communication_mode_t.ZMQ_SYNC,
            m_zmqEnable := true,
            m_syncMode := true,
            m_communicationChannel := some
              { kind := ChannelKind.ZeroMQChannel, buffered := false,
                responseTimeout := s.m_responseTimeoutMs },
            calls := s.calls ++ [Call.channel_setResponseTimeout s.m_responseTimeoutMs,
              Call.channel_setBuffered false] } := by
  simp [setRedisCommunicationMode, run_bind, run_modify, run_get, run_pure, hzmq,
    channel_new, channel_setResponseTimeout, channel_setBuffered, run_log]

theorem sync_mode_set_run (env : Env) (objectType : sai_object_type_t)
    (objectId : sai_object_id_t) (a : sai_attribute_t) (s : RedisRemoteSaiInterface)
    (hid : env.redis_switch_attr a.id = some sai_redis_switch_attr_t.SYNC_MODE) :
    setRedisExtensionAttribute env objectType objectId (some a) s
      = if (a.value.booldata || s.m_zmqEnable) = true then
          match s.m_communicationChannel with
          | none => Outcome.fault Fault.nullPointer { s with m_syncMode := true }
          | some ch =>
            Outcome.ok SAI_STATUS_SUCCESS
              { s with
                m_syncMode := true,
                m_communicationChannel := some { ch with buffered := false },
                calls := s.calls ++ [Call.channel_setBuffered false] }
        else Outcome.ok SAI_STATUS_SUCCESS { s with m_syncMode := false } := by
  cases hb : a.value.booldata <;> cases hz : s.m_zmqEnable <;>
    cases hc : s.m_communicationChannel <;>
    simp [setRedisExtensionAttribute, hid, run_bind, run_modify, run_get, run_pure, hb, hz, hc,
      channel_setBuffered, run_log, run_fail]

theorem keeps_sync_unbuffered_setRedisExtensionAttribute (env : Env)
    (objectType : sai_object_type_t) (objectId : sai_object_id_t)
    (attr : Option sai_attribute_t) :
    Keeps keepsSyncUnbuffered (setRedisExtensionAttribute env objectType objectId attr) := by
  have hF := frame_keepsSyncUnbuffered
  unfold setRedisExtensionAttribute
  split
  · exact keeps_pure _ hF _
  · rename_i a
    split
    · exact keeps_pure _ hF _
    · exact keeps_pure _ hF _
    · exact keeps_sai_redis_notify_syncd _ hF env objectId a
    · exact keeps_bind _ hF _ _ (keeps_modify _ _ (fun s => hF.2.2.2.2.2 s _))
        (fun _ => keeps_pure _ hF _)
    · exact keeps_pure _ hF _
    · refine keeps_bind _ hF _ _ (keeps_modify _ _ (fun s h => h))
        (fun _ => keeps_bind _ hF _ _ ?_ (fun _ => keeps_pure _ hF _))
      intro s hinv
      cases hc : s.m_communicationChannel with
      | none =>
        have hfault : channel_setResponseTimeout a.value.u64 s
            = Outcome.fault Fault.nullPointer s := by
          simp [channel_setResponseTimeout, run_bind, run_get, hc, run_fail]
        rw [hfault]
        exact hinv
      | some ch =>
        rw [channel_setResponseTimeout_run _ s ch hc]
        simp only [Outcome.self]
        intro hsync ch1 hch1
        simp at hch1
        rw [← hch1]
        exact hinv hsync ch hc
    · rename_i hid
      intro s _
      have hrun := sync_mode_set_run env objectType objectId a s hid
      simp only [setRedisExtensionAttribute, hid] at hrun
      rw [hrun]
      split
      · cases hc : s.m_communicationChannel with
        | none => simp [Outcome.self, syncImpliesUnbuffered]
        | some ch => simp [Outcome.self, syncImpliesUnbuffered]
      · simp [Outcome.self, syncImpliesUnbuffered]
    · intro s _
      cases hz : s.m_zmqEnable with
      | true =>
        rw [setRedisCommunicationMode_zmq env a s hz]
        simp [Outcome.self, syncImpliesUnbuffered]
      | false =>
        rw [setRedisCommunicationMode_run env a s hz]
        split <;> simp [Outcome.self, syncImpliesUnbuffered]
    · intro s hinv
      simp only [run_bind, run_get]
      cases hsync : s.m_syncMode with
      | true => simpa [run_pure, Outcome.self] using hinv
      | false =>
        cases hc : s.m_communicationChannel with
        | none =>
          simp [channel_setBuffered, run_bind, run_get, hc, run_fail, Outcome.self,
            syncImpliesUnbuffered, hsync]
        | some ch =>
          simp [channel_setBuffered, run_bind, run_get, hc, run_modify, run_log, run_pure,
            Outcome.self, syncImpliesUnbuffered, hsync]
    · exact keeps_bind _ hF _ _ (keeps_channel_flush _ hF) (fun _ => keeps_pure _ hF _)
    · exact keeps_pure _ hF _
    · exact keeps_pure _ hF _
    · exact keeps_notifyCounterGroupOperations _ hF env objectId _
    · exact keeps_notifyCounterOperations _ hF env objectId _
    · exact keeps_pure _ hF _
    · exact keeps_pure _ hF _


theorem keeps_zmq_channel_setBuffered (buffered : Bool) :
    Keeps zmqStaysEnabled (channel_setBuffered buffered) := by
  intro s hz
  cases hc : s.m_communicationChannel with
  | none =>
    have hfault : channel_setBuffered buffered s = Outcome.fault Fault.nullPointer s := by
      simp [channel_setBuffered, run_bind, run_get, hc, run_fail]
    rw [hfault]
    exact ⟨hz, by simp [Outcome.self]⟩
  | some ch =>
    rw [channel_setBuffered_run _ s ch hc]
    exact ⟨hz, by simp [Outcome.self]⟩

theorem keeps_zmq_channel_setResponseTimeout (ms : Nat) :
    Keeps zmqStaysEnabled (channel_setResponseTimeout ms) := by
  intro s hz
  cases hc : s.m_communicationChannel with
  | none =>
    have hfault : channel_setResponseTimeout ms s = Outcome.fault Fault.nullPointer s := by
      simp [channel_setResponseTimeout, run_bind, run_get, hc, run_fail]
    rw [hfault]
    exact ⟨hz, by simp [Outcome.self]⟩
  | some ch =>
    rw [channel_setResponseTimeout_run _ s ch hc]
    exact ⟨hz, by simp [Outcome.self]⟩

theorem keeps_zmq_setRedisExtensionAttribute (env : Env)
    (objectType : sai_object_type_t) (objectId : sai_object_id_t)
    (attr : Option sai_attribute_t) :
    Keeps zmqStaysEnabled (setRedisExtensionAttribute env objectType objectId attr) := by
  have hF := frame_zmqStaysEnabled
  unfold setRedisExtensionAttribute
  split
  · exact keeps_pure _ hF _
  · rename_i a
    split
    · exact keeps_pure _ hF _
    · exact keeps_pure _ hF _
    · exact keeps_sai_redis_notify_syncd _ hF env objectId a
    · exact keeps_bind _ hF _ _ (keeps_modify _ _ (fun s => hF.2.2.2.2.2 s _))
        (fun _ => keeps_pure _ hF _)
    · exact keeps_pure _ hF _
    · exact keeps_bind _ hF _ _ (keeps_modify _ _ (fun s h => ⟨h, id⟩))
        (fun _ => keeps_bind _ hF _ _ (keeps_zmq_channel_setResponseTimeout _)
          (fun _ => keeps_pure _ hF _))
    · rename_i hid
      intro s hz
      have hrun := sync_mode_set_run env objectType objectId a s hid
      simp only [setRedisExtensionAttribute, hid] at hrun
      rw [hrun]
      split
      · cases hc : s.m_communicationChannel with
        | none => simp [Outcome.self, hz, hc]
        | some ch => simp [Outcome.self, hz]
      · simp [Outcome.self, hz]
    · intro s hz
      rw [setRedisCommunicationMode_zmq env a s hz]
      simp [Outcome.self]
    · refine keeps_bind _ hF _ _ (keeps_get _ hF) (fun s1 => ?_)
      split
      · exact keeps_pure _ hF _
      · exact keeps_bind _ hF _ _ (keeps_zmq_channel_setBuffered _) (fun _ => keeps_pure _ hF _)
    · exact keeps_bind _ hF _ _ (keeps_channel_flush _ hF) (fun _ => keeps_pure _ hF _)
    · exact keeps_pure _ hF _
    · exact keeps_pure _ hF _
    · exact keeps_notifyCounterGroupOperations _ hF env objectId _
    · exact keeps_notifyCounterOperations _ hF env objectId _
    · exact keeps_pure _ hF _
    · exact keeps_pure _ hF _

theorem keeps_zmq_set (env : Env) (objectType : sai_object_type_t)
    (objectId : sai_object_id_t) (attr : Option sai_attribute_t) :
    Keeps zmqStaysEnabled (set env objectType objectId attr) := by
  have hF := frame_zmqStaysEnabled
  unfold set
  split
  · exact keeps_zmq_setRedisExtensionAttribute env objectType objectId attr
  · refine keeps_bind _ hF _ _ ?_ (fun status => ?_)
    · unfold set_serialized
      split
      · exact keeps_fail _ hF _
      · exact keeps_bind _ hF _ _ (keeps_channel_set _ hF _ _ _)
          (fun _ => keeps_bind _ hF _ _ (keeps_waitForResponse _ hF env _)
            (fun _ => keeps_pure _ hF _))
    · split
      · refine keeps_bind _ hF _ _ (keeps_get _ hF) (fun s1 => ?_)
        split
        · exact keeps_fail _ hF _
        · exact keeps_bind _ hF _ _ (keeps_modify _ _ (fun s => hF.2.2.2.1 s _))
            (fun _ => keeps_pure _ hF _)
      · exact keeps_pure _ hF _

theorem keeps_zmq_setSequence (env : Env)
    (calls : List (sai_object_type_t × sai_object_id_t × Option sai_attribute_t)) :
    Keeps zmqStaysEnabled (setSequence env calls) := by
  have hF := frame_zmqStaysEnabled
  induction calls with
  | nil => exact keeps_pure _ hF _
  | cons call rest ih =>
    unfold setSequence
    exact keeps_bind _ hF _ _ (keeps_zmq_set env _ _ _) (fun _ => ih)

theorem intercalate_go_data (sep : String) (rest : List String) :
    ∀ acc : String, (String.intercalate.go acc sep rest).data
      = acc.data ++ (rest.map (fun a => sep.data ++ a.data)).flatten := by
  induction rest with
  | nil => intro acc; simp [String.intercalate.go]
  | cons a rest ih =>
    intro acc
    simp only [String.intercalate.go]
    rw [ih]
    simp [String.data_append, List.append_assoc]

theorem intercalate_comma_toList (p : String) (ps : List String) :
    (String.intercalate "," (p :: ps)).toList
      = p.data ++ ((ps.map String.data).map (fun a => ',' :: a)).flatten := by
  simp only [String.intercalate, String.toList]
  rw [intercalate_go_data]
  simp only [List.map_map, Function.comp_def]
  rfl

theorem takeWhile_piece (p : List Char) (rest : List (List Char))
    (hp : ∀ c ∈ p, c.toNat ≠ 44) :
    (p ++ (rest.map (fun a => ',' :: a)).flatten).takeWhile (fun c => c.toNat != 44) = p := by
  rw [List.takeWhile_append_of_pos (by simpa using hp)]
  cases rest with
  | nil => simp
  | cons a rest =>
    simp only [List.map_cons, List.flatten_cons, List.cons_append]
    rw [List.takeWhile_cons_of_neg (by decide)]
    simp

theorem enum_values_loop_step (n i : Nat) (p : List Char) (rest : List (List Char))
    (buf : List Int) (v : Int) (hp : ∀ c ∈ p, c.toNat ≠ 44)
    (hstoi : stoi (String.mk p) = some v) (hi : i < buf.length) :
    enum_values_loop (n + 1) i (p ++ (rest.map (fun a => ',' :: a)).flatten) (some buf)
      = match rest with
        | [] => Except.ok (some (buf.set i v))
        | p1 :: ps1 =>
          enum_values_loop n (i + 1) (p1 ++ (ps1.map (fun a => ',' :: a)).flatten)
            (some (buf.set i v)) := by
  rw [enum_values_loop]
  simp only [takeWhile_piece p rest hp, hstoi, writeAt, hi, if_true]
  cases rest with
  | nil => simp
  | cons p1 ps1 => simp [List.drop_append]

theorem enum_values_loop_run (n : Nat) :
    ∀ (i : Nat) (p : List Char) (ps : List (List Char)) (v : Int) (vs : List Int)
      (buf : List Int),
      List.Forall₂ (fun part value => (∀ c ∈ part, c.toNat ≠ 44)
        ∧ stoi (String.mk part) = some value) (p :: ps) (v :: vs) →
      i + min (n + 1) (ps.length + 1) ≤ buf.length →
      enum_values_loop (n + 1) i (p ++ (ps.map (fun a => ',' :: a)).flatten) (some buf)
        = Except.ok (some (buf.take i ++ (v :: vs).take (n + 1)
            ++ buf.drop (i + min (n + 1) (ps.length + 1)))) := by
  induction n with
  | zero =>
    intro i p ps v vs buf hparts hlen
    obtain ⟨⟨hcomma, hstoi⟩, _⟩ := List.forall₂_cons.mp hparts
    have hmin : min (0 + 1) (ps.length + 1) = 1 := by omega
    have hi : i < buf.length := by omega
    have hset : buf.set i v = buf.take i ++ v :: buf.drop (i + 1) :=
      List.set_eq_take_append_cons_drop.trans (by simp [hi])
    rw [enum_values_loop_step 0 i p ps buf v hcomma hstoi hi, hmin]
    cases ps with
    | nil => simp [hset]
    | cons p1 ps1 => simp [enum_values_loop, hset]
  | succ n ih =>
    intro i p ps v vs buf hparts hlen
    obtain ⟨⟨hcomma, hstoi⟩, hrest⟩ := List.forall₂_cons.mp hparts
    have hi : i < buf.length := by omega
    have hset : buf.set i v = buf.take i ++ v :: buf.drop (i + 1) :=
      List.set_eq_take_append_cons_drop.trans (by simp [hi])
    rw [enum_values_loop_step (n + 1) i p ps buf v hcomma hstoi hi]
    cases ps with
    | nil =>
      have hmin : min (n + 1 + 1) (([] : List (List Char)).length + 1) = 1 := by simp
      rw [hmin]
      cases hrest
      simp [hset]
    | cons p1 ps1 =>
      cases vs with
      | nil => cases hrest
      | cons v1 vs1 =>
        have hrec := ih (i + 1) p1 ps1 v1 vs1 (buf.set i v) hrest (by
          simp only [List.length_set]
          simp only [List.length_cons] at hlen
          omega)
        simp only []
        rw [hrec]
        simp only [hset, List.length_cons]
        have h1 : (buf.take i ++ v :: buf.drop (i + 1)).take (i + 1) = buf.take i ++ [v] := by
          rw [List.take_append_eq_append_take]
          simp [List.length_take, Nat.min_eq_left (Nat.le_of_lt hi)]
        have h2 : ∀ m, (buf.take i ++ v :: buf.drop (i + 1)).drop (i + 1 + m)
            = buf.drop (i + 1 + m) := by
          intro m
          rw [List.drop_append_eq_append_drop]
          simp only [List.length_take, Nat.min_eq_left (Nat.le_of_lt hi)]
          have hd : i + 1 + m - i = m + 1 := by omega
          have ht : List.drop (i + 1 + m) (List.take i buf) = [] := by
            apply List.drop_eq_nil_of_le
            simp only [List.length_take]
            omega
          rw [hd, ht]
          simp only [List.nil_append, List.drop_succ_cons, List.drop_drop]
        rw [h1, h2]
        have h3 : i + min (n + 1 + 1) (ps1.length + 1 + 1)
            = i + 1 + min (n + 1) (ps1.length + 1) := by omega
        rw [h3]
        simp

theorem set_loop_run (fenv : FacadeEnv) (objectId : sai_object_id_t)
    (attr : Option sai_attribute_t) :
    ∀ (l : List (Nat × Context)) (success : Bool),
      (∀ kvp ∈ l,
        (decide (objectId = SAI_NULL_OBJECT_ID) || containsSwitch kvp.2.m_redisSai objectId)
          = true →
        (sairedis.set (fenv.context_env kvp.1) SAI_OBJECT_TYPE_SWITCH objectId attr
          kvp.2.m_redisSai).fault? = none) →
      Sai.set_loop fenv SAI_OBJECT_TYPE_SWITCH objectId attr l success
        = Except.ok
            (success && l.all (fun kvp =>
                !(decide (objectId = SAI_NULL_OBJECT_ID)
                    || containsSwitch kvp.2.m_redisSai objectId)
                || decide ((sairedis.set (fenv.context_env kvp.1) SAI_OBJECT_TYPE_SWITCH
                    objectId attr kvp.2.m_redisSai).value? = some SAI_STATUS_SUCCESS)),
              l.map (fun kvp =>
                if (decide (objectId = SAI_NULL_OBJECT_ID)
                    || containsSwitch kvp.2.m_redisSai objectId) = true then
                  (kvp.1, { m_redisSai := (sairedis.set (fenv.context_env kvp.1)
                      SAI_OBJECT_TYPE_SWITCH objectId attr kvp.2.m_redisSai).self })
                else kvp)) := by
  intro l
  induction l with
  | nil => intro success _; simp [Sai.set_loop]
  | cons kvp rest ih =>
    intro success hret
    have hrest : ∀ k ∈ rest,
        (decide (objectId = SAI_NULL_OBJECT_ID) || containsSwitch k.2.m_redisSai objectId)
          = true →
        (sairedis.set (fenv.context_env k.1) SAI_OBJECT_TYPE_SWITCH objectId attr
          k.2.m_redisSai).fault? = none :=
      fun k hk => hret k (List.mem_cons_of_mem _ hk)
    cases hsel : (decide (objectId = SAI_NULL_OBJECT_ID)
        || containsSwitch kvp.2.m_redisSai objectId) with
    | false =>
      simp only [Bool.or_eq_false_iff, decide_eq_false_iff_not] at hsel
      have hskip : SAI_OBJECT_TYPE_SWITCH = SAI_OBJECT_TYPE_SWITCH
          ∧ objectId ≠ SAI_NULL_OBJECT_ID
          ∧ containsSwitch kvp.2.m_redisSai objectId = false := ⟨rfl, hsel.1, hsel.2⟩
      rw [Sai.set_loop, if_pos hskip, ih success hrest]
      simp [hsel.1, hsel.2]
    | true =>
      have hnoskip : ¬ (SAI_OBJECT_TYPE_SWITCH = SAI_OBJECT_TYPE_SWITCH
          ∧ objectId ≠ SAI_NULL_OBJECT_ID
          ∧ containsSwitch kvp.2.m_redisSai objectId = false) := by
        rintro ⟨_, h1, h2⟩
        simp [h1, h2] at hsel
      have hok := hret kvp (List.mem_cons_self _ _) hsel
      rw [Sai.set_loop, if_neg hnoskip]
      cases hrun : sairedis.set (fenv.context_env kvp.1) SAI_OBJECT_TYPE_SWITCH objectId attr
          kvp.2.m_redisSai with
      | fault f redis =>
        rw [hrun] at hok
        simp [Outcome.fault?] at hok
      | ok status redis =>
        simp only [ih _ hrest]
        have hsel2 : objectId = SAI_NULL_OBJECT_ID
            ∨ containsSwitch kvp.2.m_redisSai objectId = true := by
          simpa using hsel
        have hf : (!decide (objectId = SAI_NULL_OBJECT_ID)
            && !containsSwitch kvp.2.m_redisSai objectId) = false := by
          rw [← Bool.not_or, hsel]
          rfl
        simp [hsel2, hrun, Outcome.value?, Outcome.self, Bool.and_assoc, hf]
theorem context_call_run (fenv : FacadeEnv) (context : Nat) (call : ContextCall) (s : Sai)
    (c : Context) (h : Sai.getContext s context = some c) :
    context_call fenv context call s
      = SaiOutcome.ok (fenv.context_answer s.calls context call c.m_redisSai).1
          { s with
            calls := s.calls ++ [(context, call)],
            m_contextMap := s.m_contextMap.map (fun kvp =>
              if kvp.1 == context
              then (kvp.1, { m_redisSai :=
                (fenv.context_answer s.calls context call c.m_redisSai).2 })
              else kvp) } := by
  simp [context_call, h]

theorem getContext_map_update (l : List (Nat × Context)) (context : Nat) (c1 : Context) :
    (∃ c, (l.find? (fun kvp => kvp.1 == context)).map Prod.snd = some c) →
    ((l.map (fun kvp => if kvp.1 == context then (kvp.1, c1) else kvp)).find?
      (fun kvp => kvp.1 == context)).map Prod.snd = some c1 := by
  induction l with
  | nil => rintro ⟨c, hc⟩; simp at hc
  | cons kvp rest ih =>
    rintro ⟨c, hc⟩
    by_cases hk : (kvp.1 == context) = true
    · simp [List.find?, hk]
    · have hk2 : (kvp.1 == context) = false := by simpa using hk
      simp only [List.map_cons, hk2, List.find?, Bool.false_eq_true, if_false] at hc ⊢
      exact ih ⟨c, hc⟩

theorem create_on_run (fenv : FacadeEnv) (context : Nat) (objectType : sai_object_type_t)
    (switchId : sai_object_id_t) (attr_count : Nat) (attr_list : Option (List sai_attribute_t))
    (s : Sai) (c : Context) (h : Sai.getContext s context = some c) :
    ∃ l, (Sai.create_on fenv context objectType switchId attr_count attr_list s).value?
          = some (fenv.context_answer s.calls context
              (ContextCall.create objectType switchId attr_count attr_list) c.m_redisSai).1.status
      ∧ (Sai.create_on fenv context objectType switchId attr_count attr_list s).self.calls
          = s.calls ++ (context, ContextCall.create objectType switchId attr_count attr_list) :: l
      ∧ ∀ x ∈ l, ∃ id, x = (context, ContextCall.populateMetadata id) := by
  unfold Sai.create_on
  rw [context_call_run fenv context _ s c h]
  simp only
  split
  · split
    · have hctx : ∃ c1, Sai.getContext
          { s with
            calls := s.calls
              ++ [(context, ContextCall.create objectType switchId attr_count attr_list)],
            m_contextMap := s.m_contextMap.map (fun kvp =>
              if kvp.1 == context
              then (kvp.1, { m_redisSai := (fenv.context_answer s.calls context
                (ContextCall.create objectType switchId attr_count attr_list) c.m_redisSai).2 })
              else kvp) } context = some c1 :=
        ⟨_, getContext_map_update s.m_contextMap context _ ⟨c, h⟩⟩
      obtain ⟨c1, hc1⟩ := hctx
      rw [context_call_run fenv context _ _ c1 hc1]
      refine ⟨[(context, ContextCall.populateMetadata (fenv.context_answer s.calls context
        (ContextCall.create objectType switchId attr_count attr_list) c.m_redisSai).1.objectId)],
        rfl, ?_, ?_⟩
      · simp [SaiOutcome.self]
      · simp
    · exact ⟨[], rfl, by simp [SaiOutcome.self], by simp⟩
  · exact ⟨[], rfl, by simp [SaiOutcome.self], by simp⟩

/-- C1: on an interface that holds a channel, each of the generic create, set
and remove sends its request and then, in asynchronous mode (m_syncMode
false), returns SAI_STATUS_SUCCESS with the request as the only call made on
the channel (no wait, whatever the environment would answer); in synchronous
mode it makes one wait call for the get-response command kind right after the
request and returns exactly the status this wait gave, success or not. -/
theorem generic_mutation_status (env : Env) (s : RedisRemoteSaiInterface) (ch : Channel)
    (hch : s.m_communicationChannel = some ch) (objectType : sai_object_type_t)
    (serializedObjectId : String) (attr_list : List sai_attribute_t) (a : sai_attribute_t) :
    let key := env.sai_serialize_object_type objectType ++ ":" ++ serializedObjectId
    let createReq := Call.channel_set key (create_entry env objectType attr_list) Command.CREATE
    let setReq := Call.channel_set key (env.serialize_attr_list objectType [a]) Command.SET
    let removeReq := Call.channel_del key Command.REMOVE
    let getResponse := Call.channel_wait Command.GETRESPONSE
    (s.m_syncMode = false →
      create_serialized env objectType serializedObjectId attr_list s
        = Outcome.ok SAI_STATUS_SUCCESS { s with calls := s.calls ++ [createReq] }
      ∧ set_serialized env objectType serializedObjectId (some a) s
        = Outcome.ok SAI_STATUS_SUCCESS { s with calls := s.calls ++ [setReq] }
      ∧ remove_serialized env objectType serializedObjectId s
        = Outcome.ok SAI_STATUS_SUCCESS { s with calls := s.calls ++ [removeReq] })
    ∧ (s.m_syncMode = true →
      create_serialized env objectType serializedObjectId attr_list s
        = Outcome.ok (env.wait (s.calls ++ [createReq]) Command.GETRESPONSE).1
            { s with calls := s.calls ++ [createReq, getResponse] }
      ∧ set_serialized env objectType serializedObjectId (some a) s
        = Outcome.ok (env.wait (s.calls ++ [setReq]) Command.GETRESPONSE).1
            { s with calls := s.calls ++ [setReq, getResponse] }
      ∧ remove_serialized env objectType serializedObjectId s
        = Outcome.ok (env.wait (s.calls ++ [removeReq]) Command.GETRESPONSE).1
            { s with calls := s.calls ++ [removeReq, getResponse] }) := by
  intro key createReq setReq removeReq getResponse
  refine ⟨fun h => ⟨?_, ?_, ?_⟩, fun h => ⟨?_, ?_, ?_⟩⟩
  · rw [create_serialized_run env _ _ _ s ch hch, waitForResponse_async]
    exact h
  · rw [set_serialized_run env _ _ _ s ch hch, waitForResponse_async]
    exact h
  · rw [remove_serialized_run env _ _ s ch hch, waitForResponse_async]
    exact h
  · rw [create_serialized_run env _ _ _ s ch hch, waitForResponse_sync env _ _ ch]
    · simp [createReq, getResponse, key]
    · exact hch
    · exact h
  · rw [set_serialized_run env _ _ _ s ch hch, waitForResponse_sync env _ _ ch]
    · simp [setReq, getResponse, key]
    · exact hch
    · exact h
  · rw [remove_serialized_run env _ _ s ch hch, waitForResponse_sync env _ _ ch]
    · simp [removeReq, getResponse, key]
    · exact hch
    · exact h

/-- C1, at a concrete input: a synchronous interface whose remote answers
SAI_STATUS_FAILURE hands that status to the caller of the generic set. -/
theorem generic_mutation_status_witness :
    exampleSync.m_communicationChannel
        = some { kind := ChannelKind.RedisChannel, buffered := false, responseTimeout := 60000 }
      ∧ (set_serialized (exampleEnv SAI_STATUS_FAILURE [] 1) 1 "oid:0x1"
          (some (exampleAttr 5 true)) exampleSync).value? = some SAI_STATUS_FAILURE :=
  ⟨by rfl, by
    have h := (generic_mutation_status (exampleEnv SAI_STATUS_FAILURE [] 1) exampleSync _
      (by rfl) 1 "oid:0x1" [] (exampleAttr 5 true)).2 (by rfl)
    rw [h.2.1]
    rfl⟩

/-- C2: on an interface that holds a channel, for every object type,
serialized id and attribute list, the generic create sends one request under
the create command kind with key serializeObjectType(type) ++ ":" ++ id; its
field/value list is the serialized attribute list when that is non-empty and
the single pair ("NULL", "NULL") otherwise, a rule whose result is never
empty. bulkCreate
sends one request under the bulk-create command kind whose i-th value is the
join of the i-th item's list after the same placeholder rule. -/
theorem create_request_shape (env : Env) (s : RedisRemoteSaiInterface) (ch : Channel)
    (hch : s.m_communicationChannel = some ch) (object_type : sai_object_type_t)
    (serializedObjectId : String) (attr_list : List sai_attribute_t)
    (serialized_object_ids : List String) (attr_lists : List (List sai_attribute_t))
    (hlen : attr_lists.length = serialized_object_ids.length) :
    let placeholder := fun (entry : List FieldValueTuple) =>
      if entry = [] then [("NULL", "NULL")] else entry
    let sent := placeholder (env.serialize_attr_list object_type attr_list)
    let waits := if s.m_syncMode then [Call.channel_wait Command.GETRESPONSE] else []
    (∀ entry, placeholder entry ≠ [])
    ∧ callsSince s (create_serialized env object_type serializedObjectId attr_list s).self
        = Call.channel_set
            (env.sai_serialize_object_type object_type ++ ":" ++ serializedObjectId)
            sent Command.CREATE :: waits
    ∧ callsSince s
          (bulkCreate_serialized env object_type serialized_object_ids attr_lists s).self
        = Call.channel_set
            (env.sai_serialize_object_type object_type ++ ":"
              ++ toString serialized_object_ids.length)
            (List.zipWith (fun id attrs =>
                (id, env.joinFieldValues
                  (placeholder (env.serialize_attr_list object_type attrs))))
              serialized_object_ids attr_lists)
            Command.BULK_CREATE :: waits := by
  intro placeholder sent waits
  have hrule : ∀ attrs, create_entry env object_type attrs
      = placeholder (env.serialize_attr_list object_type attrs) := by
    intro attrs
    simp only [create_entry, placeholder]
    cases env.serialize_attr_list object_type attrs <;> simp
  refine ⟨?_, ?_, ?_⟩
  · intro entry
    simp only [placeholder]
    split
    · simp
    · assumption
  · apply callsSince_append
    rw [create_serialized_run env _ _ _ s ch hch, waitForResponse_calls env _ _ ch, hrule]
    · simp [sent, waits]
    · exact hch
  · apply callsSince_append
    rw [bulkCreate_serialized_run env _ _ _ s ch hch,
      waitForBulkResponse_calls env _ _ _ ch (by exact hch)]
    have hz := range_map_eq_zipWith
      (fun (id : String) (attrs : List sai_attribute_t) =>
        (id, env.joinFieldValues (create_entry env object_type attrs)))
      "" [] serialized_object_ids attr_lists hlen
    simp only [hrule] at hz
    simp only [hrule, hz]
    simp [waits]

/-- C2, at a concrete input: a create with no attribute on an asynchronous
interface sends the placeholder pair under the key of the object. -/
theorem create_request_shape_witness :
    exampleAsync.m_communicationChannel
        = some { kind := ChannelKind.RedisChannel, buffered := true, responseTimeout := 60000 }
      ∧ ([] : List (List sai_attribute_t)).length = ([] : List String).length
      ∧ callsSince exampleAsync
          (create_serialized (exampleEnv 0 [] 1) 1 "oid:0x1000000000123" [] exampleAsync).self
        = [Call.channel_set "SAI_OBJECT_TYPE_PORT:oid:0x1000000000123" [("NULL", "NULL")]
            Command.CREATE] :=
  ⟨by rfl, by rfl, by
    have h := (create_request_shape (exampleEnv 0 [] 1) exampleAsync _ (by rfl) 1
      "oid:0x1000000000123" [] [] [] (by rfl)).2.1
    rw [h]
    decide⟩

/-- C3: on a synchronous interface that holds a channel, for every object
type and attribute list whose create sends a create request (for the switch
type: the list does not carry INIT_SWITCH = false), when the allocator gave a
non-null handle and the status answered to the create request is not success,
create returns that status unchanged together with the handle, the registry
is the one before the call, and the calls made are the allocation, the
request, the wait and one releaseObjectId, which is on that handle. -/
theorem create_failure_releases_handle (env : Env) (s : RedisRemoteSaiInterface) (ch : Channel)
    (hch : s.m_communicationChannel = some ch) (hmode : s.m_syncMode = true)
    (objectType : sai_object_type_t) (switchId : sai_object_id_t)
    (attr_list : List sai_attribute_t)
    (hinit : objectType = SAI_OBJECT_TYPE_SWITCH →
      (sai_metadata_get_attr_by_id env.SAI_SWITCH_ATTR_INIT_SWITCH attr_list).map
        (fun a => a.value.booldata) ≠ some false)
    (handle : sai_object_id_t) (allocation : Call)
    (hhandle : (handle, allocation)
      = if objectType = SAI_OBJECT_TYPE_SWITCH then
          (env.allocateNewSwitchObjectId s.calls (env.getHardwareInfo attr_list),
            Call.allocateNewSwitchObjectId (env.getHardwareInfo attr_list))
        else
          (env.allocateNewObjectId s.calls objectType switchId,
            Call.allocateNewObjectId objectType switchId))
    (hnonnull : handle ≠ SAI_NULL_OBJECT_ID)
    (status : sai_status_t)
    (hstatus : status = (env.wait (s.calls ++ [allocation, Call.channel_set
        (env.sai_serialize_object_type objectType ++ ":" ++ env.sai_serialize_object_id handle)
        (create_entry env objectType attr_list) Command.CREATE]) Command.GETRESPONSE).1)
    (hfail : status ≠ SAI_STATUS_SUCCESS) :
    create env objectType switchId attr_list s
        = Outcome.ok (status, handle)
            { s with calls := s.calls ++ [allocation, Call.channel_set
                (env.sai_serialize_object_type objectType ++ ":"
                  ++ env.sai_serialize_object_id handle)
                (create_entry env objectType attr_list) Command.CREATE,
                Call.channel_wait Command.GETRESPONSE, Call.releaseObjectId handle] }
      ∧ releasedIds (callsSince s (create env objectType switchId attr_list s).self) = [handle]
      ∧ (create env objectType switchId attr_list s).self.m_switchContainer
          = s.m_switchContainer := by
  have key : create env objectType switchId attr_list s
        = Outcome.ok (status, handle)
            { s with calls := s.calls ++ [allocation, Call.channel_set
                (env.sai_serialize_object_type objectType ++ ":"
                  ++ env.sai_serialize_object_id handle)
                (create_entry env objectType attr_list) Command.CREATE,
                Call.channel_wait Command.GETRESPONSE, Call.releaseObjectId handle] } := by
    have hser := create_serialized_sync env objectType (env.sai_serialize_object_id handle)
      attr_list { s with calls := s.calls ++ [allocation] } ch hch hmode
    simp only [List.append_assoc, List.singleton_append, ← hstatus] at hser
    have hrun := create_allocated_of_status env objectType handle attr_list _ _ status hnonnull hser
    simp only [hfail, and_false, if_false, ne_eq, not_false_eq_true, if_true, List.append_assoc,
      List.cons_append, List.nil_append] at hrun
    by_cases ht : objectType = SAI_OBJECT_TYPE_SWITCH
    · simp only [ht, if_true, Prod.mk.injEq] at hhandle
      obtain ⟨hh, ha⟩ := hhandle
      have hinit1 := hinit ht
      have hcond : ¬ ((sai_metadata_get_attr_by_id env.SAI_SWITCH_ATTR_INIT_SWITCH
          attr_list).isSome ∧ (sai_metadata_get_attr_by_id env.SAI_SWITCH_ATTR_INIT_SWITCH
          attr_list).map (fun a => a.value.booldata) = some false) := fun hc => hinit1 hc.2
      rw [← hrun]
      simp only [create, ht, if_true, run_bind, vid_allocateNewSwitchObjectId_run, ← hh,
        hnonnull, if_false, hcond, ← ha]
    · simp only [ht, if_false, Prod.mk.injEq] at hhandle
      obtain ⟨hh, ha⟩ := hhandle
      rw [← hrun]
      simp only [create, ht, if_false, run_bind, vid_allocateNewObjectId_run, ← hh, ← ha]
  refine ⟨key, ?_, ?_⟩
  · rw [key]
    have hal : releasedIds [allocation] = [] := by
      by_cases ht : objectType = SAI_OBJECT_TYPE_SWITCH
      · simp only [ht, if_true, Prod.mk.injEq] at hhandle
        simp [hhandle.2, releasedIds]
      · simp only [ht, if_false, Prod.mk.injEq] at hhandle
        simp [hhandle.2, releasedIds]
    simp only [releasedIds, List.filterMap_cons, List.filterMap_nil] at hal
    simp only [Outcome.self, callsSince, List.drop_left, releasedIds, List.filterMap_cons,
      List.filterMap_nil]
    split at hal
    · rfl
    · simp at hal
  · rw [key]
    rfl

/-- C3, at a concrete input: a port create on a synchronous interface whose
remote answers SAI_STATUS_FAILURE releases the allocated handle, once. -/
theorem create_failure_releases_handle_witness :
    exampleSync.m_syncMode = true
      ∧ (0x1000000000123 : sai_object_id_t) ≠ SAI_NULL_OBJECT_ID
      ∧ SAI_STATUS_FAILURE ≠ SAI_STATUS_SUCCESS
      ∧ releasedIds (callsSince exampleSync
          (create (exampleEnv SAI_STATUS_FAILURE [] 0x1000000000123) 1 0x21000000000000 []
            exampleSync).self) = [0x1000000000123] :=
  ⟨by rfl, by decide, by decide,
    (create_failure_releases_handle (exampleEnv SAI_STATUS_FAILURE [] 0x1000000000123)
      exampleSync _ (by rfl) (by rfl) 1 0x21000000000000 []
      (fun h => absurd h (by decide)) 0x1000000000123
      (Call.allocateNewObjectId 1 0x21000000000000) (by rfl) (by decide)
      SAI_STATUS_FAILURE (by rfl) (by decide)).2.1⟩

/-- C4: for every object type other than switch, when the allocator gives the
null handle, create returns SAI_STATUS_INSUFFICIENT_RESOURCES with *objectId
null, and the allocation is the only call it made (nothing is sent on the
channel); and, for every object type, when the allocation of some item of a
bulkCreate (object id form) gives the null handle, bulkCreate returns
SAI_STATUS_INSUFFICIENT_RESOURCES having made allocation calls only. -/
theorem create_null_handle (env : Env) (s : RedisRemoteSaiInterface)
    (objectType : sai_object_type_t) (switchId : sai_object_id_t)
    (attr_list : List sai_attribute_t) (object_count : Nat)
    (attr_lists : List (List sai_attribute_t)) :
    (objectType ≠ SAI_OBJECT_TYPE_SWITCH →
      env.allocateNewObjectId s.calls objectType switchId = SAI_NULL_OBJECT_ID →
      create env objectType switchId attr_list s
        = Outcome.ok (SAI_STATUS_INSUFFICIENT_RESOURCES, SAI_NULL_OBJECT_ID)
            { s with calls := s.calls ++ [Call.allocateNewObjectId objectType switchId] })
    ∧ ((∃ k, k < object_count ∧ env.allocateNewObjectId
          (s.calls ++ List.replicate k (Call.allocateNewObjectId objectType switchId))
          objectType switchId = SAI_NULL_OBJECT_ID) →
      ∃ (written : List sai_object_id_t) (m : Nat),
        bulkCreate env objectType switchId object_count attr_lists s
          = Outcome.ok (SAI_STATUS_INSUFFICIENT_RESOURCES, written, [])
              { s with calls := s.calls
                  ++ List.replicate m (Call.allocateNewObjectId objectType switchId) }) := by
  constructor
  · intro hother hnull
    simp only [create, hother, if_false, run_bind, vid_allocateNewObjectId_run, hnull]
    rw [create_allocated_null]
  · intro hex
    obtain ⟨b, w, m, hrun, _, hiff⟩ :=
      bulkCreate_allocate_run env objectType switchId object_count [] s
    have hb : b = false := hiff.mpr hex
    subst hb
    exact ⟨w, m, by simp [bulkCreate, run_bind, hrun, run_pure]⟩

/-- C4, at a concrete input: with an allocator that is out of handles, a port
create returns SAI_STATUS_INSUFFICIENT_RESOURCES and calls the allocator only. -/
theorem create_null_handle_witness :
    (1 : sai_object_type_t) ≠ SAI_OBJECT_TYPE_SWITCH
      ∧ create (exampleEnv 0 [] SAI_NULL_OBJECT_ID) 1 0x21000000000000 [] exampleAsync
        = Outcome.ok (SAI_STATUS_INSUFFICIENT_RESOURCES, SAI_NULL_OBJECT_ID)
            { exampleAsync with calls := exampleAsync.calls
                ++ [Call.allocateNewObjectId 1 0x21000000000000] } :=
  ⟨by decide,
    (create_null_handle (exampleEnv 0 [] SAI_NULL_OBJECT_ID) exampleAsync 1 0x21000000000000
      [] 0 []).1 (by decide) (by rfl)⟩

/-- C5: on an interface that holds a channel, remove(type, handle) sends the
delete request and returns its status (the answer of the wait in synchronous
mode, success in asynchronous mode). When the type is switch and that status
is success, releaseObjectId is called on the handle and the entry of the
handle is taken out of the registry; in every other case no call is made on
the allocator and the registry is the one before the call. -/
theorem remove_releases_switch_only (env : Env) (s : RedisRemoteSaiInterface) (ch : Channel)
    (hch : s.m_communicationChannel = some ch) (objectType : sai_object_type_t)
    (objectId : sai_object_id_t) :
    let request := Call.channel_del
      (env.sai_serialize_object_type objectType ++ ":" ++ env.sai_serialize_object_id objectId)
      Command.REMOVE
    let status := if s.m_syncMode then
      (env.wait (s.calls ++ [request]) Command.GETRESPONSE).1 else SAI_STATUS_SUCCESS
    let waits := if s.m_syncMode then [Call.channel_wait Command.GETRESPONSE] else []
    let out := remove env objectType objectId s
    out.value? = some status
    ∧ (objectType = SAI_OBJECT_TYPE_SWITCH ∧ status = SAI_STATUS_SUCCESS →
        callsSince s out.self = request :: waits ++ [Call.releaseObjectId objectId]
        ∧ out.self.m_switchContainer
            = SwitchContainer.removeSwitch s.m_switchContainer objectId
        ∧ SwitchContainer.contains out.self.m_switchContainer objectId = false)
    ∧ (¬ (objectType = SAI_OBJECT_TYPE_SWITCH ∧ status = SAI_STATUS_SUCCESS) →
        callsSince s out.self = request :: waits
        ∧ out.self.m_switchContainer = s.m_switchContainer) := by
  intro request status waits out
  cases hmode : s.m_syncMode
  · have hrun := remove_of_status env objectType objectId s _ _
      (remove_serialized_async env objectType _ s ch hch hmode)
    have hst : status = SAI_STATUS_SUCCESS := by simp [status, hmode]
    have hw : waits = [] := by simp [waits, hmode]
    rw [hst, hw]
    by_cases ht : objectType = SAI_OBJECT_TYPE_SWITCH
    · simp only [ht, true_and, if_true] at hrun
      simp only [out, ht, hrun]
      refine ⟨rfl, fun _ => ⟨?_, rfl, ?_⟩, fun h => (h (by simp)).elim⟩
      · simp [Outcome.self, callsSince, request, ht]
      · exact SwitchContainer.contains_removeSwitch _ _
    · simp only [ht, false_and, if_false] at hrun
      simp only [out, hrun]
      refine ⟨rfl, fun h => absurd h.1 ht, fun _ => ⟨?_, rfl⟩⟩
      simp [Outcome.self, callsSince, request]
  · have hrun := remove_of_status env objectType objectId s _ _
      (remove_serialized_sync env objectType _ s ch hch hmode)
    have hst : status = (env.wait (s.calls ++ [request]) Command.GETRESPONSE).1 := by
      simp [status, hmode]
    have hw : waits = [Call.channel_wait Command.GETRESPONSE] := by simp [waits, hmode]
    rw [hw]
    by_cases hc : objectType = SAI_OBJECT_TYPE_SWITCH ∧ status = SAI_STATUS_SUCCESS
    · have hc1 := hc
      rw [hst] at hc1
      simp only [request] at hc1
      rw [if_pos hc1] at hrun
      simp only [out, hrun]
      refine ⟨?_, fun _ => ⟨?_, rfl, ?_⟩, fun h => absurd hc h⟩
      · simp [Outcome.value?, hst, request]
      · simp [Outcome.self, callsSince, request]
      · exact SwitchContainer.contains_removeSwitch _ _
    · have hc1 := hc
      rw [hst] at hc1
      simp only [request] at hc1
      rw [if_neg hc1] at hrun
      simp only [out, hrun]
      refine ⟨?_, fun h => absurd h hc, fun _ => ⟨?_, rfl⟩⟩
      · simp [Outcome.value?, hst, request]
      · simp [Outcome.self, callsSince, request]

/-- C5, at a concrete input: removing a port on an asynchronous interface
returns success and leaves the registry as it was. -/
theorem remove_releases_switch_only_witness :
    exampleAsync.m_communicationChannel
        = some { kind := ChannelKind.RedisChannel, buffered := true, responseTimeout := 60000 }
      ∧ (remove (exampleEnv 0 [] 1) 1 0x1000000000123 exampleAsync).value?
        = some SAI_STATUS_SUCCESS :=
  ⟨by rfl,
    (remove_releases_switch_only (exampleEnv 0 [] 1) exampleAsync _ (by rfl) 1
      0x1000000000123).1⟩

/-- C6, as stated, fails for an object type other than switch: a port is
created with success and removed with success on an asynchronous interface,
and releaseObjectId is not called at all. -/
theorem create_remove_release_counterexample :
    (create (exampleEnv 0 [] 0x1000000000123) 1 0x21000000000000 [] exampleAsync).value?
        = some (SAI_STATUS_SUCCESS, 0x1000000000123)
      ∧ (remove (exampleEnv 0 [] 0x1000000000123) 1 0x1000000000123
          (create (exampleEnv 0 [] 0x1000000000123) 1 0x21000000000000 []
            exampleAsync).self).value? = some SAI_STATUS_SUCCESS
      ∧ releasedIds (callsSince exampleAsync
          (remove (exampleEnv 0 [] 0x1000000000123) 1 0x1000000000123
            (create (exampleEnv 0 [] 0x1000000000123) 1 0x21000000000000 []
              exampleAsync).self).self) = []
      ∧ releasedIds (callsSince exampleAsync
          (remove (exampleEnv 0 [] 0x1000000000123) 1 0x1000000000123
            (create (exampleEnv 0 [] 0x1000000000123) 1 0x21000000000000 []
              exampleAsync).self).self) ≠ [0x1000000000123] := by
  refine ⟨by rfl, by rfl, by rfl, by decide⟩

/-- C6, amended: a create that returns success with a handle, followed by a
remove of that handle that returns success, calls releaseObjectId exactly
once, on that handle, when the object type is switch, and never when it is
another object type. -/
theorem create_remove_release (env : Env) (s : RedisRemoteSaiInterface)
    (objectType : sai_object_type_t) (switchId handle : sai_object_id_t)
    (attr_list : List sai_attribute_t)
    (hcreate : (create env objectType switchId attr_list s).value?
      = some (SAI_STATUS_SUCCESS, handle))
    (hremove : (remove env objectType handle
      (create env objectType switchId attr_list s).self).value? = some SAI_STATUS_SUCCESS) :
    releasedIds (callsSince s (remove env objectType handle
        (create env objectType switchId attr_list s).self).self)
      = if objectType = SAI_OBJECT_TYPE_SWITCH then [handle] else [] := by
  obtain ⟨l1, hl1, hr1⟩ := create_success_calls env objectType switchId handle attr_list s hcreate
  obtain ⟨l2, hl2, hr2⟩ := remove_success_calls env objectType handle _ hremove
  rw [callsSince_append s _ (l1 ++ l2) (by rw [hl2, hl1, List.append_assoc])]
  simp only [releasedIds, List.filterMap_append] at hr1 hr2 ⊢
  rw [hr1, hr2]
  simp

/-- C6, amended, at a concrete input: a switch created and then removed on an
asynchronous interface has its handle released once. -/
theorem create_remove_release_witness :
    (create (exampleEnv 0 [] 0x21000000000000) SAI_OBJECT_TYPE_SWITCH 0 []
        exampleAsync).value? = some (SAI_STATUS_SUCCESS, 0x21000000000000)
      ∧ releasedIds (callsSince exampleAsync
          (remove (exampleEnv 0 [] 0x21000000000000) SAI_OBJECT_TYPE_SWITCH 0x21000000000000
            (create (exampleEnv 0 [] 0x21000000000000) SAI_OBJECT_TYPE_SWITCH 0 []
              exampleAsync).self).self) = [0x21000000000000] :=
  ⟨by rfl,
    create_remove_release (exampleEnv 0 [] 0x21000000000000) exampleAsync
      SAI_OBJECT_TYPE_SWITCH 0 0x21000000000000 [] (by rfl) (by rfl)⟩

/-- C7: isRedisAttribute(type, attr) holds exactly when the type is switch,
attr is not null and attr.id is not below SAI_SWITCH_ATTR_CUSTOM_RANGE_START.
When it holds, set makes no request under the generic set command kind and
updates no entry of the switch registry (the registry is as it was, or was
emptied as a whole by the switch to init view). When it does not hold for an
attribute, on an interface that holds a channel, the attribute is sent as one
request under the generic set command kind, followed only by the wait of
synchronous mode. -/
theorem set_extension_interception (env : Env) (s : RedisRemoteSaiInterface)
    (objectType : sai_object_type_t) (objectId : sai_object_id_t)
    (attr : Option sai_attribute_t) :
    (isRedisAttribute objectType attr = true ↔
      objectType = SAI_OBJECT_TYPE_SWITCH
        ∧ ∃ a, attr = some a ∧ SAI_SWITCH_ATTR_CUSTOM_RANGE_START ≤ a.id)
    ∧ (isRedisAttribute objectType attr = true →
        (∀ c ∈ callsSince s (set env objectType objectId attr s).self, isGenericSet c = false)
        ∧ ((set env objectType objectId attr s).self.m_switchContainer = s.m_switchContainer
            ∨ (set env objectType objectId attr s).self.m_switchContainer = []))
    ∧ (∀ (a : sai_attribute_t) (ch : Channel), attr = some a →
        s.m_communicationChannel = some ch → isRedisAttribute objectType attr = false →
        callsSince s (set env objectType objectId attr s).self
          = Call.channel_set
              (env.sai_serialize_object_type objectType ++ ":"
                ++ env.sai_serialize_object_id objectId)
              (env.serialize_attr_list objectType [a]) Command.SET
            :: (if s.m_syncMode then [Call.channel_wait Command.GETRESPONSE] else [])) := by
  refine ⟨?_, ?_, ?_⟩
  · unfold isRedisAttribute
    by_cases ht : objectType = SAI_OBJECT_TYPE_SWITCH
    · cases attr with
      | none => simp [ht]
      | some a =>
        by_cases hid : a.id < SAI_SWITCH_ATTR_CUSTOM_RANGE_START
        · simp [ht, hid]
        · simp [ht, hid, Nat.le_of_not_lt hid]
    · simp [ht]
  · intro hattr
    have hset : set env objectType objectId attr s
        = setRedisExtensionAttribute env objectType objectId attr s := by
      simp [set, hattr]
    rw [hset]
    obtain ⟨⟨l, hl, hp⟩, hreg⟩ := confined_setRedisExtensionAttribute env objectType objectId attr s
    refine ⟨?_, hreg⟩
    rw [callsSince_append s _ l hl]
    exact hp
  · intro a ch ha hch hattr
    subst ha
    apply callsSince_append
    cases hmode : s.m_syncMode
    · have hrun := set_serialized_run env objectType (env.sai_serialize_object_id objectId) a s
        ch hch
      rw [waitForResponse_async env _ _ (by exact hmode)] at hrun
      rw [set_calls_of_status env objectType objectId (some a) s _ _ hattr hrun]
      simp
    · have hrun := set_serialized_run env objectType (env.sai_serialize_object_id objectId) a s
        ch hch
      rw [waitForResponse_sync env _ _ ch (by exact hch) (by exact hmode)] at hrun
      rw [set_calls_of_status env objectType objectId (some a) s _ _ hattr hrun]
      simp

/-- C7, at a concrete input: an attribute of a port is not an extension
attribute and is sent as one generic set request. -/
theorem set_extension_interception_witness :
    exampleAsync.m_communicationChannel
        = some { kind := ChannelKind.RedisChannel, buffered := true, responseTimeout := 60000 }
      ∧ isRedisAttribute 1 (some (exampleAttr 5 true)) = false
      ∧ callsSince exampleAsync
          (set (exampleEnv 0 [] 1) 1 0x1000000000123 (some (exampleAttr 5 true))
            exampleAsync).self
        = [Call.channel_set "SAI_OBJECT_TYPE_PORT:oid:0x1000000000123" [("ATTR", "true")]
            Command.SET] :=
  ⟨by rfl, by decide, by
    have h := (set_extension_interception (exampleEnv 0 [] 1) exampleAsync 1 0x1000000000123
      (some (exampleAttr 5 true))).2.2 (exampleAttr 5 true) _ rfl (by rfl) (by decide)
    rw [h]
    decide⟩

/-- C8: with zmq not enabled in the context configuration, setting the
communication-mode extension attribute to a defined value returns success and
puts a new channel in place of the old one, on which it calls
setResponseTimeout and then setBuffered: redis-async gives m_syncMode false
and a redis channel with setBuffered(true), redis-sync gives m_syncMode true
and a redis channel with setBuffered(false), zmq-sync gives m_syncMode true
and a zmq channel with setBuffered(false). The state before the call is
arbitrary, so the result does not depend on the synchronous flag or on the
channel (if any) held before. -/
theorem communication_mode_transition (env : Env) (s : RedisRemoteSaiInterface)
    (objectType : sai_object_type_t) (objectId : sai_object_id_t) (a : sai_attribute_t)
    (hattr : env.redis_switch_attr a.id
      = some sai_redis_switch_attr_t.REDIS_COMMUNICATION_MODE)
    (hzmq : s.m_zmqEnable = false) :
    (env.communication_mode a.value.s32 = some sai_redis_communication_mode_t.REDIS_ASYNC →
      (setRedisExtensionAttribute env objectType objectId (some a) s).value?
          = some SAI_STATUS_SUCCESS
        ∧ (setRedisExtensionAttribute env objectType objectId (some a) s).self.m_syncMode
          = false
        ∧ (setRedisExtensionAttribute env objectType objectId (some a)
            s).self.m_communicationChannel
          = some { kind := ChannelKind.RedisChannel, buffered := true,
                   responseTimeout := s.m_responseTimeoutMs }
        ∧ callsSince s (setRedisExtensionAttribute env objectType objectId (some a) s).self
          = [Call.channel_setResponseTimeout s.m_responseTimeoutMs,
              Call.channel_setBuffered true])
    ∧ (env.communication_mode a.value.s32 = some sai_redis_communication_mode_t.REDIS_SYNC →
      (setRedisExtensionAttribute env objectType objectId (some a) s).value?
          = some SAI_STATUS_SUCCESS
        ∧ (setRedisExtensionAttribute env objectType objectId (some a) s).self.m_syncMode
          = true
        ∧ (setRedisExtensionAttribute env objectType objectId (some a)
            s).self.m_communicationChannel
          = some { kind := ChannelKind.RedisChannel, buffered := false,
                   responseTimeout := s.m_responseTimeoutMs }
        ∧ callsSince s (setRedisExtensionAttribute env objectType objectId (some a) s).self
          = [Call.channel_setResponseTimeout s.m_responseTimeoutMs,
              Call.channel_setBuffered false])
    ∧ (env.communication_mode a.value.s32 = some sai_redis_communication_mode_t.ZMQ_SYNC →
      (setRedisExtensionAttribute env objectType objectId (some a) s).value?
          = some SAI_STATUS_SUCCESS
        ∧ (setRedisExtensionAttribute env objectType objectId (some a) s).self.m_syncMode
          = true
        ∧ (setRedisExtensionAttribute env objectType objectId (some a)
            s).self.m_communicationChannel
          = some { kind := ChannelKind.ZeroMQChannel, buffered := false,
                   responseTimeout := s.m_responseTimeoutMs }
        ∧ callsSince s (setRedisExtensionAttribute env objectType objectId (some a) s).self
          = [Call.channel_setResponseTimeout s.m_responseTimeoutMs,
              Call.channel_setBuffered false]) := by
  have hrun : setRedisExtensionAttribute env objectType objectId (some a) s
      = setRedisCommunicationMode env a s := by
    simp [setRedisExtensionAttribute, hattr]
  rw [hrun, setRedisCommunicationMode_run env a s hzmq]
  refine ⟨fun hm => ?_, fun hm => ?_, fun hm => ?_⟩ <;> rw [hm] <;>
    exact ⟨rfl, rfl, rfl, by simp [callsSince, Outcome.self]⟩

/-- C8, at a concrete input: a synchronous, unbuffered interface set to
redis-async becomes asynchronous and buffered. -/
theorem communication_mode_transition_witness :
    (exampleEnv 0 [] 1).redis_switch_attr (exampleAttrS32 0x10000007 0).id
        = some sai_redis_switch_attr_t.REDIS_COMMUNICATION_MODE
      ∧ exampleSync.m_zmqEnable = false
      ∧ exampleSync.m_syncMode = true
      ∧ (setRedisExtensionAttribute (exampleEnv 0 [] 1) SAI_OBJECT_TYPE_SWITCH 0
          (some (exampleAttrS32 0x10000007 0)) exampleSync).self.m_syncMode = false
      ∧ (setRedisExtensionAttribute (exampleEnv 0 [] 1) SAI_OBJECT_TYPE_SWITCH 0
          (some (exampleAttrS32 0x10000007 0)) exampleSync).self.m_communicationChannel
        = some { kind := ChannelKind.RedisChannel, buffered := true,
                 responseTimeout := exampleSync.m_responseTimeoutMs } :=
  ⟨by rfl, by rfl, by rfl,
    ((communication_mode_transition (exampleEnv 0 [] 1) exampleSync SAI_OBJECT_TYPE_SWITCH 0
      (exampleAttrS32 0x10000007 0) (by rfl) (by rfl)).1 (by rfl)).2.1,
    ((communication_mode_transition (exampleEnv 0 [] 1) exampleSync SAI_OBJECT_TYPE_SWITCH 0
      (exampleAttrS32 0x10000007 0) (by rfl) (by rfl)).1 (by rfl)).2.2.1⟩

/-- C9: setting the use-pipeline extension attribute, whatever its value, in
synchronous mode returns SAI_STATUS_NOT_SUPPORTED and leaves the object as it
was (no call on the channel, buffering flag included); in asynchronous mode,
on an interface that holds a channel, it sets the buffering flag of the
channel to the boolean value of the attribute by one setBuffered call and
returns success. -/
theorem use_pipeline_by_mode (env : Env) (s : RedisRemoteSaiInterface)
    (objectType : sai_object_type_t) (objectId : sai_object_id_t) (a : sai_attribute_t)
    (hattr : env.redis_switch_attr a.id = some sai_redis_switch_attr_t.USE_PIPELINE) :
    (s.m_syncMode = true →
      setRedisExtensionAttribute env objectType objectId (some a) s
        = Outcome.ok SAI_STATUS_NOT_SUPPORTED s)
    ∧ (∀ ch, s.m_syncMode = false → s.m_communicationChannel = some ch →
      setRedisExtensionAttribute env objectType objectId (some a) s
        = Outcome.ok SAI_STATUS_SUCCESS
            { s with
              m_communicationChannel := some { ch with buffered := a.value.booldata },
              calls := s.calls ++ [Call.channel_setBuffered a.value.booldata] }) := by
  constructor
  · intro hmode
    simp [setRedisExtensionAttribute, hattr, run_bind, run_get, hmode, run_pure]
  · intro ch hmode hch
    simp [setRedisExtensionAttribute, hattr, run_bind, run_get, hmode, run_pure,
      channel_setBuffered_run _ s ch hch]

/-- C9, at a concrete input: use-pipeline = true on a synchronous interface is
answered SAI_STATUS_NOT_SUPPORTED and nothing changes. -/
theorem use_pipeline_by_mode_witness :
    (exampleEnv 0 [] 1).redis_switch_attr (exampleAttr 0x10000008 true).id
        = some sai_redis_switch_attr_t.USE_PIPELINE
      ∧ exampleSync.m_syncMode = true
      ∧ setRedisExtensionAttribute (exampleEnv 0 [] 1) SAI_OBJECT_TYPE_SWITCH 0
          (some (exampleAttr 0x10000008 true)) exampleSync
        = Outcome.ok SAI_STATUS_NOT_SUPPORTED exampleSync :=
  ⟨by rfl, by rfl,
    (use_pipeline_by_mode (exampleEnv 0 [] 1) exampleSync SAI_OBJECT_TYPE_SWITCH 0
      (exampleAttr 0x10000008 true) (by rfl)).1 (by rfl)⟩

/-- C10, as stated, fails: the value 7 is none of the three communication
modes, and setting it on an interface without zmq does not throw; the call
returns the status SAI_STATUS_NOT_SUPPORTED. -/
theorem communication_mode_undefined_counterexample :
    (exampleEnv 0 [] 1).communication_mode (exampleAttrS32 0x10000007 7).value.s32 = none
      ∧ (setRedisExtensionAttribute (exampleEnv 0 [] 1) SAI_OBJECT_TYPE_SWITCH 0
          (some (exampleAttrS32 0x10000007 7)) exampleAsync).isFault = false
      ∧ (setRedisExtensionAttribute (exampleEnv 0 [] 1) SAI_OBJECT_TYPE_SWITCH 0
          (some (exampleAttrS32 0x10000007 7)) exampleAsync).value?
        = some SAI_STATUS_NOT_SUPPORTED := by
  refine ⟨by rfl, by rfl, by rfl⟩

/-- C10, amended: setting the communication-mode extension attribute to a
value that is none of the three defined modes does not throw. With zmq not
enabled in the context configuration the call returns
SAI_STATUS_NOT_SUPPORTED, with the synchronous flag as before and no call made
on a collaborator; with zmq enabled the value is overridden by zmq-sync and
the call returns success. -/
theorem communication_mode_undefined (env : Env) (s : RedisRemoteSaiInterface)
    (objectType : sai_object_type_t) (objectId : sai_object_id_t) (a : sai_attribute_t)
    (hattr : env.redis_switch_attr a.id
      = some sai_redis_switch_attr_t.REDIS_COMMUNICATION_MODE)
    (hmode : env.communication_mode a.value.s32 = none) :
    (setRedisExtensionAttribute env objectType objectId (some a) s).isFault = false
    ∧ (s.m_zmqEnable = false →
        (setRedisExtensionAttribute env objectType objectId (some a) s).value?
            = some SAI_STATUS_NOT_SUPPORTED
          ∧ (setRedisExtensionAttribute env objectType objectId (some a) s).self.m_syncMode
            = s.m_syncMode
          ∧ (setRedisExtensionAttribute env objectType objectId (some a) s).self.calls
            = s.calls)
    ∧ (s.m_zmqEnable = true →
        (setRedisExtensionAttribute env objectType objectId (some a) s).value?
            = some SAI_STATUS_SUCCESS
          ∧ (setRedisExtensionAttribute env objectType objectId (some a)
              s).self.m_redisCommunicationMode
            = some sai_redis_communication_mode_t.ZMQ_SYNC) := by
  have hrun : setRedisExtensionAttribute env objectType objectId (some a) s
      = setRedisCommunicationMode env a s := by
    simp [setRedisExtensionAttribute, hattr]
  rw [hrun]
  cases hzmq : s.m_zmqEnable
  · rw [setRedisCommunicationMode_run env a s hzmq, hmode]
    simp [Outcome.isFault, Outcome.value?, Outcome.self]
  · simp [setRedisCommunicationMode, run_bind, run_modify, run_get, run_pure, hzmq,
      channel_new, channel_setResponseTimeout, channel_setBuffered, run_log,
      Outcome.isFault, Outcome.value?, Outcome.self]

/-- C10, amended, at a concrete input: the value 7 on an asynchronous
interface without zmq is answered SAI_STATUS_NOT_SUPPORTED. -/
theorem communication_mode_undefined_witness :
    (exampleEnv 0 [] 1).redis_switch_attr (exampleAttrS32 0x10000007 7).id
        = some sai_redis_switch_attr_t.REDIS_COMMUNICATION_MODE
      ∧ (exampleEnv 0 [] 1).communication_mode (exampleAttrS32 0x10000007 7).value.s32 = none
      ∧ (setRedisExtensionAttribute (exampleEnv 0 [] 1) SAI_OBJECT_TYPE_SWITCH 0
          (some (exampleAttrS32 0x10000007 7)) exampleAsync).isFault = false :=
  ⟨by rfl, by rfl,
    (communication_mode_undefined (exampleEnv 0 [] 1) exampleAsync SAI_OBJECT_TYPE_SWITCH 0
      (exampleAttrS32 0x10000007 7) (by rfl) (by rfl)).1⟩

/-- C11: on an interface that holds a channel, each of bulkCreate, bulkSet and
bulkRemove over N serialized ids sends exactly one request on the channel (the
only other call being the wait of synchronous mode), under its own bulk
command kind, with key serializeObjectType(type) ++ ":" ++ decimal(N); the
fields of its entries are the serialized ids, in input order (so there are N
entries), and for bulkRemove every value is the empty string. -/
theorem bulk_request_shape (env : Env) (s : RedisRemoteSaiInterface) (ch : Channel)
    (hch : s.m_communicationChannel = some ch) (object_type : sai_object_type_t)
    (serialized_object_ids : List String) (attr_lists : List (List sai_attribute_t))
    (attr_list : List sai_attribute_t) :
    let key := env.sai_serialize_object_type object_type ++ ":"
      ++ toString serialized_object_ids.length
    let waits := if s.m_syncMode then [Call.channel_wait Command.GETRESPONSE] else []
    (∃ entries, entries.map Prod.fst = serialized_object_ids
      ∧ callsSince s
          (bulkCreate_serialized env object_type serialized_object_ids attr_lists s).self
        = Call.channel_set key entries Command.BULK_CREATE :: waits)
    ∧ (∃ entries, entries.map Prod.fst = serialized_object_ids
      ∧ callsSince s
          (bulkSet_serialized env object_type serialized_object_ids attr_list s).self
        = Call.channel_set key entries Command.BULK_SET :: waits)
    ∧ (∃ entries, entries.map Prod.fst = serialized_object_ids
      ∧ entries.map Prod.snd = List.replicate serialized_object_ids.length ""
      ∧ callsSince s (bulkRemove_serialized env object_type serialized_object_ids s).self
        = Call.channel_set key entries Command.BULK_REMOVE :: waits) := by
  intro key waits
  refine ⟨⟨_, range_map_fst serialized_object_ids (fun idx =>
        env.joinFieldValues (create_entry env object_type (attr_lists.getD idx []))), ?_⟩,
    ⟨_, range_map_fst serialized_object_ids (fun idx =>
        env.joinFieldValues
          (env.serialize_attr_list object_type (attr_list.get? idx).toList)), ?_⟩,
    ⟨serialized_object_ids.map (fun id => (id, "")), ?_, ?_, ?_⟩⟩
  · apply callsSince_append
    rw [bulkCreate_serialized_run env _ _ _ s ch hch,
      waitForBulkResponse_calls env _ _ _ ch (by exact hch)]
    simp [key, waits]
  · apply callsSince_append
    rw [bulkSet_serialized_run env _ _ _ s ch hch,
      waitForBulkResponse_calls env _ _ _ ch (by exact hch)]
    simp [key, waits]
  · simp [List.map_map, Function.comp_def]
  · simp [List.map_map, Function.comp_def, List.map_const']
  · apply callsSince_append
    rw [bulkRemove_serialized_run env _ _ s ch hch,
      waitForBulkResponse_calls env _ _ _ ch (by exact hch)]
    simp [key, waits]

/-- C11, at a concrete input: a bulk remove of two objects on an asynchronous
interface sends one request with key type:2 and two entries of empty value. -/
theorem bulk_request_shape_witness :
    exampleAsync.m_communicationChannel
        = some { kind := ChannelKind.RedisChannel, buffered := true, responseTimeout := 60000 }
      ∧ ∃ entries, entries.map Prod.fst = ["oid:0x1", "oid:0x2"]
        ∧ entries.map Prod.snd = List.replicate ["oid:0x1", "oid:0x2"].length ""
        ∧ callsSince exampleAsync
            (bulkRemove_serialized (exampleEnv 0 [] 1) 1 ["oid:0x1", "oid:0x2"]
              exampleAsync).self
          = Call.channel_set
              ((exampleEnv 0 [] 1).sai_serialize_object_type 1 ++ ":"
                ++ toString ["oid:0x1", "oid:0x2"].length)
              entries Command.BULK_REMOVE
            :: (if exampleAsync.m_syncMode then [Call.channel_wait Command.GETRESPONSE]
                else []) :=
  ⟨by rfl,
    (bulk_request_shape (exampleEnv 0 [] 1) exampleAsync _ (by rfl) 1 ["oid:0x1", "oid:0x2"]
      [] []).2.2⟩

/-- C13 does not hold on the code: on a synchronous interface whose wait ends
with SAI_STATUS_FAILURE and an empty payload, as on a response timeout, a
bulkRemove, a bulkSet and a bulkCreate of one item do not return that status;
each throws "wrong number of statuses". -/
theorem bulk_timeout_throws :
    (exampleEnv SAI_STATUS_FAILURE [] 1).wait [] Command.GETRESPONSE
        = (SAI_STATUS_FAILURE, { key := "", op := "", fieldsValues := [] })
      ∧ exampleSync.m_syncMode = true
      ∧ (bulkRemove_serialized (exampleEnv SAI_STATUS_FAILURE [] 1) 1 ["oid:0x1"]
          exampleSync).fault? = some (Fault.exception "wrong number of statuses")
      ∧ (bulkSet_serialized (exampleEnv SAI_STATUS_FAILURE [] 1) 1 ["oid:0x1"]
          [exampleAttr 5 true] exampleSync).fault?
        = some (Fault.exception "wrong number of statuses")
      ∧ (bulkCreate_serialized (exampleEnv SAI_STATUS_FAILURE [] 1) 1 ["oid:0x1"]
          [[exampleAttr 5 true]] exampleSync).fault?
        = some (Fault.exception "wrong number of statuses") := by
  refine ⟨by rfl, by rfl, by rfl, by rfl, by rfl⟩

/-- C14: waitForGetResponse, on an interface that holds a channel, waits once
for the get-response command kind and acts on the status of that wait. On
success with at least one value the values are decoded in full mode and
transferred in full mode to the caller's list; on buffer-overflow with at
least one value they are decoded and transferred in count-only mode; on
success or buffer-overflow with no value it throws; on any other status the
caller's list is left as it was, whatever the payload is. Whenever it returns,
the status returned is the status of the wait. -/
theorem get_response_decoder (env : Env) (s : RedisRemoteSaiInterface) (ch : Channel)
    (hch : s.m_communicationChannel = some ch) (objectType : sai_object_type_t)
    (attr_list : List sai_attribute_t) :
    let status := (env.wait s.calls Command.GETRESPONSE).1
    let values := (env.wait s.calls Command.GETRESPONSE).2.fieldsValues
    let waited : RedisRemoteSaiInterface :=
      { s with calls := s.calls ++ [Call.channel_wait Command.GETRESPONSE] }
    (∀ (countOnly : Bool) (list transferred : List sai_attribute_t),
      (status = SAI_STATUS_SUCCESS ∧ countOnly = false
        ∨ status = SAI_STATUS_BUFFER_OVERFLOW ∧ countOnly = true) →
      values ≠ [] →
      env.SaiAttributeList objectType values countOnly = some list →
      env.transfer_attributes objectType list attr_list countOnly = some transferred →
      waitForGetResponse env objectType attr_list s = Outcome.ok (status, transferred) waited)
    ∧ ((status = SAI_STATUS_SUCCESS ∨ status = SAI_STATUS_BUFFER_OVERFLOW) → values = [] →
      waitForGetResponse env objectType attr_list s
        = Outcome.fault (Fault.exception "logic error, get response returned 0 values!")
            waited)
    ∧ (status ≠ SAI_STATUS_SUCCESS → status ≠ SAI_STATUS_BUFFER_OVERFLOW →
      waitForGetResponse env objectType attr_list s = Outcome.ok (status, attr_list) waited)
    ∧ (∀ (returned : sai_status_t) (left : List sai_attribute_t)
        (after : RedisRemoteSaiInterface),
      waitForGetResponse env objectType attr_list s = Outcome.ok (returned, left) after →
      returned = status) := by
  intro status values waited
  have hrun := waitForGetResponse_run env objectType attr_list s ch hch
  have hne : SAI_STATUS_BUFFER_OVERFLOW ≠ SAI_STATUS_SUCCESS := by decide
  refine ⟨?_, ?_, ?_, ?_⟩
  · intro countOnly list transferred hmode hvalues hlist htransfer
    have hlen : ¬ values.length = 0 := by
      intro h
      exact hvalues (List.length_eq_zero.mp h)
    have hbody : transfer_get_response env objectType values attr_list countOnly
        = Except.ok transferred := by
      simp [transfer_get_response, hlen, hlist, htransfer]
    rw [hrun]
    rcases hmode with ⟨hs, hc⟩ | ⟨hs, hc⟩
    · subst hc
      simp only [status] at hs
      simp only [hs, if_true]
      simp only [values] at hbody
      rw [hbody]
      simp [status, hs, waited]
    · subst hc
      simp only [status] at hs
      simp only [hs, hne, if_false, if_true]
      simp only [values] at hbody
      rw [hbody]
      simp [status, hs, waited]
  · intro hmode hvalues
    have hbody : ∀ countOnly, transfer_get_response env objectType values attr_list countOnly
        = Except.error (Fault.exception "logic error, get response returned 0 values!") := by
      intro countOnly
      simp [transfer_get_response, hvalues]
    rw [hrun]
    simp only [values] at hbody
    rcases hmode with hs | hs
    · simp only [status] at hs
      simp only [hs, if_true, hbody]
    · simp only [status] at hs
      simp only [hs, hne, if_false, if_true, hbody]
  · intro h1 h2
    rw [hrun]
    simp only [status] at h1 h2
    simp only [h1, h2, if_false]
  · intro returned left after hok
    rw [hrun] at hok
    simp only [] at hok
    split_ifs at hok
    · cases hb : transfer_get_response env objectType
          (env.wait s.calls Command.GETRESPONSE).2.fieldsValues attr_list false with
      | error e => simp [hb] at hok
      | ok transferred =>
        simp only [hb, Outcome.ok.injEq, Prod.mk.injEq] at hok
        exact hok.1.1.symm
    · cases hb : transfer_get_response env objectType
          (env.wait s.calls Command.GETRESPONSE).2.fieldsValues attr_list true with
      | error e => simp [hb] at hok
      | ok transferred =>
        simp only [hb, Outcome.ok.injEq, Prod.mk.injEq] at hok
        exact hok.1.1.symm
    · simp only [Outcome.ok.injEq, Prod.mk.injEq] at hok
      exact hok.1.1.symm

/-- C14, at a concrete input: a response with SAI_STATUS_FAILURE leaves the
caller's list as it was, although the payload holds a pair. -/
theorem get_response_decoder_witness :
    exampleSync.m_communicationChannel
        = some { kind := ChannelKind.RedisChannel, buffered := false, responseTimeout := 60000 }
      ∧ waitForGetResponse (exampleEnv SAI_STATUS_FAILURE [("ATTR", "true")] 1) 1
          [exampleAttr 5 false] exampleSync
        = Outcome.ok (SAI_STATUS_FAILURE, [exampleAttr 5 false])
            { exampleSync with
              calls := exampleSync.calls ++ [Call.channel_wait Command.GETRESPONSE] } :=
  ⟨by rfl,
    (get_response_decoder (exampleEnv SAI_STATUS_FAILURE [("ATTR", "true")] 1) exampleSync _
      (by rfl) 1 [exampleAttr 5 false]).2.2.1 (by decide) (by decide)⟩

/-- C16: on an interface that holds a channel, for every value of m_syncMode
and for every notify kind, notifySyncd sends one request under the notify
command kind whose key is the serialized kind and whose field list is empty,
then waits once for the notify command kind, and returns exactly the status of
that wait: the same calls and the same status in synchronous and in
asynchronous mode. -/
theorem notify_syncd_waits (env : Env) (s : RedisRemoteSaiInterface) (ch : Channel)
    (hch : s.m_communicationChannel = some ch) (switchId : sai_object_id_t)
    (redisNotifySyncd : sai_redis_notify_syncd_t) (syncMode : Bool) :
    let request := Call.channel_set (env.sai_serialize_notify_syncd redisNotifySyncd) []
      Command.NOTIFY
    notifySyncd env switchId redisNotifySyncd { s with m_syncMode := syncMode }
      = Outcome.ok (env.wait (s.calls ++ [request]) Command.NOTIFY).1
          { s with
            m_syncMode := syncMode,
            calls := s.calls ++ [request, Call.channel_wait Command.NOTIFY] } := by
  intro request
  rw [notifySyncd_run env switchId redisNotifySyncd _ ch (by exact hch)]

/-- C16, at a concrete input: in asynchronous mode a notify whose remote
answers SAI_STATUS_FAILURE returns that status, after a wait. -/
theorem notify_syncd_waits_witness :
    exampleAsync.m_communicationChannel
        = some { kind := ChannelKind.RedisChannel, buffered := true, responseTimeout := 60000 }
      ∧ notifySyncd (exampleEnv SAI_STATUS_FAILURE [] 1) 0x21000000000000
          sai_redis_notify_syncd_t.INIT_VIEW { exampleAsync with m_syncMode := false }
        = Outcome.ok SAI_STATUS_FAILURE
            { exampleAsync with
              m_syncMode := false,
              calls := exampleAsync.calls ++ [Call.channel_set
                "INIT_VIEW" [] Command.NOTIFY, Call.channel_wait Command.NOTIFY] } :=
  ⟨by rfl,
    notify_syncd_waits (exampleEnv SAI_STATUS_FAILURE [] 1) exampleAsync _ (by rfl)
      0x21000000000000 sai_redis_notify_syncd_t.INIT_VIEW false⟩

/-- C17: through the notify-syncd extension attribute. A value that is none of
the four kinds returns failure and leaves the object as it was, nothing sent.
For a valid kind, on an interface that holds a channel, the notify request and
its wait are the calls made; when the status of the wait is success,
init-view sets m_asicInitViewMode, puts an empty switch registry in place and
a fresh object id manager (with meta_init_db when the metadata object is
alive), apply-view clears m_asicInitViewMode and nothing else, and inspect
and dump change no member; when the status is not success no member changes,
for any kind, and that status is returned. -/
theorem notify_syncd_local_state (env : Env) (s : RedisRemoteSaiInterface)
    (objectType : sai_object_type_t) (objectId : sai_object_id_t) (a : sai_attribute_t)
    (hattr : env.redis_switch_attr a.id = some sai_redis_switch_attr_t.NOTIFY_SYNCD) :
    (env.notify_syncd a.value.s32 = none →
      setRedisExtensionAttribute env objectType objectId (some a) s
        = Outcome.ok SAI_STATUS_FAILURE s)
    ∧ (∀ (kind : sai_redis_notify_syncd_t) (ch : Channel),
      env.notify_syncd a.value.s32 = some kind → s.m_communicationChannel = some ch →
      let request := Call.channel_set (env.sai_serialize_notify_syncd kind) [] Command.NOTIFY
      let status := (env.wait (s.calls ++ [request]) Command.NOTIFY).1
      let notified : RedisRemoteSaiInterface :=
        { s with calls := s.calls ++ [request, Call.channel_wait Command.NOTIFY] }
      (status ≠ SAI_STATUS_SUCCESS →
        setRedisExtensionAttribute env objectType objectId (some a) s
          = Outcome.ok status notified)
      ∧ (status = SAI_STATUS_SUCCESS →
        setRedisExtensionAttribute env objectType objectId (some a) s
          = Outcome.ok status
              (match kind with
               | sai_redis_notify_syncd_t.INIT_VIEW =>
                 { notified with
                   m_asicInitViewMode := true,
                   m_switchContainer := [],
                   calls := notified.calls ++ Call.newVirtualObjectIdManager
                     :: (if s.m_meta then [Call.meta_init_db] else []) }
               | sai_redis_notify_syncd_t.APPLY_VIEW =>
                 { notified with m_asicInitViewMode := false }
               | sai_redis_notify_syncd_t.INSPECT_ASIC => notified
               | sai_redis_notify_syncd_t.INVOKE_DUMP => notified))) := by
  have hrun : setRedisExtensionAttribute env objectType objectId (some a) s
      = sai_redis_notify_syncd env objectId a s := by
    simp [setRedisExtensionAttribute, hattr]
  rw [hrun]
  constructor
  · intro hnone
    simp [sai_redis_notify_syncd, hnone, run_pure]
  · intro kind ch hkind hch request status notified
    constructor
    · intro hstatus
      simp only [status, request] at hstatus
      simp [sai_redis_notify_syncd, hkind, run_bind, notifySyncd_run env objectId kind s ch hch,
        hstatus, run_pure, notified, request, status]
    · intro hstatus
      simp only [status, request] at hstatus
      cases kind <;>
        simp [sai_redis_notify_syncd, hkind, run_bind, notifySyncd_run env objectId _ s ch hch,
          hstatus, run_pure, run_modify, clear_local_state_run, notified, request, status]

/-- C17, at a concrete input: init-view answered with success empties the
registry and sets init-view mode. -/
theorem notify_syncd_local_state_witness :
    (exampleEnv 0 [] 1).redis_switch_attr (exampleAttrS32 0x10000002 0).id
        = some sai_redis_switch_attr_t.NOTIFY_SYNCD
      ∧ (setRedisExtensionAttribute (exampleEnv 0 [] 1) SAI_OBJECT_TYPE_SWITCH 0
          (some (exampleAttrS32 0x10000002 0)) exampleWithSwitch).self.m_switchContainer = []
      ∧ exampleWithSwitch.m_switchContainer ≠ []
      ∧ (setRedisExtensionAttribute (exampleEnv 0 [] 1) SAI_OBJECT_TYPE_SWITCH 0
          (some (exampleAttrS32 0x10000002 0)) exampleWithSwitch).self.m_asicInitViewMode
        = true :=
  ⟨by rfl, by
    have h := ((notify_syncd_local_state (exampleEnv 0 [] 1) exampleWithSwitch
      SAI_OBJECT_TYPE_SWITCH 0 (exampleAttrS32 0x10000002 0) (by rfl)).2
      sai_redis_notify_syncd_t.INIT_VIEW _ (by rfl) (by rfl)).2 (by rfl)
    rw [h]
    rfl, by decide, by
    have h := ((notify_syncd_local_state (exampleEnv 0 [] 1) exampleWithSwitch
      SAI_OBJECT_TYPE_SWITCH 0 (exampleAttrS32 0x10000002 0) (by rfl)).2
      sai_redis_notify_syncd_t.INIT_VIEW _ (by rfl) (by rfl)).2 (by rfl)
    rw [h]
    rfl⟩

/-- C18: getStats. When some requested counter id has no name in the stats
enum of the object type it throws, nothing sent. Otherwise, on an interface
that holds a channel, it sends one request under the get-stats command kind
whose pairs are the enum names of the requested ids, in request order, each
with an empty value, and waits for the response: on success with exactly
number_of_counters values, the first number_of_counters entries of counters
are the unsigned integers std::stoull reads from the values, in order; on
success with another number of values it throws; on a status other than
success counters is left as it was and that status is returned. -/
theorem get_stats_contract (env : Env) (s : RedisRemoteSaiInterface)
    (object_type : sai_object_type_t) (object_id : sai_object_id_t)
    (counter_ids : List sai_stat_id_t) (counters : List Nat) :
    ((∃ id, id ∈ counter_ids ∧ env.stats_enum_value_name object_type id = none) →
      getStats env object_type object_id counter_ids counters s
        = Outcome.fault (Fault.exception "failed to find enum") s)
    ∧ (∀ (ch : Channel) (names : List String), s.m_communicationChannel = some ch →
      counter_ids.map (env.stats_enum_value_name object_type) = names.map some →
      let request := Call.channel_set
        (env.sai_serialize_object_type object_type ++ ":"
          ++ env.sai_serialize_object_id object_id)
        (names.map (fun name => (name, ""))) Command.GET_STATS
      let status := (env.wait (s.calls ++ [request]) Command.GETRESPONSE).1
      let values := (env.wait (s.calls ++ [request]) Command.GETRESPONSE).2.fieldsValues
      let waited : RedisRemoteSaiInterface :=
        { s with calls := s.calls ++ [request, Call.channel_wait Command.GETRESPONSE] }
      (∀ parsed : List Nat, status = SAI_STATUS_SUCCESS →
        values.length = counter_ids.length →
        values.map (fun fv => stoull fv.2) = parsed.map some →
        getStats env object_type object_id counter_ids counters s
          = Outcome.ok (status, parsed ++ counters.drop counter_ids.length) waited)
      ∧ (status = SAI_STATUS_SUCCESS → values.length ≠ counter_ids.length →
        getStats env object_type object_id counter_ids counters s
          = Outcome.fault (Fault.exception "wrong number of counters") waited)
      ∧ (status ≠ SAI_STATUS_SUCCESS →
        getStats env object_type object_id counter_ids counters s
          = Outcome.ok (status, counters) waited)) := by
  constructor
  · intro hex
    simp [getStats, run_bind, serialize_counter_id_list_error env object_type counter_ids hex,
      run_ofExcept_error]
  · intro ch names hch hnames request status values waited
    have hrun : getStats env object_type object_id counter_ids counters s
        = waitForGetStatsResponse env counter_ids.length counters
            { s with calls := s.calls ++ [request] } := by
      simp only [getStats, run_bind,
        serialize_counter_id_list_ok env object_type counter_ids names hnames,
        run_ofExcept_ok, channel_set_run _ _ _ s ch hch, request]
    rw [hrun, waitForGetStatsResponse_run env _ _ _ ch (by exact hch)]
    refine ⟨?_, ?_, ?_⟩
    · intro parsed hstatus hlen hparsed
      have hp : parse_counters values counter_ids.length = some parsed := by
        unfold parse_counters
        rw [← hlen, List.take_length]
        exact mapM_option_eq_some _ _ _ hparsed
      simp only [status] at hstatus
      simp only [values] at hlen hp
      simp [hstatus, hlen, hp, status, waited]
    · intro hstatus hlen
      simp only [status] at hstatus
      simp only [values] at hlen
      simp [hstatus, hlen, waited]
    · intro hstatus
      simp only [status] at hstatus
      simp [hstatus, status, waited]

/-- C18, at a concrete input: two counters answered with the values "10" and
"20" are left as 10 and 20. -/
theorem get_stats_contract_witness :
    exampleSync.m_communicationChannel
        = some { kind := ChannelKind.RedisChannel, buffered := false, responseTimeout := 60000 }
      ∧ [(0 : sai_stat_id_t), 1].map
          ((exampleEnv SAI_STATUS_SUCCESS [("", "10"), ("", "20")] 1).stats_enum_value_name 1)
        = ["SAI_PORT_STAT_IF_IN_OCTETS", "SAI_PORT_STAT_IF_IN_UCAST_PKTS"].map some
      ∧ (getStats (exampleEnv SAI_STATUS_SUCCESS [("", "10"), ("", "20")] 1) 1
          0x1000000000123 [0, 1] [0, 0] exampleSync).value?
        = some (SAI_STATUS_SUCCESS, [10, 20]) :=
  ⟨by rfl, by rfl, by
    have h := ((get_stats_contract (exampleEnv SAI_STATUS_SUCCESS [("", "10"), ("", "20")] 1)
      exampleSync 1 0x1000000000123 [0, 1] [0, 0]).2 _
      ["SAI_PORT_STAT_IF_IN_OCTETS", "SAI_PORT_STAT_IF_IN_UCAST_PKTS"] (by rfl) (by rfl)).1
      [10, 20] (by rfl) (by rfl) (by rfl)
    rw [h]
    rfl⟩

/-- C19, as stated, fails: each of the three capability queries, answered with
status success and an empty payload, returns normally with
SAI_STATUS_FAILURE; none of them throws. -/
theorem capability_count_mismatch_counterexample :
    (exampleEnv SAI_STATUS_SUCCESS [] 1).wait [] Command.ATTR_CAPABILITY_RESPONSE
        = (SAI_STATUS_SUCCESS, { key := "", op := "", fieldsValues := [] })
      ∧ (queryAttributeCapability (exampleEnv SAI_STATUS_SUCCESS [] 1) 0x21000000000000 1 0
          { create_implemented := false, set_implemented := false, get_implemented := false }
          exampleSync).fault? = none
      ∧ ((queryAttributeCapability (exampleEnv SAI_STATUS_SUCCESS [] 1) 0x21000000000000 1 0
          { create_implemented := false, set_implemented := false, get_implemented := false }
          exampleSync).value?.map Prod.fst) = some SAI_STATUS_FAILURE
      ∧ (queryAttributeEnumValuesCapability (exampleEnv SAI_STATUS_SUCCESS [] 1)
          0x21000000000000 1 0 { count := 2, list := some [0, 0] } exampleSync).fault? = none
      ∧ ((queryAttributeEnumValuesCapability (exampleEnv SAI_STATUS_SUCCESS [] 1)
          0x21000000000000 1 0 { count := 2, list := some [0, 0] }
          exampleSync).value?.map Prod.fst) = some SAI_STATUS_FAILURE
      ∧ (queryStatsCapability (exampleEnv SAI_STATUS_SUCCESS [] 1) 0x21000000000000 1
          (some { count := 0, list := none }) exampleSync).fault? = none
      ∧ ((queryStatsCapability (exampleEnv SAI_STATUS_SUCCESS [] 1) 0x21000000000000 1
          (some { count := 0, list := none }) exampleSync).value?.map Prod.fst)
        = some SAI_STATUS_FAILURE := by
  refine ⟨by rfl, by rfl, by rfl, by rfl, by rfl, by rfl, by rfl⟩

/-- C19, amended: for each of the three capability queries, on an interface
that holds a channel, a response with status success whose number of pairs is
not the expected one (3 for the attribute capability, 2 for the enum values
capability, 3 for the stats capability) makes the response decoder return
SAI_STATUS_FAILURE with the output left as it was; it does not throw. -/
theorem capability_count_mismatch (env : Env) (s : RedisRemoteSaiInterface) (ch : Channel)
    (hch : s.m_communicationChannel = some ch) (capability : sai_attr_capability_t)
    (enumValuesCapability : sai_s32_list_t) (stats_capability : sai_stat_capability_list_t) :
    ((env.wait s.calls Command.ATTR_CAPABILITY_RESPONSE).1 = SAI_STATUS_SUCCESS →
      (env.wait s.calls Command.ATTR_CAPABILITY_RESPONSE).2.fieldsValues.length ≠ 3 →
      waitForQueryAttributeCapabilityResponse env capability s
        = Outcome.ok (SAI_STATUS_FAILURE, capability)
            { s with calls := s.calls
                ++ [Call.channel_wait Command.ATTR_CAPABILITY_RESPONSE] })
    ∧ ((env.wait s.calls Command.ATTR_ENUM_VALUES_CAPABILITY_RESPONSE).1
          = SAI_STATUS_SUCCESS →
      (env.wait s.calls Command.ATTR_ENUM_VALUES_CAPABILITY_RESPONSE).2.fieldsValues.length
          ≠ 2 →
      waitForQueryAttributeEnumValuesCapabilityResponse env enumValuesCapability s
        = Outcome.ok (SAI_STATUS_FAILURE, enumValuesCapability)
            { s with calls := s.calls
                ++ [Call.channel_wait Command.ATTR_ENUM_VALUES_CAPABILITY_RESPONSE] })
    ∧ ((env.wait s.calls Command.STATS_CAPABILITY_RESPONSE).1 = SAI_STATUS_SUCCESS →
      (env.wait s.calls Command.STATS_CAPABILITY_RESPONSE).2.fieldsValues.length ≠ 3 →
      waitForQueryStatsCapabilityResponse env stats_capability s
        = Outcome.ok (SAI_STATUS_FAILURE, stats_capability)
            { s with calls := s.calls
                ++ [Call.channel_wait Command.STATS_CAPABILITY_RESPONSE] }) := by
  refine ⟨?_, ?_, ?_⟩
  · intro hstatus hlen
    simp [waitForQueryAttributeCapabilityResponse, run_bind, channel_wait_run env _ s ch hch,
      hstatus, hlen, run_pure]
  · intro hstatus hlen
    simp [waitForQueryAttributeEnumValuesCapabilityResponse, run_bind,
      channel_wait_run env _ s ch hch, hstatus, hlen, run_pure]
  · intro hstatus hlen
    simp [waitForQueryStatsCapabilityResponse, run_bind, channel_wait_run env _ s ch hch,
      hstatus, hlen, run_pure]

/-- C19, amended, at a concrete input: an attribute capability response with
status success and one pair is answered SAI_STATUS_FAILURE. -/
theorem capability_count_mismatch_witness :
    exampleSync.m_communicationChannel
        = some { kind := ChannelKind.RedisChannel, buffered := false, responseTimeout := 60000 }
      ∧ waitForQueryAttributeCapabilityResponse
          (exampleEnv SAI_STATUS_SUCCESS [("CREATE_IMPLEMENTED", "true")] 1)
          { create_implemented := false, set_implemented := false, get_implemented := false }
          exampleSync
        = Outcome.ok (SAI_STATUS_FAILURE,
            { create_implemented := false, set_implemented := false,
              get_implemented := false })
            { exampleSync with calls := exampleSync.calls
                ++ [Call.channel_wait Command.ATTR_CAPABILITY_RESPONSE] } :=
  ⟨by rfl,
    (capability_count_mismatch
      (exampleEnv SAI_STATUS_SUCCESS [("CREATE_IMPLEMENTED", "true")] 1) exampleSync _
      (by rfl)
      { create_implemented := false, set_implemented := false, get_implemented := false }
      { count := 0, list := none } { count := 0, list := none }).1 (by rfl) (by decide)⟩

/-- C20, as stated, fails: a switch create marked INIT_SWITCH=false, with the
non-null handle 0x21000000000000 that is neither in the registry nor in the
refreshed table dump, returns SAI_STATUS_FAILURE, which is not
SAI_STATUS_ITEM_NOT_FOUND. -/
theorem init_false_absent_status_counterexample :
    (exampleEnv 0 [] 0x21000000000000).allocateNewSwitchObjectId exampleAsync.calls ""
        ≠ SAI_NULL_OBJECT_ID
      ∧ SwitchContainer.contains exampleAsync.m_switchContainer 0x21000000000000 = false
      ∧ (create (exampleEnv 0 [] 0x21000000000000) SAI_OBJECT_TYPE_SWITCH 0
          [exampleAttr 1 false] exampleAsync).self.m_tableDump = []
      ∧ (create (exampleEnv 0 [] 0x21000000000000) SAI_OBJECT_TYPE_SWITCH 0
          [exampleAttr 1 false] exampleAsync).value?
        = some (SAI_STATUS_FAILURE, 0x21000000000000)
      ∧ ((create (exampleEnv 0 [] 0x21000000000000) SAI_OBJECT_TYPE_SWITCH 0
          [exampleAttr 1 false] exampleAsync).value?.map Prod.fst)
        ≠ some SAI_STATUS_ITEM_NOT_FOUND := by
  refine ⟨by decide, by rfl, by rfl, by rfl, by decide⟩

/-- C20, amended: a switch create whose attribute list marks INIT_SWITCH=false,
whose derived switch handle is non-null, not in the local registry and absent
from the refreshed table dump, returns the generic failure status
SAI_STATUS_FAILURE (which differs from SAI_STATUS_ITEM_NOT_FOUND) with the
handle in *objectId, after the allocation, the table dump and the release of
the handle, the registry being the one before the call. -/
theorem init_false_absent_status (env : Env) (s : RedisRemoteSaiInterface)
    (switchId : sai_object_id_t) (attr_list : List sai_attribute_t) (attr : sai_attribute_t)
    (hattr : sai_metadata_get_attr_by_id env.SAI_SWITCH_ATTR_INIT_SWITCH attr_list = some attr)
    (hfalse : attr.value.booldata = false)
    (hnonnull : env.allocateNewSwitchObjectId s.calls (env.getHardwareInfo attr_list)
      ≠ SAI_NULL_OBJECT_ID)
    (hlocal : SwitchContainer.contains s.m_switchContainer
      (env.allocateNewSwitchObjectId s.calls (env.getHardwareInfo attr_list)) = false)
    (hdump : env.allocateNewSwitchObjectId s.calls (env.getHardwareInfo attr_list)
      ∉ env.tableDumpSwitches
          (s.calls ++ [Call.allocateNewSwitchObjectId (env.getHardwareInfo attr_list)])) :
    create env SAI_OBJECT_TYPE_SWITCH switchId attr_list s
        = Outcome.ok
            (SAI_STATUS_FAILURE,
              env.allocateNewSwitchObjectId s.calls (env.getHardwareInfo attr_list))
            { s with
              calls := s.calls
                ++ [Call.allocateNewSwitchObjectId (env.getHardwareInfo attr_list),
                    Call.table_dump,
                    Call.releaseObjectId
                      (env.allocateNewSwitchObjectId s.calls (env.getHardwareInfo attr_list))],
              m_tableDump := env.tableDumpSwitches
                (s.calls ++ [Call.allocateNewSwitchObjectId (env.getHardwareInfo attr_list)]) }
      ∧ SAI_STATUS_FAILURE ≠ SAI_STATUS_ITEM_NOT_FOUND := by
  refine ⟨?_, by decide⟩
  simp [create, run_bind, vid_allocateNewSwitchObjectId_run, hnonnull, hattr, hfalse, run_get,
    hlocal, refreshTableDump_run, hdump, vid_releaseObjectId_run, run_pure]

/-- C20, amended, at a concrete input: the attach to the absent switch
0x21000000000000 returns SAI_STATUS_FAILURE and releases the handle. -/
theorem init_false_absent_status_witness :
    create (exampleEnv 0 [] 0x21000000000000) SAI_OBJECT_TYPE_SWITCH 0 [exampleAttr 1 false]
        exampleAsync
      = Outcome.ok (SAI_STATUS_FAILURE, 0x21000000000000)
          { exampleAsync with
            calls := exampleAsync.calls
              ++ [Call.allocateNewSwitchObjectId "", Call.table_dump,
                  Call.releaseObjectId 0x21000000000000],
            m_tableDump := [] } :=
  (init_false_absent_status (exampleEnv 0 [] 0x21000000000000) exampleAsync 0
    [exampleAttr 1 false] (exampleAttr 1 false) (by rfl) (by rfl) (by decide) (by rfl)
    (by simp [exampleEnv])).1

/-- C21: for a switch create whose attribute list marks INIT_SWITCH=false and
whose derived switch handle is non-null, create returns in every case and the
calls it makes are on the object id manager and on the ASIC database only, so
no request is sent on the channel. When the handle is already in the local
registry it returns success after the allocation alone; when it is not, the
table dump is refreshed, and if the handle is in the dump create returns
success with the switch added to the registry, while if it is absent create
returns a status other than success, releases the handle and leaves the
registry as it was. So success is returned exactly when the switch is in the
registry or in the refreshed dump. -/
theorem init_false_attach (env : Env) (s : RedisRemoteSaiInterface)
    (switchId : sai_object_id_t) (attr_list : List sai_attribute_t) (attr : sai_attribute_t)
    (hattr : sai_metadata_get_attr_by_id env.SAI_SWITCH_ATTR_INIT_SWITCH attr_list = some attr)
    (hfalse : attr.value.booldata = false)
    (hnonnull : env.allocateNewSwitchObjectId s.calls (env.getHardwareInfo attr_list)
      ≠ SAI_NULL_OBJECT_ID) :
    let handle := env.allocateNewSwitchObjectId s.calls (env.getHardwareInfo attr_list)
    let allocation := Call.allocateNewSwitchObjectId (env.getHardwareInfo attr_list)
    let dump := env.tableDumpSwitches (s.calls ++ [allocation])
    let result := create env SAI_OBJECT_TYPE_SWITCH switchId attr_list s
    (SwitchContainer.contains s.m_switchContainer handle = true →
        result = Outcome.ok (SAI_STATUS_SUCCESS, handle)
          { s with calls := s.calls ++ [allocation] })
      ∧ (SwitchContainer.contains s.m_switchContainer handle = false → handle ∈ dump →
        result = Outcome.ok (SAI_STATUS_SUCCESS, handle)
          { s with
            calls := s.calls ++ [allocation, Call.table_dump],
            m_tableDump := dump,
            m_switchContainer :=
              SwitchContainer.insert s.m_switchContainer (Switch.new handle attr_list) })
      ∧ (SwitchContainer.contains s.m_switchContainer handle = false → handle ∉ dump →
        result = Outcome.ok (SAI_STATUS_FAILURE, handle)
          { s with
            calls := s.calls ++ [allocation, Call.table_dump, Call.releaseObjectId handle],
            m_tableDump := dump })
      ∧ (∃ status l,
          result.value? = some (status, handle)
          ∧ result.self.calls = s.calls ++ l
          ∧ (∀ c ∈ l, c = allocation ∨ c = Call.table_dump ∨ c = Call.releaseObjectId handle)
          ∧ (status = SAI_STATUS_SUCCESS ↔
              (SwitchContainer.contains s.m_switchContainer handle = true ∨ handle ∈ dump))
          ∧ (status ≠ SAI_STATUS_SUCCESS →
              releasedIds l = [handle]
              ∧ result.self.m_switchContainer = s.m_switchContainer)) := by
  intro handle allocation dump result
  have h1 : SwitchContainer.contains s.m_switchContainer handle = true →
      result = Outcome.ok (SAI_STATUS_SUCCESS, handle)
        { s with calls := s.calls ++ [allocation] } := by
    intro hlocal
    simp [result, handle, allocation] at hlocal ⊢
    simp [create, run_bind, vid_allocateNewSwitchObjectId_run, hnonnull, hattr, hfalse,
      run_get, hlocal, run_pure]
  have h2 : SwitchContainer.contains s.m_switchContainer handle = false → handle ∈ dump →
      result = Outcome.ok (SAI_STATUS_SUCCESS, handle)
        { s with
          calls := s.calls ++ [allocation, Call.table_dump],
          m_tableDump := dump,
          m_switchContainer :=
            SwitchContainer.insert s.m_switchContainer (Switch.new handle attr_list) } := by
    intro hlocal hdump
    simp [result, handle, allocation, dump] at hlocal hdump ⊢
    simp [create, run_bind, vid_allocateNewSwitchObjectId_run, hnonnull, hattr, hfalse,
      run_get, hlocal, refreshTableDump_run, hdump, run_modify, run_pure]
  have h3 : SwitchContainer.contains s.m_switchContainer handle = false → handle ∉ dump →
      result = Outcome.ok (SAI_STATUS_FAILURE, handle)
        { s with
          calls := s.calls ++ [allocation, Call.table_dump, Call.releaseObjectId handle],
          m_tableDump := dump } := by
    intro hlocal hdump
    simp [result, handle, allocation, dump] at hlocal hdump ⊢
    simp [create, run_bind, vid_allocateNewSwitchObjectId_run, hnonnull, hattr, hfalse,
      run_get, hlocal, refreshTableDump_run, hdump, vid_releaseObjectId_run, run_pure]
  refine ⟨h1, h2, h3, ?_⟩
  cases hlocal : SwitchContainer.contains s.m_switchContainer handle
  · by_cases hdump : handle ∈ dump
    · refine ⟨SAI_STATUS_SUCCESS, [allocation, Call.table_dump], ?_⟩
      rw [h2 hlocal hdump]
      simp [Outcome.value?, Outcome.self, hdump]
    · refine ⟨SAI_STATUS_FAILURE, [allocation, Call.table_dump, Call.releaseObjectId handle], ?_⟩
      rw [h3 hlocal hdump]
      simp [Outcome.value?, Outcome.self, hdump, releasedIds, SAI_STATUS_FAILURE,
        SAI_STATUS_SUCCESS, allocation]
  · refine ⟨SAI_STATUS_SUCCESS, [allocation], ?_⟩
    rw [h1 hlocal]
    simp [Outcome.value?, Outcome.self]

/-- C21, at a concrete input: the switch 0x21000000000000 is not in the
registry but owns keys of the dumped table, so the attach returns success,
adds it to the registry and makes no call on the channel. -/
theorem init_false_attach_witness :
    create { exampleEnv 0 [] 0x21000000000000 with
        tableDumpSwitches := fun _ => [0x21000000000000] }
        SAI_OBJECT_TYPE_SWITCH 0 [exampleAttr 1 false] exampleAsync
      = Outcome.ok (SAI_STATUS_SUCCESS, 0x21000000000000)
          { exampleAsync with
            calls := exampleAsync.calls ++ [Call.allocateNewSwitchObjectId "", Call.table_dump],
            m_tableDump := [0x21000000000000],
            m_switchContainer :=
              SwitchContainer.insert exampleAsync.m_switchContainer
                (Switch.new 0x21000000000000 [exampleAttr 1 false]) } :=
  (init_false_attach
    { exampleEnv 0 [] 0x21000000000000 with tableDumpSwitches := fun _ => [0x21000000000000] }
    exampleAsync 0 [exampleAttr 1 false] (exampleAttr 1 false) (by rfl) (by rfl)
    (by decide)).2.1 (by rfl) (by simp [exampleEnv])

/-- C25 does not hold on the code: when the allocation for item k of a
bulkCreate (object id form) gives the null handle after the items before it
got handles, bulkCreate returns SAI_STATUS_INSUFFICIENT_RESOURCES with those
handles written to object_id, and the k + 1 allocations are the only calls it
made: releaseObjectId is called on none of the handles already allocated. -/
theorem bulk_create_partial_allocation_leak (env : Env) (s : RedisRemoteSaiInterface)
    (object_type : sai_object_type_t) (switch_id : sai_object_id_t) (object_count k : Nat)
    (attr_list : List (List sai_attribute_t))
    (hk : k < object_count)
    (hfirst : ∀ j, j < k → env.allocateNewObjectId
      (s.calls ++ List.replicate j (Call.allocateNewObjectId object_type switch_id))
      object_type switch_id ≠ SAI_NULL_OBJECT_ID)
    (hnull : env.allocateNewObjectId
      (s.calls ++ List.replicate k (Call.allocateNewObjectId object_type switch_id))
      object_type switch_id = SAI_NULL_OBJECT_ID) :
    bulkCreate env object_type switch_id object_count attr_list s
        = Outcome.ok
            (SAI_STATUS_INSUFFICIENT_RESOURCES,
              (List.range k).map (fun j => env.allocateNewObjectId
                  (s.calls ++ List.replicate j (Call.allocateNewObjectId object_type switch_id))
                  object_type switch_id)
                ++ [SAI_NULL_OBJECT_ID],
              [])
            { s with calls := s.calls
                ++ List.replicate (k + 1) (Call.allocateNewObjectId object_type switch_id) }
      ∧ releasedIds (callsSince s
          (bulkCreate env object_type switch_id object_count attr_list s).self) = [] := by
  have hrun : bulkCreate env object_type switch_id object_count attr_list s
      = Outcome.ok
          (SAI_STATUS_INSUFFICIENT_RESOURCES,
            (List.range k).map (fun j => env.allocateNewObjectId
                (s.calls ++ List.replicate j (Call.allocateNewObjectId object_type switch_id))
                object_type switch_id)
              ++ [SAI_NULL_OBJECT_ID],
            [])
          { s with calls := s.calls
              ++ List.replicate (k + 1) (Call.allocateNewObjectId object_type switch_id) } := by
    simp [bulkCreate, run_bind,
      bulkCreate_allocate_first_null env object_type switch_id object_count k [] s hk hfirst
        hnull, run_pure]
  refine ⟨hrun, ?_⟩
  rw [hrun]
  simp only [Outcome.self]
  rw [callsSince_append s _ _ rfl]
  simp only [releasedIds, List.filterMap_eq_nil_iff]
  intro c hc
  rw [List.eq_of_mem_replicate hc]

/-- C25, at a concrete input: the allocator gives the handle 0x1000000000001
to the first item and the null handle to the second; the bulkCreate of two
ports returns SAI_STATUS_INSUFFICIENT_RESOURCES and the first handle is never
released. -/
theorem bulk_create_partial_allocation_leak_witness :
    bulkCreate
        { exampleEnv 0 [] 0 with
          allocateNewObjectId := fun calls _ _ =>
            if Call.allocateNewObjectId 1 0x21000000000000 ∈ calls then 0
            else 0x1000000000001 }
        1 0x21000000000000 2 [[], []] exampleAsync
      = Outcome.ok (SAI_STATUS_INSUFFICIENT_RESOURCES, [0x1000000000001, SAI_NULL_OBJECT_ID], [])
          { exampleAsync with calls := exampleAsync.calls
              ++ [Call.allocateNewObjectId 1 0x21000000000000,
                  Call.allocateNewObjectId 1 0x21000000000000] } :=
  (bulk_create_partial_allocation_leak
    { exampleEnv 0 [] 0 with
      allocateNewObjectId := fun calls _ _ =>
        if Call.allocateNewObjectId 1 0x21000000000000 ∈ calls then 0
        else 0x1000000000001 }
    exampleAsync 1 0x21000000000000 2 1 [[], []] (by decide)
    (by
      intro j hj
      have hj0 : j = 0 := by omega
      subst hj0
      decide)
    (by decide)).1

/-- C26, as stated, fails for the group command: with a null parameter, and
with a parameter whose group name is not valid (here a null pointer, once with
no valid optional field and once with a valid poll interval), the asynchronous
interface sends neither del-group nor set-group; notifyCounterGroupOperations
returns SAI_STATUS_FAILURE and makes no call. -/
theorem flex_counter_command_selection_counterexample :
    exampleAsync.m_communicationChannel
        = some { kind := ChannelKind.RedisChannel, buffered := true, responseTimeout := 60000 }
      ∧ isSaiS8ListValidString exampleFlexCounterGroupUnnamed.counter_group_name = false
      ∧ isSaiS8ListValidString exampleFlexCounterGroupUnnamed.poll_interval = false
      ∧ isSaiS8ListValidString (exampleS8 "1000") = true
      ∧ notifyCounterGroupOperations (exampleEnv 0 [] 0) 0 none exampleAsync
        = Outcome.ok SAI_STATUS_FAILURE exampleAsync
      ∧ notifyCounterGroupOperations (exampleEnv 0 [] 0) 0
          (some exampleFlexCounterGroupUnnamed) exampleAsync
        = Outcome.ok SAI_STATUS_FAILURE exampleAsync
      ∧ notifyCounterGroupOperations (exampleEnv 0 [] 0) 0
          (some { exampleFlexCounterGroupUnnamed with poll_interval := exampleS8 "1000" })
          exampleAsync
        = Outcome.ok SAI_STATUS_FAILURE exampleAsync
      ∧ callsSince exampleAsync
          (notifyCounterGroupOperations (exampleEnv 0 [] 0) 0
            (some exampleFlexCounterGroupUnnamed) exampleAsync).self = [] := by
  refine ⟨by rfl, by rfl, by rfl, by rfl, by rfl, by rfl, by rfl, by rfl⟩

/-- C26, amended: a string list is valid for isSaiS8ListValidString exactly
when its pointer is not null, its count is above 0 and none of its first count
bytes is NUL. On an interface that holds a channel, notifyCounterOperations
returns SAI_STATUS_FAILURE and sends nothing when the parameter is null or its
counter key is not valid; otherwise it sends one request under the key,
followed by waitForResponse: start-poll, carrying the (field name, counter ids)
pair and after it the stats-mode pair when stats_mode is valid, exactly when
the counter field name and the counter ids are both valid, and stop-poll with
an empty field list in every other case. notifyCounterGroupOperations returns
SAI_STATUS_FAILURE and sends nothing when the parameter is null or its group
name is not valid; otherwise it sends one request under the group name,
followed by waitForResponse: set-group with the pairs of its valid optional
fields when there is at least one, and del-group with an empty field list when
there is none. -/
theorem flex_counter_command_selection (env : Env) (s : RedisRemoteSaiInterface) (ch : Channel)
    (hch : s.m_communicationChannel = some ch) (objectId : sai_object_id_t) :
    (∀ l : sai_s8_list_t, isSaiS8ListValidString l = true ↔
        ∃ bytes, l.list = some bytes ∧ 0 < l.count ∧ l.count ≤ bytes.length
          ∧ ∀ c ∈ bytes.take l.count, c ≠ Char.ofNat 0)
      ∧ notifyCounterOperations env objectId none s = Outcome.ok SAI_STATUS_FAILURE s
      ∧ (∀ p : sai_redis_flex_counter_parameter_t,
          isSaiS8ListValidString p.counter_key = false →
            notifyCounterOperations env objectId (some p) s = Outcome.ok SAI_STATUS_FAILURE s)
      ∧ (∀ p : sai_redis_flex_counter_parameter_t,
          isSaiS8ListValidString p.counter_key = true →
          isSaiS8ListValidString p.counter_field_name = true →
          isSaiS8ListValidString p.counter_ids = true →
            notifyCounterOperations env objectId (some p) s
              = waitForResponse env sai_common_api_t.SET
                  { s with calls := s.calls ++ [Call.channel_set (s8_string p.counter_key)
                      ((s8_string p.counter_field_name, s8_string p.counter_ids)
                        :: (if isSaiS8ListValidString p.stats_mode
                            then [(env.STATS_MODE_FIELD, s8_string p.stats_mode)] else []))
                      Command.FLEX_START_POLL] })
      ∧ (∀ p : sai_redis_flex_counter_parameter_t,
          isSaiS8ListValidString p.counter_key = true →
          (isSaiS8ListValidString p.counter_field_name = false
            ∨ isSaiS8ListValidString p.counter_ids = false) →
            notifyCounterOperations env objectId (some p) s
              = waitForResponse env sai_common_api_t.SET
                  { s with calls := s.calls ++ [Call.channel_set (s8_string p.counter_key) []
                      Command.FLEX_STOP_POLL] })
      ∧ notifyCounterGroupOperations env objectId none s = Outcome.ok SAI_STATUS_FAILURE s
      ∧ (∀ p : sai_redis_flex_counter_group_parameter_t,
          isSaiS8ListValidString p.counter_group_name = false →
            notifyCounterGroupOperations env objectId (some p) s
              = Outcome.ok SAI_STATUS_FAILURE s)
      ∧ (∀ p : sai_redis_flex_counter_group_parameter_t,
          isSaiS8ListValidString p.counter_group_name = true →
            let entries : List FieldValueTuple :=
              (if isSaiS8ListValidString p.poll_interval
                then [(env.POLL_INTERVAL_FIELD, s8_string p.poll_interval)] else [])
              ++ (if isSaiS8ListValidString p.bulk_chunk_size
                then [(env.BULK_CHUNK_SIZE_FIELD, s8_string p.bulk_chunk_size)] else [])
              ++ (if isSaiS8ListValidString p.bulk_chunk_size_per_prefix
                then [(env.BULK_CHUNK_SIZE_PER_PREFIX_FIELD,
                        s8_string p.bulk_chunk_size_per_prefix)] else [])
              ++ (if isSaiS8ListValidString p.stats_mode
                then [(env.STATS_MODE_FIELD, s8_string p.stats_mode)] else [])
              ++ (if isSaiS8ListValidString p.plugin_name ∧ isSaiS8ListValidString p.plugins
                then [(s8_string p.plugin_name, s8_string p.plugins)] else [])
              ++ (if isSaiS8ListValidString p.operation
                then [(env.FLEX_COUNTER_STATUS_FIELD, s8_string p.operation)] else [])
            let anyValid : Prop :=
              isSaiS8ListValidString p.poll_interval = true
              ∨ isSaiS8ListValidString p.bulk_chunk_size = true
              ∨ isSaiS8ListValidString p.bulk_chunk_size_per_prefix = true
              ∨ isSaiS8ListValidString p.stats_mode = true
              ∨ (isSaiS8ListValidString p.plugin_name = true
                  ∧ isSaiS8ListValidString p.plugins = true)
              ∨ isSaiS8ListValidString p.operation = true
            (anyValid →
              entries ≠ []
              ∧ notifyCounterGroupOperations env objectId (some p) s
                = waitForResponse env sai_common_api_t.SET
                    { s with calls := s.calls ++ [Call.channel_set
                        (s8_string p.counter_group_name) entries Command.FLEX_SET_GROUP] })
            ∧ (¬ anyValid →
              notifyCounterGroupOperations env objectId (some p) s
                = waitForResponse env sai_common_api_t.SET
                    { s with calls := s.calls ++ [Call.channel_set
                        (s8_string p.counter_group_name) [] Command.FLEX_DEL_GROUP] })) := by
  refine ⟨isSaiS8ListValidString_iff, ?_, ?_, ?_, ?_, ?_, ?_, ?_⟩
  · simp [notifyCounterOperations, run_pure]
  · intro p hkey
    simp [notifyCounterOperations, hkey, run_pure]
  · intro p hkey hname hids
    cases hmode : isSaiS8ListValidString p.stats_mode <;>
      simp [notifyCounterOperations, hkey, emplaceStrings_s8, hname, hids, emplaceStrings,
        hmode, channel_set_then _ _ _ _ s ch hch]
  · intro p hkey hinvalid
    have hnot : ¬ (isSaiS8ListValidString p.counter_field_name = true
        ∧ isSaiS8ListValidString p.counter_ids = true) := by
      rcases hinvalid with h | h <;> simp [h]
    simp [notifyCounterOperations, hkey, emplaceStrings_s8, hnot,
      channel_set_then _ _ _ _ s ch hch]
  · simp [notifyCounterGroupOperations, run_pure]
  · intro p hname
    simp [notifyCounterGroupOperations, hname, run_pure]
  · intro p hname entries anyValid
    have hentries : (emplaceStrings env.FLEX_COUNTER_STATUS_FIELD p.operation
        (emplaceStrings_s8 p.plugin_name p.plugins
          (emplaceStrings env.STATS_MODE_FIELD p.stats_mode
            (emplaceStrings env.BULK_CHUNK_SIZE_PER_PREFIX_FIELD p.bulk_chunk_size_per_prefix
              (emplaceStrings env.BULK_CHUNK_SIZE_FIELD p.bulk_chunk_size
                (emplaceStrings env.POLL_INTERVAL_FIELD p.poll_interval []).2).2).2).2).2).2
        = entries := by
      simp only [entries, emplaceStrings, emplaceStrings_s8]
      cases isSaiS8ListValidString p.poll_interval <;>
        cases isSaiS8ListValidString p.bulk_chunk_size <;>
        cases isSaiS8ListValidString p.bulk_chunk_size_per_prefix <;>
        cases isSaiS8ListValidString p.stats_mode <;>
        cases isSaiS8ListValidString p.plugin_name <;>
        cases isSaiS8ListValidString p.plugins <;>
        cases isSaiS8ListValidString p.operation <;> simp
    have hrun : notifyCounterGroupOperations env objectId (some p) s
        = waitForResponse env sai_common_api_t.SET
            { s with calls := s.calls ++ [Call.channel_set (s8_string p.counter_group_name)
                entries
                (if entries.length ≠ 0 then Command.FLEX_SET_GROUP
                  else Command.FLEX_DEL_GROUP)] } := by
      simp only [notifyCounterGroupOperations, hname, hentries, not_true_eq_false, if_false,
        channel_set_then _ _ _ _ s ch hch]
    have hiff : entries ≠ [] ↔ anyValid := by
      simp only [entries, anyValid]
      cases isSaiS8ListValidString p.poll_interval <;>
        cases isSaiS8ListValidString p.bulk_chunk_size <;>
        cases isSaiS8ListValidString p.bulk_chunk_size_per_prefix <;>
        cases isSaiS8ListValidString p.stats_mode <;>
        cases isSaiS8ListValidString p.plugin_name <;>
        cases isSaiS8ListValidString p.plugins <;>
        cases isSaiS8ListValidString p.operation <;> simp
    constructor
    · intro hany
      have hne : entries ≠ [] := hiff.mpr hany
      refine ⟨hne, ?_⟩
      rw [hrun]
      have : entries.length ≠ 0 := by
        intro h0
        exact hne (List.length_eq_zero.mp h0)
      simp [this]
    · intro hnone
      have hnil : entries = [] := by
        by_contra hne
        exact hnone (hiff.mp hne)
      rw [hrun, hnil]
      simp

/-- C26, amended, at a concrete input: a flex counter parameter with a valid
key, field name and ids and no stats mode makes the asynchronous interface
send start-poll with the one pair, and a group parameter without a group name
makes it return SAI_STATUS_FAILURE with nothing sent. -/
theorem flex_counter_command_selection_witness :
    exampleAsync.m_communicationChannel
        = some { kind := ChannelKind.RedisChannel, buffered := true, responseTimeout := 60000 }
      ∧ notifyCounterOperations (exampleEnv 0 [] 0) 0 (some exampleFlexCounter) exampleAsync
        = Outcome.ok SAI_STATUS_SUCCESS
            { exampleAsync with calls := exampleAsync.calls ++ [Call.channel_set "PORT:oid:0x1"
                [("PORT_COUNTER_ID_LIST", "SAI_PORT_STAT_IF_IN_OCTETS")]
                Command.FLEX_START_POLL] }
      ∧ notifyCounterGroupOperations (exampleEnv 0 [] 0) 0
          (some exampleFlexCounterGroupUnnamed) exampleAsync
        = Outcome.ok SAI_STATUS_FAILURE exampleAsync :=
  ⟨by rfl,
    ((flex_counter_command_selection (exampleEnv 0 [] 0) exampleAsync _ (by rfl) 0).2.2.2.1
      exampleFlexCounter (by rfl) (by rfl) (by rfl)).trans (by rfl),
    (flex_counter_command_selection (exampleEnv 0 [] 0) exampleAsync _ (by rfl)
      0).2.2.2.2.2.2.1 exampleFlexCounterGroupUnnamed (by rfl)⟩

/-- C27: the invariant "synchronous mode implies the channel is unbuffered" is
kept by setRedisExtensionAttribute: from any state that satisfies it, for
every object type, handle and attribute (a null pointer, any id, any value),
the state the call ends in satisfies it again. That covers every call that
returns success, for the deprecated sync-mode attribute, the communication
mode attribute and use-pipeline among the others. -/
theorem extension_set_keeps_sync_unbuffered (env : Env) (objectType : sai_object_type_t)
    (objectId : sai_object_id_t) (attr : Option sai_attribute_t)
    (s : RedisRemoteSaiInterface) (hinv : syncImpliesUnbuffered s) :
    syncImpliesUnbuffered (setRedisExtensionAttribute env objectType objectId attr s).self
      ∧ ∀ s1, setRedisExtensionAttribute env objectType objectId attr s
          = Outcome.ok SAI_STATUS_SUCCESS s1 → syncImpliesUnbuffered s1 := by
  have hmain := keeps_sync_unbuffered_setRedisExtensionAttribute env objectType objectId attr
    s hinv
  refine ⟨hmain, ?_⟩
  intro s1 hrun
  rw [hrun] at hmain
  exact hmain

/-- C27, at a concrete input: the asynchronous interface satisfies the
invariant, and so does the state after a deprecated sync-mode set with value
true (attribute id 0x10000006), which turns synchronous mode on. -/
theorem extension_set_keeps_sync_unbuffered_witness :
    syncImpliesUnbuffered exampleAsync
      ∧ (setRedisExtensionAttribute (exampleEnv 0 [] 0) SAI_OBJECT_TYPE_SWITCH 0
          (some (exampleAttr 0x10000006 true)) exampleAsync).self.m_syncMode = true
      ∧ syncImpliesUnbuffered
          (setRedisExtensionAttribute (exampleEnv 0 [] 0) SAI_OBJECT_TYPE_SWITCH 0
            (some (exampleAttr 0x10000006 true)) exampleAsync).self :=
  ⟨fun h => absurd h (by decide), by rfl,
    (extension_set_keeps_sync_unbuffered (exampleEnv 0 [] 0) SAI_OBJECT_TYPE_SWITCH 0
      (some (exampleAttr 0x10000006 true)) exampleAsync
      (fun h => absurd h (by decide))).1⟩

/-- C28: zmq mode is sticky. A communication-mode set that selects zmq-sync
returns success and leaves zmq enabled in the context configuration, with a
channel. From a state where zmq is enabled (by such a set or by the context
configuration), after any sequence of later set calls, a communication-mode
set returns success whatever value it requests (redis-async, redis-sync, an
undefined value) and leaves the interface in zmq-sync mode, synchronous, with
a fresh unbuffered zmq channel; and, when the state held a channel, a
deprecated sync-mode set returns success whatever its value and leaves the
interface synchronous with the channel unbuffered. -/
theorem zmq_mode_sticky (env : Env) (s : RedisRemoteSaiInterface)
    (objectType : sai_object_type_t) (objectId : sai_object_id_t) (a : sai_attribute_t) :
    (env.redis_switch_attr a.id = some sai_redis_switch_attr_t.REDIS_COMMUNICATION_MODE →
      env.communication_mode a.value.s32 = some sai_redis_communication_mode_t.ZMQ_SYNC →
      ∃ s1, setRedisExtensionAttribute env objectType objectId (some a) s
            = Outcome.ok SAI_STATUS_SUCCESS s1
          ∧ s1.m_zmqEnable = true
          ∧ s1.m_communicationChannel.isSome = true)
    ∧ (s.m_zmqEnable = true →
      ∀ later : List (sai_object_type_t × sai_object_id_t × Option sai_attribute_t),
        let s1 := (setSequence env later s).self
        (env.redis_switch_attr a.id = some sai_redis_switch_attr_t.REDIS_COMMUNICATION_MODE →
          setRedisExtensionAttribute env objectType objectId (some a) s1
            = Outcome.ok SAI_STATUS_SUCCESS
                { s1 with
                  m_redisCommunicationMode := some sai_redis_communication_mode_t.ZMQ_SYNC,
                  m_zmqEnable := true,
                  m_syncMode := true,
                  m_communicationChannel := some
                    { kind := ChannelKind.ZeroMQChannel, buffered := false,
                      responseTimeout := s1.m_responseTimeoutMs },
                  calls := s1.calls ++ [Call.channel_setResponseTimeout s1.m_responseTimeoutMs,
                    Call.channel_setBuffered false] })
        ∧ (env.redis_switch_attr a.id = some sai_redis_switch_attr_t.SYNC_MODE →
          s.m_communicationChannel.isSome = true →
          ∃ ch, s1.m_communicationChannel = some ch
            ∧ setRedisExtensionAttribute env objectType objectId (some a) s1
              = Outcome.ok SAI_STATUS_SUCCESS
                  { s1 with
                    m_syncMode := true,
                    m_communicationChannel := some { ch with buffered := false },
                    calls := s1.calls ++ [Call.channel_setBuffered false] })) := by
  constructor
  · intro hid hmode
    have hrun : setRedisExtensionAttribute env objectType objectId (some a) s
        = Outcome.ok SAI_STATUS_SUCCESS
            { s with
              m_redisCommunicationMode := some sai_redis_communication_mode_t.ZMQ_SYNC,
              m_zmqEnable := true,
              m_syncMode := true,
              m_communicationChannel := some
                { kind := ChannelKind.ZeroMQChannel, buffered := false,
                  responseTimeout := s.m_responseTimeoutMs },
              calls := s.calls ++ [Call.channel_setResponseTimeout s.m_responseTimeoutMs,
                Call.channel_setBuffered false] } := by
      simp only [setRedisExtensionAttribute, hid]
      cases hz : s.m_zmqEnable with
      | true => exact setRedisCommunicationMode_zmq env a s hz
      | false => rw [setRedisCommunicationMode_run env a s hz, hmode]
    exact ⟨_, hrun, rfl, rfl⟩
  · intro hz later s1
    obtain ⟨hz1, hch1⟩ := keeps_zmq_setSequence env later s hz
    constructor
    · intro hid
      simp only [setRedisExtensionAttribute, hid]
      exact setRedisCommunicationMode_zmq env a s1 hz1
    · intro hid hch
      have hsome := hch1 hch
      cases hc : s1.m_communicationChannel with
      | none =>
        have hc1 : (setSequence env later s).self.m_communicationChannel = none := hc
        rw [hc1] at hsome
        simp at hsome
      | some ch =>
        refine ⟨ch, rfl, ?_⟩
        rw [sync_mode_set_run env objectType objectId a s1 hid]
        have hz2 : s1.m_zmqEnable = true := hz1
        simp [hz2, hc]

/-- C28, at a concrete input: after zmq-sync was selected and a use-temp-view
set was made, a communication-mode set that requests redis-async (value 0)
returns success and leaves the interface in zmq-sync mode. -/
theorem zmq_mode_sticky_witness :
    exampleZmq.m_zmqEnable = true
      ∧ setRedisExtensionAttribute (exampleEnv 0 [] 0) SAI_OBJECT_TYPE_SWITCH 0
          (some (exampleAttrS32 0x10000007 0))
          (setSequence (exampleEnv 0 [] 0)
            [(SAI_OBJECT_TYPE_SWITCH, 0, some (exampleAttr 0x10000003 true))] exampleZmq).self
        = Outcome.ok SAI_STATUS_SUCCESS
            { exampleZmq with
              m_useTempView := true,
              m_redisCommunicationMode := some sai_redis_communication_mode_t.ZMQ_SYNC,
              m_zmqEnable := true,
              m_syncMode := true,
              m_communicationChannel := some
                { kind := ChannelKind.ZeroMQChannel, buffered := false,
                  responseTimeout := 60000 },
              calls := exampleZmq.calls ++ [Call.channel_setResponseTimeout 60000,
                Call.channel_setBuffered false] } :=
  ⟨by rfl,
    (((zmq_mode_sticky (exampleEnv 0 [] 0) exampleZmq SAI_OBJECT_TYPE_SWITCH 0
        (exampleAttrS32 0x10000007 0)).2 (by rfl)
      [(SAI_OBJECT_TYPE_SWITCH, 0, some (exampleAttr 0x10000003 true))]).1 (by rfl)).trans
      (by rfl)⟩

/-- C29: waitForQueryAttributeEnumValuesCapabilityResponse on an interface that
holds a channel. On a success response with two pairs, whose first value is k
pieces joined by commas (k at least 1, each piece free of commas and read by
std::stoi as an integer) and whose second value is read by std::stoi as the
count n, the output count is set to n and the first min(n, k) entries of the
output list are the first min(n, k) integers, the rest of the list being left
as it was: all n integers when k = n, only list[0..k) when k < n, only the
first n when k > n. On a buffer-overflow response with one pair only the count
is set and the list is left untouched. The status of the wait is returned. -/
theorem enum_values_decoding (env : Env) (s : RedisRemoteSaiInterface) (ch : Channel)
    (hch : s.m_communicationChannel = some ch) (enumValuesCapability : sai_s32_list_t)
    (count_str : String) (c : Int) (hcount : stoi count_str = some c) :
    (∀ (field0 field1 part : String) (parts : List String) (v : Int) (vs buf : List Int),
      (env.wait s.calls Command.ATTR_ENUM_VALUES_CAPABILITY_RESPONSE).1 = SAI_STATUS_SUCCESS →
      (env.wait s.calls Command.ATTR_ENUM_VALUES_CAPABILITY_RESPONSE).2.fieldsValues
        = [(field0, String.intercalate "," (part :: parts)), (field1, count_str)] →
      List.Forall₂ (fun piece value => (∀ x ∈ piece.toList, x.toNat ≠ 44)
        ∧ stoi piece = some value) (part :: parts) (v :: vs) →
      enumValuesCapability.list = some buf →
      min (to_uint32 c) (parts.length + 1) ≤ buf.length →
      let written := (v :: vs).take (to_uint32 c)
        ++ buf.drop (min (to_uint32 c) (parts.length + 1))
      waitForQueryAttributeEnumValuesCapabilityResponse env enumValuesCapability s
          = Outcome.ok (SAI_STATUS_SUCCESS, { count := to_uint32 c, list := some written })
              { s with calls := s.calls
                  ++ [Call.channel_wait Command.ATTR_ENUM_VALUES_CAPABILITY_RESPONSE] }
        ∧ written.length = buf.length
        ∧ (∀ j, j < min (to_uint32 c) (parts.length + 1) → written[j]? = (v :: vs)[j]?)
        ∧ (∀ j, min (to_uint32 c) (parts.length + 1) ≤ j → written[j]? = buf[j]?))
    ∧ (∀ field0 : String,
      (env.wait s.calls Command.ATTR_ENUM_VALUES_CAPABILITY_RESPONSE).1
        = SAI_STATUS_BUFFER_OVERFLOW →
      (env.wait s.calls Command.ATTR_ENUM_VALUES_CAPABILITY_RESPONSE).2.fieldsValues
        = [(field0, count_str)] →
      waitForQueryAttributeEnumValuesCapabilityResponse env enumValuesCapability s
        = Outcome.ok (SAI_STATUS_BUFFER_OVERFLOW,
            { enumValuesCapability with count := to_uint32 c })
            { s with calls := s.calls
                ++ [Call.channel_wait Command.ATTR_ENUM_VALUES_CAPABILITY_RESPONSE] }) := by
  constructor
  · intro field0 field1 part parts v vs buf hstatus hvalues hparts hbuf hlen written
    have hvlen : (v :: vs).length = parts.length + 1 := by
      have := hparts.length_eq
      simp only [List.length_cons] at this ⊢
      omega
    have hloop : enum_values_loop (to_uint32 c) 0
        (String.intercalate "," (part :: parts)).toList (some buf)
        = Except.ok (some written) := by
      rw [intercalate_comma_toList]
      cases hn : to_uint32 c with
      | zero => simp [enum_values_loop, written, hn]
      | succ n =>
        have hparts2 : List.Forall₂ (fun piece value => (∀ x ∈ piece, x.toNat ≠ 44)
            ∧ stoi (String.mk piece) = some value)
            (part.data :: parts.map String.data) (v :: vs) := by
          have := (List.forall₂_map_left_iff
            (R := fun piece value => (∀ x ∈ piece, x.toNat ≠ 44)
              ∧ stoi (String.mk piece) = some value)
            (f := String.data) (l := part :: parts) (u := v :: vs)).mpr hparts
          simpa using this
        have hrun := enum_values_loop_run n 0 part.data (parts.map String.data) v vs buf
          hparts2 (by
            rw [hn] at hlen
            simpa using hlen)
        rw [hrun]
        simp [written, hn]
    refine ⟨?_, ?_, ?_, ?_⟩
    · simp only [waitForQueryAttributeEnumValuesCapabilityResponse, run_bind,
        channel_wait_run env _ s ch hch, hstatus, hvalues]
      simp only [String.toList] at hloop
      simp [hcount, hbuf, hloop, run_bind, run_ofExcept_ok, run_pure]
    · simp only [written, List.length_append, List.length_take, List.length_drop, hvlen]
      omega
    · intro j hj
      simp only [written]
      rw [List.getElem?_append_left (by
        simp only [List.length_take, hvlen]
        omega)]
      rw [List.getElem?_take_of_lt (by omega)]
    · intro j hj
      simp only [written]
      have htake : ((v :: vs).take (to_uint32 c)).length
          = min (to_uint32 c) (parts.length + 1) := by
        simp only [List.length_take, hvlen]
      rw [List.getElem?_append_right (by omega), htake, List.getElem?_drop]
      congr 1
      omega
  · intro field0 hstatus hvalues
    have hne : SAI_STATUS_BUFFER_OVERFLOW ≠ SAI_STATUS_SUCCESS := by decide
    simp only [waitForQueryAttributeEnumValuesCapabilityResponse, run_bind,
      channel_wait_run env _ s ch hch, hstatus, hvalues]
    simp [hne, hcount, run_pure]
/-- C29, at a concrete input: the success response "10,-2,3" with count 3,
decoded into a list of four entries, sets the count to 3, writes the three
integers and leaves the fourth entry as it was. -/
theorem enum_values_decoding_witness :
    waitForQueryAttributeEnumValuesCapabilityResponse
        (exampleEnv SAI_STATUS_SUCCESS
          [("ENUM_CAPABILITIES", "10,-2,3"), ("ENUM_COUNT", "3")] 0)
        { count := 4, list := some [7, 7, 7, 7] } exampleSync
      = Outcome.ok (SAI_STATUS_SUCCESS, { count := 3, list := some [10, -2, 3, 7] })
          { exampleSync with calls := exampleSync.calls
              ++ [Call.channel_wait Command.ATTR_ENUM_VALUES_CAPABILITY_RESPONSE] } :=
  ((enum_values_decoding
      (exampleEnv SAI_STATUS_SUCCESS [("ENUM_CAPABILITIES", "10,-2,3"), ("ENUM_COUNT", "3")] 0)
      exampleSync _ (by rfl) { count := 4, list := some [7, 7, 7, 7] } "3" 3 (by rfl)).1
    "ENUM_CAPABILITIES" "ENUM_COUNT" "10" ["-2", "3"] 10 [-2, 3] [7, 7, 7, 7]
    (by rfl) (by rfl)
    (List.Forall₂.cons ⟨by decide, by rfl⟩
      (List.Forall₂.cons ⟨by decide, by rfl⟩
        (List.Forall₂.cons ⟨by decide, by rfl⟩ List.Forall₂.nil)))
    (by rfl) (by decide)).1

/-- C23: Sai::set with a redis extension attribute (an attribute of the switch
type whose id is in the custom range), on an initialized facade, when no call
of set it makes ends in a fault. A context is selected when the handle is null
or its registry contains the handle; with a null handle every context of the
map is selected, with a non-null handle exactly those whose registry contains
that switch. The remote interface of every selected context is left as
RedisRemoteSaiInterface::set leaves it, whatever the statuses of the contexts
before it were, and the other contexts are untouched. The status returned is
success if the set of every selected context returned success (so it is
success when no context is selected), and failure otherwise. -/
theorem extension_set_fan_out (fenv : FacadeEnv) (s : Sai)
    (hinit : s.m_apiInitialized = true) (objectId : sai_object_id_t) (a : sai_attribute_t)
    (hext : SAI_SWITCH_ATTR_CUSTOM_RANGE_START ≤ a.id)
    (hret : ∀ kvp ∈ s.m_contextMap,
      (decide (objectId = SAI_NULL_OBJECT_ID) || containsSwitch kvp.2.m_redisSai objectId)
        = true →
      (sairedis.set (fenv.context_env kvp.1) SAI_OBJECT_TYPE_SWITCH objectId (some a)
        kvp.2.m_redisSai).fault? = none) :
    let selected : Nat × Context → Bool := fun kvp =>
      decide (objectId = SAI_NULL_OBJECT_ID) || containsSwitch kvp.2.m_redisSai objectId
    let applied : Nat × Context → Outcome sai_status_t := fun kvp =>
      sairedis.set (fenv.context_env kvp.1) SAI_OBJECT_TYPE_SWITCH objectId (some a)
        kvp.2.m_redisSai
    let allSucceeded : Bool := s.m_contextMap.all (fun kvp =>
      !selected kvp || decide ((applied kvp).value? = some SAI_STATUS_SUCCESS))
    Sai.set fenv SAI_OBJECT_TYPE_SWITCH objectId (some a) s
        = SaiOutcome.ok (if allSucceeded = true then SAI_STATUS_SUCCESS else SAI_STATUS_FAILURE)
            { s with m_contextMap := s.m_contextMap.map (fun kvp =>
                if selected kvp = true then (kvp.1, { m_redisSai := (applied kvp).self })
                else kvp) }
      ∧ (allSucceeded = true ↔
          ∀ kvp ∈ s.m_contextMap, selected kvp = true →
            (applied kvp).value? = some SAI_STATUS_SUCCESS)
      ∧ (objectId = SAI_NULL_OBJECT_ID → ∀ kvp ∈ s.m_contextMap, selected kvp = true)
      ∧ (objectId ≠ SAI_NULL_OBJECT_ID → ∀ kvp ∈ s.m_contextMap,
          (selected kvp = true ↔
            SwitchContainer.contains kvp.2.m_redisSai.m_switchContainer objectId = true)) := by
  intro selected applied allSucceeded
  have hattr : isRedisAttribute SAI_OBJECT_TYPE_SWITCH (some a) = true := by
    simp [isRedisAttribute, Nat.not_lt.mpr hext]
  have hloop := set_loop_run fenv objectId (some a) s.m_contextMap true hret
  rw [Bool.true_and] at hloop
  refine ⟨?_, ?_, ?_, ?_⟩
  · simp only [Sai.set, REDIS_CHECK_API_INITIALIZED, hinit, hattr, hloop]
    rfl
  · constructor
    · intro hall kvp hmem hsel
      have := List.all_eq_true.mp hall kvp hmem
      simpa [hsel] using this
    · intro hall
      apply List.all_eq_true.mpr
      intro kvp hmem
      cases hsel : selected kvp
      · simp
      · simp [hall kvp hmem hsel]
  · intro hnull kvp _
    simp [selected, hnull]
  · intro hnonnull kvp _
    simp [selected, hnonnull, containsSwitch]

/-- C23, at a concrete input: a use-temp-view set (attribute id 0x10000003) on
the switch 0x21000000000000 is applied to context 0, whose registry holds the
switch, and not to context 1; it returns success. -/
theorem extension_set_fan_out_witness :
    Sai.set exampleFacadeEnv SAI_OBJECT_TYPE_SWITCH 0x21000000000000
        (some (exampleAttr 0x10000003 true)) exampleSai
      = SaiOutcome.ok SAI_STATUS_SUCCESS
          { exampleSai with m_contextMap :=
              [(0, { m_redisSai := { exampleWithSwitch with m_useTempView := true } }),
               (1, { m_redisSai := exampleAsync })] } :=
  ((extension_set_fan_out exampleFacadeEnv exampleSai (by rfl) 0x21000000000000
      (exampleAttr 0x10000003 true) (by decide)
      (by
        intro kvp hmem _
        simp only [exampleSai, List.mem_cons, List.mem_singleton, List.not_mem_nil,
          or_false] at hmem
        rcases hmem with h | h <;> subst h <;> rfl)).1).trans (by rfl)
/-- C24 does not hold on the code for bulkSet and bulkGet: on an initialized
facade, with a null object_id array, bulkRemove returns
SAI_STATUS_INVALID_PARAMETER and calls no context, while bulkSet and bulkGet,
which have no pointer check, dereference the null pointer in
REDIS_CHECK_CONTEXT(*object_id) and do not return. -/
theorem bulk_null_object_id (fenv : FacadeEnv) (s : Sai) (hinit : s.m_apiInitialized = true)
    (object_type : sai_object_type_t) (object_count : Nat) (attr_list : List sai_attribute_t)
    (attr_lists : List (List sai_attribute_t)) (mode : Nat) :
    Sai.bulkRemove fenv object_type object_count none mode s
        = SaiOutcome.ok SAI_STATUS_INVALID_PARAMETER s
      ∧ Sai.bulkSet fenv object_type object_count none attr_list mode s
        = SaiOutcome.fault Fault.nullPointer s
      ∧ Sai.bulkGet fenv object_type object_count none attr_lists mode s
        = SaiOutcome.fault Fault.nullPointer s := by
  simp [Sai.bulkRemove, Sai.bulkSet, Sai.bulkGet, REDIS_CHECK_API_INITIALIZED,
    REDIS_CHECK_POINTER, deref_object_id, hinit]

/-- C24, at a concrete input: on the initialized facade with two contexts, a
bulkSet of one port with a null object_id array ends in a null pointer
dereference. -/
theorem bulk_null_object_id_witness :
    exampleSai.m_apiInitialized = true
      ∧ (Sai.bulkSet exampleFacadeEnv 1 1 none [exampleAttr 5 true] 0 exampleSai).value? = none
      ∧ (Sai.bulkSet exampleFacadeEnv 1 1 none [exampleAttr 5 true] 0 exampleSai).fault?
        = some Fault.nullPointer :=
  ⟨by rfl,
    congrArg SaiOutcome.value?
      (bulk_null_object_id exampleFacadeEnv exampleSai (by rfl) 1 1 [exampleAttr 5 true] []
        0).2.1,
    by rfl⟩

/-- C30: Sai::create for the switch type with a non-empty attribute list, on an
initialized facade. When the context decoded from the switchId argument has
no entry, it returns SAI_STATUS_FAILURE and calls no context. Otherwise the
last attribute alone selects the context: the context g of its u32 value when
its id is the context attribute, and then the attribute count passed down is
one less, so that the list passed down is the list without its last
attribute; the context 0 with the count unchanged when its id is another one,
whatever the ids of the attributes before it are. When the selected context
has no entry, it returns SAI_STATUS_FAILURE and calls no context; when it has
one, the create is made on that context with that count, its status is
returned, and the only other calls are populateMetadata on the same context. -/
theorem switch_create_routing (fenv : FacadeEnv) (s : Sai) (hinit : s.m_apiInitialized = true)
    (switchId : sai_object_id_t) (attrs : List sai_attribute_t) (last : sai_attribute_t) :
    let buffer := attrs ++ [last]
    let attr_count := buffer.length
    let isContext : Bool := last.id == fenv.SAI_REDIS_SWITCH_ATTR_CONTEXT
    let globalContext := if isContext then last.value.u32 else 0
    let passed_count := if isContext then attr_count - 1 else attr_count
    let result := Sai.create fenv SAI_OBJECT_TYPE_SWITCH switchId attr_count (some buffer) s
    (Sai.getContext s (fenv.getGlobalContext switchId) = none →
        result = SaiOutcome.ok SAI_STATUS_FAILURE s)
      ∧ (Sai.getContext s (fenv.getGlobalContext switchId) ≠ none →
        Sai.getContext s globalContext = none →
        result = SaiOutcome.ok SAI_STATUS_FAILURE s)
      ∧ (Sai.getContext s (fenv.getGlobalContext switchId) ≠ none →
        ∀ c, Sai.getContext s globalContext = some c →
          ∃ l, result.value? = some (fenv.context_answer s.calls globalContext
                (ContextCall.create SAI_OBJECT_TYPE_SWITCH switchId passed_count (some buffer))
                c.m_redisSai).1.status
            ∧ result.self.calls = s.calls
                ++ (globalContext,
                    ContextCall.create SAI_OBJECT_TYPE_SWITCH switchId passed_count (some buffer))
                  :: l
            ∧ ∀ x ∈ l, ∃ id, x = (globalContext, ContextCall.populateMetadata id))
      ∧ buffer.take passed_count = (if isContext then attrs else attrs ++ [last]) := by
  intro buffer attr_count isContext globalContext passed_count result
  have hcount : attr_count > 0 := by simp [attr_count, buffer]
  have hlast : buffer.get? (attr_count - 1) = some last := by
    simp [attr_count, buffer]
  refine ⟨?_, ?_, ?_, ?_⟩
  · intro hctx
    simp [result, Sai.create, REDIS_CHECK_API_INITIALIZED, REDIS_CHECK_CONTEXT, hinit, hctx]
  · intro hctx hsel
    cases hc0 : Sai.getContext s (fenv.getGlobalContext switchId) with
    | none => exact absurd hc0 hctx
    | some c0 =>
      simp only [result, Sai.create, REDIS_CHECK_API_INITIALIZED, REDIS_CHECK_CONTEXT, hinit,
        hc0]
      simp only [hcount, and_self, if_true, hlast]
      simp [isContext, globalContext] at hsel ⊢
      simp [hsel]
  · intro hctx c hsel
    cases hc0 : Sai.getContext s (fenv.getGlobalContext switchId) with
    | none => exact absurd hc0 hctx
    | some c0 =>
      have hrun : result = Sai.create_on fenv globalContext SAI_OBJECT_TYPE_SWITCH switchId
          passed_count (some buffer) s := by
        simp only [result, Sai.create, REDIS_CHECK_API_INITIALIZED, REDIS_CHECK_CONTEXT, hinit,
          hc0]
        simp only [hcount, and_self, if_true, hlast]
        simp [isContext, globalContext, passed_count] at hsel ⊢
        simp [hsel]
      rw [hrun]
      exact create_on_run fenv globalContext SAI_OBJECT_TYPE_SWITCH switchId passed_count
        (some buffer) s c hsel
  · cases hic : isContext <;> simp [passed_count, attr_count, buffer, hic]
/-- C30, at a concrete input: a switch create whose list ends with the context
attribute (id 0x1000000e) of value 1 is made on context 1 with one attribute
passed down, and returns the status of that context. -/
theorem switch_create_routing_witness :
    ∃ l, (Sai.create exampleFacadeEnv SAI_OBJECT_TYPE_SWITCH 0 2
            (some [exampleAttr 1 true, exampleAttrU32 0x1000000e 1]) exampleSai).value?
          = some SAI_STATUS_SUCCESS
      ∧ (Sai.create exampleFacadeEnv SAI_OBJECT_TYPE_SWITCH 0 2
            (some [exampleAttr 1 true, exampleAttrU32 0x1000000e 1]) exampleSai).self.calls
          = exampleSai.calls
              ++ (1, ContextCall.create SAI_OBJECT_TYPE_SWITCH 0 1
                    (some [exampleAttr 1 true, exampleAttrU32 0x1000000e 1])) :: l
      ∧ ∀ x ∈ l, ∃ id, x = (1, ContextCall.populateMetadata id) :=
  (switch_create_routing exampleFacadeEnv exampleSai (by rfl) 0 [exampleAttr 1 true]
    (exampleAttrU32 0x1000000e 1)).2.2.1 (by intro h; cases h) { m_redisSai := exampleAsync }
    (by rfl)

end sairedis
